import Mathlib

/-!
# Verification of the rotation-and-fairness scheduling core

A shallow embedding of the duty-roster generation engine
(`schedule_core.py`, `models.py`, `lib/invariant_checker.py`) and proofs
about it.  Conventions used throughout:

* Engineers are `String`s, as in the source.
* Python `float` weights are embedded as `ℚ`; every weight occurring in the
  scheduler is a small decimal constant (1.0, 1.2, 1.5, 2.0), so rational
  arithmetic is an exact model of the computations the claims mention.
* A calendar date is embedded as its proleptic-Gregorian ordinal
  (`datetime.date.toordinal`), an integer.  Ordinal 1 is a Monday, so
  `weekday d = (d - 1) % 7` with Monday = 0 … Sunday = 6, exactly
  Python's `date.weekday()`.  `timedelta` arithmetic is integer
  arithmetic on ordinals.
* Python `%` on `int` is floor-mod, which for a positive modulus agrees
  with `Int.emod`; Python `//` is floor division, `Int.fdiv`.
* Python `dict`s keep insertion order; they are embedded as association
  lists in insertion order, with `.get(k, default)` as lookup-with-default.
* `sorted(xs, key=f)` is a stable sort; it is embedded as a stable
  insertion sort `stableSortBy`.
* `datetime.now()` readings are modelled by an ambient `clock : ℕ → ℤ`
  giving the value of the n-th clock read of a run; each `DecisionEntry`
  samples the clock exactly once, at creation, so the k-th created entry
  carries timestamp `clock k`.
-/

namespace Scheduler

/-- Engineer names, as in the source roster of strings. -/
abbrev Eng := String

/-- A calendar date as its `toordinal()` integer. -/
abbrev Date := ℤ

/-- `d.weekday()`: Monday = 0 … Sunday = 6 (ordinal 1 is a Monday). -/
def weekday (d : Date) : ℤ := (d - 1) % 7

/-- `is_weekday` from `schedule_core.py`: Mon..Fri. -/
def is_weekday (d : Date) : Bool := weekday d < 5

/-- `week_index(start_sunday, d) = (d - start_sunday).days // 7` (floor division). -/
def week_index (start_sunday d : Date) : ℤ := Int.fdiv (d - start_sunday) 7

/-- `build_rotation`: `engineers[seed % n:] + engineers[:seed % n]`.
Python raises `ZeroDivisionError` on an empty roster; the embedding returns
`[]` there (no claim touches that case). -/
def build_rotation (engineers : List Eng) (seed : ℤ) : List Eng :=
  if engineers.isEmpty then []
  else
    let s := (seed % (engineers.length : ℤ)).toNat
    engineers.drop s ++ engineers.take s

/-- The five role categories tracked by the fairness state.  The source
indexes them by the string literals `'weekend'`, `'oncall'`, `'early'`,
`'chat'`, `'appointments'`; every call site uses one of these five, so an
enumeration is a faithful index type. -/
inductive Role
  | weekend
  | oncall
  | early
  | chat
  | appointments
deriving DecidableEq, Repr

/-- The per-role string used when the source formats a role name. -/
def Role.name : Role → String
  | .weekend => "weekend"
  | .oncall => "oncall"
  | .early => "early"
  | .chat => "chat"
  | .appointments => "appointments"

/-- One engineer's per-role accumulated weights: the inner dict
`{'weekend': 0, 'oncall': 0, 'early': 0, 'chat': 0, 'appointments': 0}`. -/
structure Counts where
  weekend : ℚ
  oncall : ℚ
  early : ℚ
  chat : ℚ
  appointments : ℚ
deriving DecidableEq, Repr

def Counts.zero : Counts := ⟨0, 0, 0, 0, 0⟩

def Counts.get (c : Counts) : Role → ℚ
  | .weekend => c.weekend
  | .oncall => c.oncall
  | .early => c.early
  | .chat => c.chat
  | .appointments => c.appointments

def Counts.set (c : Counts) (r : Role) (v : ℚ) : Counts :=
  match r with
  | .weekend => { c with weekend := v }
  | .oncall => { c with oncall := v }
  | .early => { c with early := v }
  | .chat => { c with chat := v }
  | .appointments => { c with appointments := v }

def Counts.add (c : Counts) (r : Role) (w : ℚ) : Counts :=
  c.set r (c.get r + w)

/-- `sum(self.assignment_history[engineer].values())`. -/
def Counts.total (c : Counts) : ℚ :=
  c.weekend + c.oncall + c.early + c.chat + c.appointments

/-- Update the value at key `e` of an association list (Python dict update
on an existing key). -/
def updAssoc {β : Type} (l : List (Eng × β)) (e : Eng) (f : β → β) : List (Eng × β) :=
  l.map fun p => if p.1 = e then (p.1, f p.2) else p

/-- Python `min` over a list of rationals (`0` for the empty list, matching
the `if role_counts else 0` guards at the use sites). -/
def listMin (l : List ℚ) : ℚ :=
  match l with
  | [] => 0
  | x :: xs => xs.foldl min x

/-- Insert `x` into `l` after every element `y` with `le y x`; the building
block of the stable sort. -/
def insertLe {α : Type} (le : α → α → Bool) (x : α) : List α → List α
  | [] => [x]
  | y :: ys => if le y x then y :: insertLe le x ys else x :: y :: ys

/-- Stable insertion sort: elements with equal keys keep their original
relative order, exactly like Python's `sorted`. -/
def stableSortBy {α : Type} (le : α → α → Bool) (l : List α) : List α :=
  l.foldl (fun acc y => insertLe le y acc) []

/-- `sorted(l, key=f)` for a key comparison `le`. -/
def sortByKey {α κ : Type} (le : κ → κ → Bool) (f : α → κ) (l : List α) : List α :=
  stableSortBy (fun a b => le (f a) (f b)) l

/-- Lexicographic comparison on `(fairness weight, rotation position)` keys. -/
def qnLe (a b : ℚ × ℕ) : Bool :=
  decide (a.1 < b.1) || (decide (a.1 = b.1) && decide (a.2 ≤ b.2))

/-- Comparison for integer sort keys. -/
def zLe (a b : ℤ) : Bool := decide (a ≤ b)

/-- Comparison for Python's default string sort. -/
def strLe (a b : Eng) : Bool := decide (a ≤ b)

/-- The state of `EnhancedFairnessTracker`.  `role_distribution_variance`
starts as an empty dict and is read only with default `0.0`, so it is
embedded as a `Counts` record starting at zero. -/
structure EnhancedFairnessTracker where
  engineers : List Eng
  assignment_history : List (Eng × Counts)
  weekend_assignments : List (Eng × ℤ)
  role_distribution_variance : Counts
deriving DecidableEq, Repr

/-- `EnhancedFairnessTracker.__init__`. -/
def EnhancedFairnessTracker.fresh (engineers : List Eng) : EnhancedFairnessTracker where
  engineers := engineers
  assignment_history := engineers.map fun e => (e, Counts.zero)
  weekend_assignments := engineers.map fun e => (e, 0)
  role_distribution_variance := Counts.zero

/-- `self.assignment_history[eng][role]`; every engineer of
`self.engineers` is a key, so the default branch is never hit on the
source's states. -/
def EnhancedFairnessTracker.count (t : EnhancedFairnessTracker) (e : Eng) (r : Role) : ℚ :=
  ((t.assignment_history.lookup e).getD Counts.zero).get r

/-- `_update_role_variance`. -/
def EnhancedFairnessTracker.update_role_variance
    (t : EnhancedFairnessTracker) (r : Role) : EnhancedFairnessTracker :=
  let role_counts := t.engineers.map fun e => t.count e r
  let v : ℚ :=
    if 1 < role_counts.length then
      let n : ℚ := role_counts.length
      let mean := role_counts.sum / n
      ((role_counts.map fun c => (c - mean) * (c - mean)).sum) / n
    else 0
  { t with role_distribution_variance := t.role_distribution_variance.set r v }

/-- `track_assignment(engineer, role, weight=1.0)`.  The inner
`if role in self.assignment_history[engineer]` always holds because the
role index type is the five tracked roles. -/
def EnhancedFairnessTracker.track_assignment
    (t : EnhancedFairnessTracker) (e : Eng) (r : Role) (weight : ℚ := 1) :
    EnhancedFairnessTracker :=
  if (t.assignment_history.lookup e).isSome then
    let t1 := { t with assignment_history := updAssoc t.assignment_history e (·.add r weight) }
    let t2 :=
      if r = .weekend then
        { t1 with weekend_assignments := updAssoc t1.weekend_assignments e (· + 1) }
      else t1
    t2.update_role_variance r
  else t

/-- `track_assignment_with_weight(engineer, role, date, weight=1.0)`; the
`date` argument is unused by the source body. -/
def EnhancedFairnessTracker.track_assignment_with_weight
    (t : EnhancedFairnessTracker) (e : Eng) (r : Role) (_date : String)
    (weight : ℚ := 1) : EnhancedFairnessTracker :=
  if (t.assignment_history.lookup e).isSome then
    let t1 := { t with assignment_history := updAssoc t.assignment_history e (·.add r weight) }
    let t2 :=
      if r = .weekend then
        { t1 with weekend_assignments := updAssoc t1.weekend_assignments e (· + 1) }
      else t1
    t2.update_role_variance r
  else t

/-- `get_fairness_weights(role)`: dict over `self.engineers` of
`max(0.0, count - min_count)`, read elsewhere with `.get(eng, 0)` —
embedded as the total function that is `0` off the roster. -/
def EnhancedFairnessTracker.get_fairness_weights
    (t : EnhancedFairnessTracker) (r : Role) : Eng → ℚ :=
  let role_counts := t.engineers.map fun e => t.count e r
  let min_count := if role_counts.isEmpty then 0 else listMin role_counts
  fun e => if e ∈ t.engineers then max 0 (t.count e r - min_count) else 0

/-- `sum(self.assignment_history[engineer].values())` over `self.engineers`. -/
def EnhancedFairnessTracker.totals (t : EnhancedFairnessTracker) : List ℚ :=
  t.engineers.map fun e => ((t.assignment_history.lookup e).getD Counts.zero).total

end Scheduler

namespace Scheduler

/-- The five roles in the iteration order the source uses
(`['weekend', 'oncall', 'early', 'chat', 'appointments']`). -/
def roleList : List Role := [.weekend, .oncall, .early, .chat, .appointments]

/-- Rotation seeds: the `seeds` dict; `seeds.get(role, 0)` always finds one
of these five keys in the pipeline's configurations. -/
structure Seeds where
  weekend : ℤ
  chat : ℤ
  oncall : ℤ
  appointments : ℤ
  early : ℤ
deriving DecidableEq, Repr

def Seeds.get (s : Seeds) : Role → ℤ
  | .weekend => s.weekend
  | .oncall => s.oncall
  | .early => s.early
  | .chat => s.chat
  | .appointments => s.appointments

/-- A decision-log entry as created during a run, before its
`datetime.now()` timestamp is attached (see the header comment). -/
structure EntryData where
  date : String
  decision_type : String
  affected_engineers : List Eng
  reason : String
  alternatives_considered : List String
deriving DecidableEq, Repr

/-- `DecisionEntry` from `models.py`: `EntryData` plus the creation
timestamp sampled from the ambient clock. -/
structure DecisionEntry where
  date : String
  decision_type : String
  affected_engineers : List Eng
  reason : String
  alternatives_considered : List String
  timestamp : ℤ
deriving DecidableEq, Repr

def EntryData.withTs (e : EntryData) (ts : ℤ) : DecisionEntry :=
  ⟨e.date, e.decision_type, e.affected_engineers, e.reason, e.alternatives_considered, ts⟩

/-- Attach creation timestamps: the k-th created entry (0-based) reads the
clock for the k-th time.  `entries` is in creation order. -/
def attach_timestamps (clock : ℕ → ℤ) : ℕ → List EntryData → List DecisionEntry
  | _, [] => []
  | k, e :: es => e.withTs (clock k) :: attach_timestamps clock (k + 1) es

/-- Erase the timestamp of an entry (for stating clock-independence). -/
def DecisionEntry.eraseTs (e : DecisionEntry) : EntryData :=
  ⟨e.date, e.decision_type, e.affected_engineers, e.reason, e.alternatives_considered⟩

/-- Injective stand-in for `date.isoformat()`.  The exact text of a date
string is cosmetic: it only appears inside log/violation text fields, and
no claim depends on the calendar rendering. -/
def date_iso (d : Date) : String := "day:" ++ toString d

/-- `pd.Timestamp(d).strftime("%a")`. -/
def day_abbrev (d : Date) : String :=
  match (weekday d).toNat with
  | 0 => "Mon" | 1 => "Tue" | 2 => "Wed" | 3 => "Thu" | 4 => "Fri" | 5 => "Sat" | _ => "Sun"

/-- `d.strftime('%A')`. -/
def day_full (d : Date) : String :=
  match (weekday d).toNat with
  | 0 => "Monday" | 1 => "Tuesday" | 2 => "Wednesday" | 3 => "Thursday"
  | 4 => "Friday" | 5 => "Saturday" | _ => "Sunday"

/-- `d.strftime('%A, %B %d')`; the month-name rendering is abstracted by
the injective `date_iso` (the text is cosmetic, see `date_iso`). -/
def date_long (d : Date) : String := day_full d ++ ", " ++ date_iso d

/-- Stand-in for Python's `str(float)` rendering inside rationale strings;
only ever used in free-text fields no claim inspects numerically. -/
def ratStr (q : ℚ) : String :=
  if q.den = 1 then toString q.num ++ ".0" else toString q

/-- `calculate_gini_coefficient` (the exact source formula over ℚ):
sort ascending, return 0 for `n ≤ 1`, all-equal or zero-sum inputs,
else `2·Σ(i·vᵢ)/(n·Σvᵢ) − (n+1)/n` clamped to `[0, 1]`. -/
def calculate_gini_coefficient (values : List ℚ) : ℚ :=
  if values.length ≤ 1 then 0
  else
    let sorted_values := stableSortBy (fun a b => decide (a ≤ b)) values
    let n : ℕ := sorted_values.length
    if sorted_values.all fun x => decide (x = sorted_values.headD 0) then 0
    else
      let total := sorted_values.sum
      if total = 0 then 0
      else
        let weighted := ((List.range n).zip sorted_values).map fun p => ((p.1 : ℚ) + 1) * p.2
        let gini := 2 * weighted.sum / ((n : ℚ) * total) - ((n : ℚ) + 1) / (n : ℚ)
        max 0 (min 1 gini)

/-- C6 refinement reference: the Gini formula exactly as the spec words it
(sort ascending; `G = 2*(sum of i*v_i) / (n*(sum of v)) - (n+1)/n` with the
1-based index `i` written as a `Finset.range` sum; 0 when `n <= 1`, when
all values are equal or when they sum to zero; clamp to `[0,1]`).  This
definition follows the spec's text, to be compared against the
source-derived `calculate_gini_coefficient`. -/
def giniSpec (values : List ℚ) : ℚ :=
  let v := stableSortBy (fun a b => decide (a ≤ b)) values
  let n := v.length
  if n ≤ 1 then 0
  else if v.all fun x => decide (x = v.headD 0) then 0
  else if v.sum = 0 then 0
  else
    max 0 (min 1
      (2 * (∑ i ∈ Finset.range n, ((i : ℚ) + 1) * v.getD i 0) / ((n : ℚ) * v.sum) -
        ((n : ℚ) + 1) / (n : ℚ)))

/-- `weekend_worker_for_week`: `engineers_rotated[week_idx % n]`.
Python raises on an empty list; the embedding returns `""` there. -/
def weekend_worker_for_week (engineers_rotated : List Eng) (week_idx : ℤ) : Eng :=
  if engineers_rotated.isEmpty then ""
  else engineers_rotated.getD (week_idx % (engineers_rotated.length : ℤ)).toNat ""

/-- `calculate_fairness_weighted_selection`: stable sort of the candidates
by `(fairness weight, position in base rotation)`. -/
def calculate_fairness_weighted_selection (candidates : List Eng) (role : Role)
    (fairness_tracker : Option EnhancedFairnessTracker)
    (base_rotation_order : Option (List Eng) := none) : List Eng :=
  match fairness_tracker with
  | none => candidates
  | some ft =>
    if candidates.isEmpty then candidates
    else
      let fairness_weights := ft.get_fairness_weights role
      let base := base_rotation_order.getD (stableSortBy strLe candidates)
      sortByKey qnLe
        (fun e => (fairness_weights e, if e ∈ base then base.indexOf e else base.length))
        candidates

/-- `get_fairness_weighted_rotation_order`. -/
def get_fairness_weighted_rotation_order (engineers : List Eng) (role : Role) (seed : ℤ)
    (available_engineers : List Eng)
    (fairness_tracker : Option EnhancedFairnessTracker := none) : List Eng :=
  if available_engineers.isEmpty then []
  else
    let base_rotation := build_rotation engineers seed
    let available_in_rotation_order := base_rotation.filter fun e => available_engineers.contains e
    match fairness_tracker with
    | some ft =>
      calculate_fairness_weighted_selection available_in_rotation_order role (some ft)
        (some base_rotation)
    | none => available_in_rotation_order

/-- `enhanced_weekend_assignment`: selects by fairness-weighted rotation
AND mutates the tracker (weight 2.0 on the weekend counter of the
selection); state-passing makes the mutation explicit. -/
def enhanced_weekend_assignment (engineers : List Eng) (week_idx : ℤ)
    (fairness_tracker : EnhancedFairnessTracker) (base_seed : ℤ := 0) :
    Eng × EnhancedFairnessTracker :=
  let base_rotation := build_rotation engineers base_seed
  let fairness_ordered :=
    calculate_fairness_weighted_selection base_rotation .weekend (some fairness_tracker)
      (some base_rotation)
  let selected_engineer :=
    if fairness_ordered.isEmpty then ""
    else fairness_ordered.getD (week_idx % (fairness_ordered.length : ℤ)).toNat ""
  (selected_engineer,
   fairness_tracker.track_assignment_with_weight selected_engineer .weekend
     ("week_" ++ toString week_idx) 2)

/-- `get_weekend_worker_for_week`: the same selection as
`enhanced_weekend_assignment` but without tracking (a pure read). -/
def get_weekend_worker_for_week (engineers : List Eng) (week_idx : ℤ)
    (fairness_tracker : Option EnhancedFairnessTracker := none) (base_seed : ℤ := 0) : Eng :=
  match fairness_tracker with
  | none =>
    let base_rotation := build_rotation engineers base_seed
    if base_rotation.isEmpty then ""
    else base_rotation.getD (week_idx % (base_rotation.length : ℤ)).toNat ""
  | some ft =>
    let base_rotation := build_rotation engineers base_seed
    let fairness_ordered :=
      calculate_fairness_weighted_selection base_rotation .weekend (some ft) (some base_rotation)
    if fairness_ordered.isEmpty then ""
    else fairness_ordered.getD (week_idx % (fairness_ordered.length : ℤ)).toNat ""

/-- `calculate_weekend_compensation`. -/
def calculate_weekend_compensation (_engineer : Eng) (weekend_date : Date)
    (pattern_type : String) : List Date :=
  if pattern_type = "A" then [weekend_date + 6]
  else if pattern_type = "B" then [weekend_date + 1]
  else []

/-- `works_today`: the weekend work-pattern rule. -/
def works_today (engineer : Eng) (d : Date) (start_sunday : Date) (weekend_seeded : List Eng)
    (fairness_tracker : Option EnhancedFairnessTracker := none) (weekend_seed : ℤ := 0) : Bool :=
  let w := week_index start_sunday d
  let dow := weekday d
  let wk_current :=
    match fairness_tracker with
    | some ft => get_weekend_worker_for_week weekend_seeded w (some ft) weekend_seed
    | none => weekend_worker_for_week weekend_seeded w
  let wk_prev :=
    match fairness_tracker with
    | some ft =>
      if 0 ≤ w - 1 then get_weekend_worker_for_week weekend_seeded (w - 1) (some ft) weekend_seed
      else get_weekend_worker_for_week weekend_seeded (-1) (some ft) weekend_seed
    | none =>
      if 0 ≤ w - 1 then weekend_worker_for_week weekend_seeded (w - 1)
      else weekend_worker_for_week weekend_seeded (-1)
  if engineer = wk_current then ([0, 1, 2, 3, 5] : List ℤ).contains dow
  else if engineer = wk_prev then ([1, 2, 3, 4, 6] : List ℤ).contains dow
  else decide (dow ≤ 4)

/-- `should_avoid_weekend_worker`. -/
def should_avoid_weekend_worker (engineer : Eng) (current_date : Date) (start_sunday : Date)
    (weekend_seeded : List Eng) (fairness_tracker : Option EnhancedFairnessTracker := none)
    (weekend_seed : ℤ := 0) : Bool :=
  let current_week := week_index start_sunday current_date
  let current_weekend_worker :=
    match fairness_tracker with
    | some ft => get_weekend_worker_for_week weekend_seeded current_week (some ft) weekend_seed
    | none => weekend_worker_for_week weekend_seeded current_week
  if engineer = current_weekend_worker then true
  else if weekday current_date = 4 then
    let next_weekend_worker :=
      match fairness_tracker with
      | some ft =>
        get_weekend_worker_for_week weekend_seeded (current_week + 1) (some ft) weekend_seed
      | none => weekend_worker_for_week weekend_seeded (current_week + 1)
    engineer == next_weekend_worker
  else false

end Scheduler

namespace Scheduler

/-- The rotation order `enhanced_role_assignment` selects from (the
fairness-weighted order when a tracker is supplied, else the plain
seeded rotation sort); factored out for the proofs below. -/
def era_order (available_engineers : List Eng) (role : Role) (engineers : List Eng)
    (seeds : Seeds) (day_idx : ℤ) (fairness_tracker : Option EnhancedFairnessTracker) :
    List Eng :=
  match fairness_tracker with
  | some ft =>
    get_fairness_weighted_rotation_order engineers role (seeds.get role + day_idx)
      available_engineers (some ft)
  | none =>
    sortByKey zLe
      (fun name => ((engineers.indexOf name : ℤ) + seeds.get role + day_idx) %
        (engineers.length : ℤ))
      available_engineers

/-- `select_second_early_engineer`: fairness pick for the second early slot
from the pool minus the on-call engineer, tracking weight 1.2. -/
def select_second_early_engineer (available_engineers : List Eng) (oncall_engineer : Eng)
    (engineers : List Eng) (seeds : Seeds) (day_idx : ℤ)
    (fairness_tracker : Option EnhancedFairnessTracker := none) :
    Eng × Option EnhancedFairnessTracker :=
  if available_engineers.isEmpty then ("", fairness_tracker)
  else
    let remaining_engineers := available_engineers.filter fun e => !(e == oncall_engineer)
    if remaining_engineers.isEmpty then ("", fairness_tracker)
    else
      let early2_order :=
        era_order remaining_engineers .early engineers seeds day_idx fairness_tracker
      let selected_engineer := early2_order.headD ""
      match fairness_tracker with
      | some ft =>
        (selected_engineer,
         some (ft.track_assignment_with_weight selected_engineer .early
           ("day_" ++ toString day_idx) (1.2 : ℚ)))
      | none => (selected_engineer, none)

/-- `apply_fairness_impact_tracking`: tracks the assignment, then appends
fairness context to the reason of the most recent decision-log entry.
The log is threaded newest-entry-first.  The source also computes an
unused `pre_assignment_score` and checks for a `fairness_impact` attribute
`DecisionEntry` does not have; both are no-ops. -/
def apply_fairness_impact_tracking (engineer : Eng) (role : Role) (date : String)
    (fairness_tracker : Option EnhancedFairnessTracker) (decision_log : List EntryData)
    (impact_weight : ℚ := 1) : Option EnhancedFairnessTracker × List EntryData :=
  match fairness_tracker with
  | none => (none, decision_log)
  | some ft =>
    let ft1 := ft.track_assignment_with_weight engineer role date impact_weight
    match decision_log with
    | [] => (some ft1, [])
    | latest :: rest =>
      let engineer_weight := ft1.get_fairness_weights role engineer
      (some ft1,
       { latest with
          reason := latest.reason ++ " (fairness weight: " ++ ratStr engineer_weight ++
            ", impact: " ++ ratStr impact_weight ++ ")" } :: rest)

/-- `get_alternative_selection_candidates`. -/
def get_alternative_selection_candidates (rotation_order : List Eng) (selected_engineer : Eng)
    (max_alternatives : ℕ := 3) : List Eng :=
  if rotation_order.isEmpty || !(rotation_order.contains selected_engineer) then []
  else
    let selected_idx := rotation_order.indexOf selected_engineer
    let alternatives := (rotation_order.drop (selected_idx + 1)).take max_alternatives
    if alternatives.length < max_alternatives then
      alternatives ++ rotation_order.take (min (max_alternatives - alternatives.length) selected_idx)
    else alternatives

/-- `enhanced_role_assignment` (used for Chat and Appointments): fairness
pick, decision-log entry, then fairness impact tracking with weight 1.0. -/
def enhanced_role_assignment (available_engineers : List Eng) (role : Role)
    (engineers : List Eng) (seeds : Seeds) (day_idx : ℤ) (date_str : String)
    (decision_log : List EntryData)
    (fairness_tracker : Option EnhancedFairnessTracker := none) :
    Eng × List EntryData × Option EnhancedFairnessTracker :=
  if available_engineers.isEmpty then
    ("",
     ⟨date_str, role.name ++ "_assignment_failure", [],
      "No engineers available for " ++ role.name ++ " assignment",
      ["Manual assignment required", "Adjust leave schedules", "Emergency coverage"]⟩ ::
       decision_log,
     fairness_tracker)
  else
    let rotation_order :=
      era_order available_engineers role engineers seeds day_idx fairness_tracker
    let selected_engineer := rotation_order.headD ""
    let alternatives0 := get_alternative_selection_candidates rotation_order selected_engineer
    match fairness_tracker with
    | some ft =>
      let fairness_weights := ft.get_fairness_weights role
      let selected_weight := fairness_weights selected_engineer
      let reason := "Enhanced " ++ role.name ++
        " assignment with fairness weighting (selected weight: " ++ ratStr selected_weight ++
        ", seed=" ++ toString (seeds.get role) ++ ", day_offset=" ++ toString day_idx ++ ")"
      let alternatives := alternatives0.map fun alt =>
        alt ++ "(weight:" ++ ratStr (fairness_weights alt) ++ ")"
      let log1 : List EntryData :=
        ⟨date_str, "enhanced_" ++ role.name ++ "_assignment", [selected_engineer], reason,
         alternatives⟩ :: decision_log
      let r := apply_fairness_impact_tracking selected_engineer role date_str (some ft) log1 1
      (selected_engineer, r.2, r.1)
    | none =>
      let reason := "Standard " ++ role.name ++ " rotation (seed=" ++
        toString (seeds.get role) ++ ", day_offset=" ++ toString day_idx ++ ")"
      (selected_engineer,
       ⟨date_str, "enhanced_" ++ role.name ++ "_assignment", [selected_engineer], reason,
        alternatives0⟩ :: decision_log,
       none)

/-- `enhanced_backfill_selection`: candidates = roster − leave − expected
working set, ranked by summed fairness weights over all five roles. -/
def enhanced_backfill_selection (engineers : List Eng) (leave_today : List Eng)
    (expected_working : List Eng) (_d : Date) (_start_sunday : Date)
    (_weekend_seeded : List Eng) (required_roles : List String)
    (fairness_tracker : EnhancedFairnessTracker) (decision_log : List EntryData)
    (date_str : String) : List Eng × List EntryData :=
  let available := engineers.filter fun e => !(leave_today.contains e)
  let backfill_candidates := available.filter fun e => !(expected_working.contains e)
  if backfill_candidates.isEmpty then
    ([],
     ⟨date_str, "backfill_selection_failure", [],
      "No backfill candidates available for coverage",
      ["Manual override required", "Adjust leave schedules", "Emergency coverage"]⟩ ::
       decision_log)
  else
    let overall_weights : Eng → ℚ := fun e =>
      (roleList.map fun r => fairness_tracker.get_fairness_weights r e).sum
    let selected_backfill :=
      sortByKey (fun a b => decide (a ≤ b)) overall_weights backfill_candidates
    let min_needed := min required_roles.length selected_backfill.length
    let final_selection := selected_backfill.take min_needed
    let alternatives :=
      if min_needed < selected_backfill.length then
        (selected_backfill.drop min_needed).take 3
      else []
    (final_selection,
     ⟨date_str, "enhanced_backfill_selection", final_selection,
      "Found " ++ toString backfill_candidates.length ++ " candidates, selected " ++
        toString final_selection.length ++ " based on fairness weighting for " ++
        toString required_roles.length ++ " required roles",
      alternatives⟩ :: decision_log)

/-- The per-day `roles` dict, in its insertion order
`Chat, OnCall, Appointments, Early1, Early2`. -/
structure Roles where
  Chat : Eng
  OnCall : Eng
  Appointments : Eng
  Early1 : Eng
  Early2 : Eng
deriving DecidableEq, Repr

def Roles.empty : Roles := ⟨"", "", "", "", ""⟩

/-- `roles.values()` in dict insertion order. -/
def Roles.valuesList (r : Roles) : List Eng :=
  [r.Chat, r.OnCall, r.Appointments, r.Early1, r.Early2]

/-- `roles.items()` in dict insertion order. -/
def Roles.itemsList (r : Roles) : List (String × Eng) :=
  [("Chat", r.Chat), ("OnCall", r.OnCall), ("Appointments", r.Appointments),
   ("Early1", r.Early1), ("Early2", r.Early2)]

/-- First-occurrence deduplication; models iteration over a Python `set`
built from a list (the embedding fixes the set's iteration order to
first-insertion order, which only free-text log fields can observe),
and `pandas.Series.unique` (which is first-appearance ordered). -/
def uniqueFirstAux {α : Type} [BEq α] (seen : List α) : List α → List α
  | [] => []
  | x :: xs =>
    if seen.contains x then uniqueFirstAux seen xs
    else x :: uniqueFirstAux (x :: seen) xs

def uniqueFirst {α : Type} [BEq α] (l : List α) : List α := uniqueFirstAux [] l

/-- `validate_scheduling_conflicts`. -/
def validate_scheduling_conflicts (roles : Roles) (working : List Eng) (d : Date) :
    List String :=
  let assigned_engineers := roles.valuesList.filter fun e => !(e == "")
  let conflicts1 :=
    if assigned_engineers.length ≠ (uniqueFirst assigned_engineers).length then
      let duplicates :=
        (uniqueFirst assigned_engineers).filter fun e => 1 < assigned_engineers.count e
      ["Engineer(s) assigned to multiple roles: " ++ String.intercalate ", " duplicates]
    else []
  let conflicts2 := roles.itemsList.filterMap fun p =>
    if !(p.2 == "") && !(working.contains p.2) then
      some (p.2 ++ " assigned to " ++ p.1 ++ " but not scheduled to work")
    else none
  let conflicts3 :=
    if ([5, 6] : List ℤ).contains (weekday d) then
      let oncall := roles.OnCall
      if !(oncall == "") && working.contains oncall then
        [oncall ++ " assigned OnCall on weekend (violates no-oncall-on-weekends rule)"]
      else []
    else []
  conflicts1 ++ conflicts2 ++ conflicts3

/-- `generate_alternative_suggestions`. -/
def generate_alternative_suggestions (roles : Roles) (working : List Eng)
    (backfill_candidates : List Eng) (conflicts : List String) : List String :=
  if conflicts.isEmpty then []
  else
    let s1 := ["Consider manual role reassignment to resolve conflicts"]
    let s2 :=
      if !backfill_candidates.isEmpty then
        ["Available backfill engineers: " ++ String.intercalate ", " backfill_candidates]
      else []
    let assigned := roles.valuesList.filter fun e => !(e == "")
    let s3 :=
      if assigned.length < working.length then
        let unassigned := working.filter fun e => !(assigned.contains e)
        ["Unassigned working engineers available: " ++ String.intercalate ", " unassigned]
      else []
    s1 ++ s2 ++ s3

end Scheduler

namespace Scheduler

/-- The engineer covering the weekend of the week containing `d`, exactly
as `should_avoid_weekend_worker` and `works_today` compute it. -/
def current_weekend_worker_of (d start_sunday : Date) (ws : List Eng)
    (ft : Option EnhancedFairnessTracker) (weekend_seed : ℤ) : Eng :=
  match ft with
  | some t => get_weekend_worker_for_week ws (week_index start_sunday d) (some t) weekend_seed
  | none => weekend_worker_for_week ws (week_index start_sunday d)

/-- The engineer covering the following week's weekend (the Friday check of
`should_avoid_weekend_worker`). -/
def next_weekend_worker_of (d start_sunday : Date) (ws : List Eng)
    (ft : Option EnhancedFairnessTracker) (weekend_seed : ℤ) : Eng :=
  match ft with
  | some t =>
    get_weekend_worker_for_week ws (week_index start_sunday d + 1) (some t) weekend_seed
  | none => weekend_worker_for_week ws (week_index start_sunday d + 1)

/-- The previous week's weekend worker as `works_today` computes it
(`w-1` when non-negative, else `-1`). -/
def prev_weekend_worker_of (d start_sunday : Date) (ws : List Eng)
    (ft : Option EnhancedFairnessTracker) (weekend_seed : ℤ) : Eng :=
  let w := week_index start_sunday d
  match ft with
  | some t =>
    if 0 ≤ w - 1 then get_weekend_worker_for_week ws (w - 1) (some t) weekend_seed
    else get_weekend_worker_for_week ws (-1) (some t) weekend_seed
  | none =>
    if 0 ≤ w - 1 then weekend_worker_for_week ws (w - 1)
    else weekend_worker_for_week ws (-1)

/-- The backfill list `enhanced_backfill_selection` returns (its first
component, which does not depend on the decision log passed in). -/
def backfill_selection (engineers : List Eng) (leave_today : List Eng)
    (expected_working : List Eng) (required_roles : List String)
    (fairness_tracker : EnhancedFairnessTracker) : List Eng :=
  let available := engineers.filter fun e => !(leave_today.contains e)
  let backfill_candidates := available.filter fun e => !(expected_working.contains e)
  if backfill_candidates.isEmpty then []
  else
    let overall_weights : Eng → ℚ := fun e =>
      (roleList.map fun r => fairness_tracker.get_fairness_weights r e).sum
    let selected_backfill :=
      sortByKey (fun a b => decide (a ≤ b)) overall_weights backfill_candidates
    selected_backfill.take (min required_roles.length selected_backfill.length)

/-- The per-day expected-working set of `generate_day_assignments`. -/
def gda_expected (d : Date) (engineers : List Eng) (start_sunday : Date) (ws : List Eng)
    (seeds : Seeds) (ft : Option EnhancedFairnessTracker) : List Eng :=
  engineers.filter fun e => works_today e d start_sunday ws ft (seeds.get .weekend)

/-- The per-day leave list of `generate_day_assignments`. -/
def gda_leave (leave_map : List (Eng × List Date)) (d : Date) : List Eng :=
  leave_map.filterMap fun p => if p.2.contains d then some p.1 else none


/-- The working list `generate_day_assignments` produces after leave
exclusion and backfill (`working` in the source). -/
def gda_working (d : Date) (engineers : List Eng) (start_sunday : Date) (ws : List Eng)
    (leave_map : List (Eng × List Date)) (seeds : Seeds)
    (ft : Option EnhancedFairnessTracker) : List Eng :=
  let expected_working := gda_expected d engineers start_sunday ws seeds ft
  let leave_today := gda_leave leave_map d
  let working0 := expected_working.filter fun e => !(leave_today.contains e)
  let min_required : ℕ := if is_weekday d then 3 else 1
  let required_roles : List String :=
    if is_weekday d then ["Chat", "OnCall", "Appointments"] else ["OnCall"]
  let backfill_added :=
    if working0.length < min_required then
      match ft with
      | some t =>
        backfill_selection engineers leave_today expected_working required_roles t
      | none =>
        ((engineers.filter fun e => !(leave_today.contains e)).filter fun e =>
          !(expected_working.contains e)).take (min_required - working0.length)
    else []
  if working0.length < min_required then
    working0 ++ backfill_added.take (min (min_required - working0.length)
      backfill_added.length)
  else working0

/-- Result of `generate_day_assignments` (its returned triple) together
with the threaded decision log and fairness state. -/
structure DayResult where
  working : List Eng
  leave_today : List Eng
  roles : Roles
  log : List EntryData
  ft : Option EnhancedFairnessTracker
deriving Repr

/-- The OnCall selection block of `generate_day_assignments` (executed
when `available` is non-empty): plain-rotation order, split by
`should_avoid_weekend_worker`, fairness re-sort, pick with fallback,
track with default weight 1.0, remove from the pool, log.
Returns `(selected, available minus selected, log, tracker)`. -/
def oncall_order_of (available : List Eng) (engineers : List Eng) (seeds : Seeds)
    (day_idx : ℤ) : List Eng :=
  sortByKey zLe
    (fun name => ((engineers.indexOf name : ℤ) + seeds.get .oncall + day_idx) %
      (engineers.length : ℤ))
    available

/-- The fairness re-sort applied to a candidate list inside the OnCall
block (`sorted(key=(oncall weight, position in oncall_order))`). -/
def oncall_fair_sort (candidates oncall_order : List Eng)
    (fairness_tracker : Option EnhancedFairnessTracker) : List Eng :=
  match fairness_tracker with
  | some ft =>
    sortByKey qnLe
      (fun name => (ft.get_fairness_weights .oncall name, oncall_order.indexOf name))
      candidates
  | none => candidates

/-- The (possibly fairness-re-sorted) non-weekend candidate list of the
OnCall block. -/
def oncall_non_weekend (available : List Eng) (d : Date) (start_sunday : Date)
    (weekend_seeded : List Eng) (engineers : List Eng) (seeds : Seeds) (day_idx : ℤ)
    (fairness_tracker : Option EnhancedFairnessTracker) : List Eng :=
  let oncall_order := oncall_order_of available engineers seeds day_idx
  let non_weekend_oncall0 := oncall_order.filter fun e =>
    !(should_avoid_weekend_worker e d start_sunday weekend_seeded fairness_tracker
      (seeds.get .weekend))
  if !non_weekend_oncall0.isEmpty then
    oncall_fair_sort non_weekend_oncall0 oncall_order fairness_tracker
  else non_weekend_oncall0

/-- The engineer the OnCall block selects. -/
def oncall_selected (available : List Eng) (d : Date) (start_sunday : Date)
    (weekend_seeded : List Eng) (engineers : List Eng) (seeds : Seeds) (day_idx : ℤ)
    (fairness_tracker : Option EnhancedFairnessTracker) : Eng :=
  let oncall_order := oncall_order_of available engineers seeds day_idx
  let non_weekend_oncall :=
    oncall_non_weekend available d start_sunday weekend_seeded engineers seeds day_idx
      fairness_tracker
  if !non_weekend_oncall.isEmpty then non_weekend_oncall.headD ""
  else (oncall_fair_sort oncall_order oncall_order fairness_tracker).headD ""

def oncall_assignment_block (available : List Eng) (d : Date) (start_sunday : Date)
    (weekend_seeded : List Eng) (engineers : List Eng) (seeds : Seeds) (day_idx : ℤ)
    (date_str : String) (decision_log : List EntryData)
    (fairness_tracker : Option EnhancedFairnessTracker) :
    Eng × List Eng × List EntryData × Option EnhancedFairnessTracker :=
  let oncall_order := oncall_order_of available engineers seeds day_idx
  let avoid := fun e =>
    should_avoid_weekend_worker e d start_sunday weekend_seeded fairness_tracker
      (seeds.get .weekend)
  let non_weekend_oncall :=
    oncall_non_weekend available d start_sunday weekend_seeded engineers seeds day_idx
      fairness_tracker
  let weekend_workers_to_avoid := oncall_order.filter fun e => avoid e
  let selected :=
    oncall_selected available d start_sunday weekend_seeded engineers seeds day_idx
      fairness_tracker
  let reason :=
    if !non_weekend_oncall.isEmpty then
      "Enhanced OnCall assignment with fairness weighting - avoided weekend workers: " ++
        String.intercalate ", " weekend_workers_to_avoid
    else
      "Enhanced OnCall assignment with fairness weighting - no non-weekend options available, using fallback"
  let alternatives :=
    if !non_weekend_oncall.isEmpty then
      if 1 < non_weekend_oncall.length then (non_weekend_oncall.drop 1).take 2
      else weekend_workers_to_avoid.take 2
    else
      let oncall_order2 := oncall_fair_sort oncall_order oncall_order fairness_tracker
      if 1 < oncall_order2.length then (oncall_order2.drop 1).take 2 else []
  let ft1 :=
    match fairness_tracker with
    | some ft => some (ft.track_assignment selected .oncall)
    | none => none
  (selected, available.erase selected,
   (⟨date_str, "enhanced_oncall_assignment", [selected], reason, alternatives⟩ : EntryData) ::
     decision_log,
   ft1)

/-- The early-shift block of `generate_day_assignments` (weekday
OnCall-first logic, plus the fallback / weekend plain-rotation paths). -/
def early_shift_block (d : Date) (working : List Eng) (roles : Roles) (engineers : List Eng)
    (seeds : Seeds) (start_sunday : Date) (date_str : String)
    (assign_early_on_weekends : Bool) (decision_log : List EntryData)
    (fairness_tracker : Option EnhancedFairnessTracker) :
    Roles × List EntryData × Option EnhancedFairnessTracker :=
  if !(is_weekday d || assign_early_on_weekends) then (roles, decision_log, fairness_tracker)
  else if working.isEmpty then (roles, decision_log, fairness_tracker)
  else
    let day_idx : ℤ := d - start_sunday
    if is_weekday d && !(roles.OnCall == "") then
      let oncall_engineer := roles.OnCall
      if working.contains oncall_engineer then
        let roles1 := { roles with Early1 := oncall_engineer }
        let sse :=
          select_second_early_engineer working oncall_engineer engineers seeds day_idx
            fairness_tracker
        let second_early_engineer := sse.1
        let ft1 := sse.2
        if !(second_early_engineer == "") then
          let roles2 := { roles1 with Early2 := second_early_engineer }
          let ft2 :=
            match ft1 with
            | some t =>
              some ((t.track_assignment oncall_engineer .early).track_assignment
                second_early_engineer .early)
            | none => none
          let remaining_for_early := working.filter fun e =>
            !(e == oncall_engineer || e == second_early_engineer)
          let alternatives := remaining_for_early.take 2
          (roles2,
           (⟨date_str, "enhanced_early_shift_assignment",
             [oncall_engineer, second_early_engineer],
             "Enhanced early shift: OnCall engineer (" ++ oncall_engineer ++
               ") assigned as Early1, second engineer (" ++ second_early_engineer ++
               ") selected with fairness consideration",
             alternatives⟩ : EntryData) :: decision_log,
           ft2)
        else
          let ft2 :=
            match ft1 with
            | some t => some (t.track_assignment oncall_engineer .early)
            | none => none
          (roles1,
           (⟨date_str, "enhanced_early_shift_assignment", [oncall_engineer],
             "Enhanced early shift: OnCall engineer (" ++ oncall_engineer ++
               ") assigned as Early1, no second engineer available",
             []⟩ : EntryData) :: decision_log,
           ft2)
      else
        let order :=
          sortByKey zLe
            (fun name => ((engineers.indexOf name : ℤ) + seeds.get .early + day_idx) %
              (engineers.length : ℤ))
            working
        let roles1 :=
          { roles with
             Early1 := if 1 ≤ order.length then order.headD "" else roles.Early1,
             Early2 := if 2 ≤ order.length then (order.drop 1).headD "" else roles.Early2 }
        let early_assignments := order.take 2
        if !early_assignments.isEmpty then
          let alternatives := if 2 < order.length then (order.drop 2).take 2 else []
          (roles1,
           (⟨date_str, "early_shift_assignment_fallback", early_assignments,
             "Early shift fallback rotation (oncall not in working list) - seed=" ++
               toString (seeds.get .early) ++ ", day_offset=" ++ toString day_idx,
             alternatives⟩ : EntryData) :: decision_log,
           fairness_tracker)
        else (roles1, decision_log, fairness_tracker)
    else
      let order :=
        sortByKey zLe
          (fun name => ((engineers.indexOf name : ℤ) + seeds.get .early + day_idx) %
            (engineers.length : ℤ))
          working
      let roles1 :=
        { roles with
           Early1 := if 1 ≤ order.length then order.headD "" else roles.Early1,
           Early2 := if 2 ≤ order.length then (order.drop 1).headD "" else roles.Early2 }
      let early_assignments := order.take 2
      if !early_assignments.isEmpty then
        let alternatives := if 2 < order.length then (order.drop 2).take 2 else []
        let assignment_type :=
          if !is_weekday d then "weekend_early_shift_assignment"
          else "early_shift_assignment_fallback"
        (roles1,
         (⟨date_str, assignment_type, early_assignments,
           (if !is_weekday d then "Weekend" else "Fallback") ++
             " early shift rotation (seed=" ++ toString (seeds.get .early) ++
             ", day_offset=" ++ toString day_idx ++ ")",
           alternatives⟩ : EntryData) :: decision_log,
         fairness_tracker)
      else (roles1, decision_log, fairness_tracker)

/-- The weekday Chat → OnCall → Appointments chain of
`generate_day_assignments` (the `if is_weekday(d)` block), factored out;
`available` starts as a copy of the working list, and each successful
pick is removed before the next. -/
def gda_step1 (d : Date) (engineers : List Eng) (start_sunday : Date)
    (weekend_seeded : List Eng) (seeds : Seeds) (working1 : List Eng) (date_str : String)
    (log3 : List EntryData) (fairness_tracker : Option EnhancedFairnessTracker) :
    Roles × List EntryData × Option EnhancedFairnessTracker :=
  if is_weekday d then
    let day_idx : ℤ := d - start_sunday
    let available := working1
    let chatR :=
      if !available.isEmpty then
        enhanced_role_assignment available .chat engineers seeds day_idx date_str log3
          fairness_tracker
      else ("", log3, fairness_tracker)
    let chat := chatR.1
    let available1 := if !(chat == "") then available.erase chat else available
    let oncallR :=
      if !available1.isEmpty then
        oncall_assignment_block available1 d start_sunday weekend_seeded engineers seeds
          day_idx date_str chatR.2.1 chatR.2.2
      else ("", available1, chatR.2.1, chatR.2.2)
    let apptR :=
      if !oncallR.2.1.isEmpty then
        enhanced_role_assignment oncallR.2.1 .appointments engineers seeds day_idx date_str
          oncallR.2.2.1 oncallR.2.2.2
      else ("", oncallR.2.2.1, oncallR.2.2.2)
    (({ Roles.empty with Chat := chat, OnCall := oncallR.1, Appointments := apptR.1 } :
        Roles),
     apptR.2.1, apptR.2.2)
  else (Roles.empty, log3, fairness_tracker)

/-- The Chat pick of `gda_step1` (proof-layer characterisation). -/
def step1_chat (d s : Date) (engineers : List Eng) (seeds : Seeds) (W : List Eng)
    (ft : Option EnhancedFairnessTracker) : Eng :=
  if W.isEmpty then "" else (era_order W .chat engineers seeds (d - s) ft).headD ""

/-- The pool left after the Chat pick. -/
def step1_avail1 (d s : Date) (engineers : List Eng) (seeds : Seeds) (W : List Eng)
    (ft : Option EnhancedFairnessTracker) : List Eng :=
  if step1_chat d s engineers seeds W ft = "" then W
  else W.erase (step1_chat d s engineers seeds W ft)

/-- `generate_day_assignments`: one day's working set, leave exclusion,
backfill, weekday roles in the order Chat → OnCall → Appointments →
Early1/Early2, and the final conflict check. -/
def generate_day_assignments (d : Date) (engineers : List Eng) (start_sunday : Date)
    (weekend_seeded : List Eng) (leave_map : List (Eng × List Date)) (seeds : Seeds)
    (assign_early_on_weekends : Bool := false) (decision_log : List EntryData := [])
    (fairness_tracker : Option EnhancedFairnessTracker := none) : DayResult :=
  let date_str := date_iso d
  let expected_working := gda_expected d engineers start_sunday weekend_seeded seeds
    fairness_tracker
  let leave_today := gda_leave leave_map d
  let log1 :=
    if !leave_today.isEmpty then
      (⟨date_str, "leave_exclusion", leave_today,
        "Engineers excluded due to scheduled leave on " ++ date_long d,
        ["Enhanced backfill selection will find alternatives"]⟩ : EntryData) :: decision_log
    else decision_log
  let working0 := expected_working.filter fun e => !(leave_today.contains e)
  let min_required : ℕ := if is_weekday d then 3 else 1
  let required_roles : List String :=
    if is_weekday d then ["Chat", "OnCall", "Appointments"] else ["OnCall"]
  let working1 := gda_working d engineers start_sunday weekend_seeded leave_map seeds
    fairness_tracker
  let log2 :=
    if working0.length < min_required then
      match fairness_tracker with
      | some ft =>
        (enhanced_backfill_selection engineers leave_today expected_working d start_sunday
          weekend_seeded required_roles ft log1 date_str).2
      | none =>
        let available := engineers.filter fun e => !(leave_today.contains e)
        let backfill_candidates := available.filter fun e => !(expected_working.contains e)
        let needed := min_required - working0.length
        let backfill_added := backfill_candidates.take needed
        (⟨date_str, "basic_backfill_assignment", backfill_added,
          "Added " ++ toString backfill_added.length ++
            " backfill engineer(s) to meet minimum coverage of " ++ toString min_required ++
            " (no fairness tracker available)",
          if needed < backfill_candidates.length then (backfill_candidates.drop needed).take 2
          else []⟩ : EntryData) :: log1
    else log1
  let log3 :=
    if working1.length < min_required then
      (⟨date_str, "insufficient_coverage", working1,
        "Only " ++ toString working1.length ++ " engineers available for " ++ day_full d ++
          " requiring " ++ toString min_required ++ "+ roles",
        ["Manual override required", "Adjust leave schedules", "Emergency coverage needed"]⟩ :
        EntryData) :: log2
    else log2
  let step1 :=
    gda_step1 d engineers start_sunday weekend_seeded seeds working1 date_str log3
      fairness_tracker
  let eb :=
    early_shift_block d working1 step1.1 engineers seeds start_sunday date_str
      assign_early_on_weekends step1.2.1 step1.2.2
  let roles := eb.1
  let log5 := eb.2.1
  let ft2 := eb.2.2
  let conflicts := validate_scheduling_conflicts roles working1 d
  let log6 :=
    if !conflicts.isEmpty then
      let available := engineers.filter fun e => !(leave_today.contains e)
      let backfill_candidates_for_suggestions :=
        available.filter fun e => !(expected_working.contains e)
      let suggestions :=
        generate_alternative_suggestions roles working1 backfill_candidates_for_suggestions
          conflicts
      (⟨date_str, "scheduling_conflict", roles.valuesList.filter (fun e => !(e == "")),
        "Conflicts detected: " ++ String.intercalate "; " conflicts, suggestions⟩ :
        EntryData) :: log5
    else log5
  ⟨working1, leave_today, roles, log6, ft2⟩

end Scheduler

namespace Scheduler

/-- One row of the generated schedule `DataFrame`: the role columns plus
the per-engineer `(Engineer, Status i, Shift i)` cell triples. -/
structure Row where
  Date : Date
  Day : String
  WeekIndex : ℤ
  Early1 : Eng
  Early2 : Eng
  Chat : Eng
  OnCall : Eng
  Appointments : Eng
  cells : List (Eng × String × String)
deriving DecidableEq, Repr

/-- `WeekendCompensation` from `models.py`. -/
structure WeekendCompensation where
  engineer : Eng
  weekend_date : Date
  compensation_dates : List Date
  pattern_type : String
deriving DecidableEq, Repr

/-- The per-engineer status/shift cell loop of `make_schedule_with_decisions`
(and `make_schedule`).  Each non-early working engineer's weekend cell
calls `enhanced_weekend_assignment`, which mutates the tracker, so the
tracker is threaded through the loop. -/
def build_engineer_cells (d : Date) (w : ℤ) (start_sunday : Date) (weekend_seeded : List Eng)
    (engineers : List Eng) (roles : Roles) (leave_today : List Eng) (seeds : Seeds) :
    EnhancedFairnessTracker → List Eng → List (Eng × String × String) × EnhancedFairnessTracker
  | ft, [] => ([], ft)
  | ft, e :: rest =>
    let status :=
      if leave_today.contains e then "LEAVE"
      else if works_today e d start_sunday weekend_seeded (some ft) (seeds.get .weekend) then
        "WORK"
      else "OFF"
    let sh :=
      if status == "WORK" then
        if e == roles.Early1 || e == roles.Early2 then ("06:45-15:45", ft)
        else if 5 ≤ weekday d then
          let ww := enhanced_weekend_assignment engineers w ft (seeds.get .weekend)
          (if e == ww.1 then "Weekend-" ++ (if weekday d = 5 then "A" else "B")
           else "Weekend", ww.2)
        else ("08:00-17:00", ft)
      else ("", ft)
    let restR := build_engineer_cells d w start_sunday weekend_seeded engineers roles
      leave_today seeds sh.2 rest
    ((e, status, sh.1) :: restR.1, restR.2)

/-- The running state of the date loop of `make_schedule_with_decisions`. -/
structure RunState where
  ft : EnhancedFairnessTracker
  log : List EntryData
  comps : List WeekendCompensation
  rows : List Row
deriving DecidableEq, Repr

/-- One iteration of the date loop of `make_schedule_with_decisions`:
the Saturday/Sunday compensation-and-logging branches (each calling the
mutating `enhanced_weekend_assignment`), then `generate_day_assignments`,
then the stateful cell loop, then the row append. -/
def schedule_day_step (start_sunday : Date) (engineers : List Eng) (seeds : Seeds)
    (weekend_seeded : List Eng) (leave_map : List (Eng × List Date))
    (assign_early_on_weekends : Bool) (st : RunState) (d : Date) : RunState :=
  let w := week_index start_sunday d
  let dow := day_abbrev d
  let st1 :=
    if weekday d = 5 then
      let ww := enhanced_weekend_assignment engineers w st.ft (seeds.get .weekend)
      let weekend_worker := ww.1
      let ftS := ww.2
      let compensation_dates := calculate_weekend_compensation weekend_worker d "A"
      let comps1 := st.comps ++
        [⟨weekend_worker, d, compensation_dates, "A"⟩]
      let fairness_weights := ftS.get_fairness_weights .weekend
      let alternatives := (weekend_seeded.filter fun e => !(e == weekend_worker)).take 2
      { st with
          ft := ftS
          comps := comps1
          log := (⟨date_iso d, "enhanced_weekend_assignment", [weekend_worker],
            "Enhanced weekend assignment for week " ++ toString w ++
              " using fairness-weighted selection (pattern A, fairness weight: " ++
              ratStr (fairness_weights weekend_worker) ++ ")",
            alternatives⟩ : EntryData) :: st.log }
    else if weekday d = 6 then
      let ww := enhanced_weekend_assignment engineers w st.ft (seeds.get .weekend)
      let weekend_worker := ww.1
      let ftS := ww.2
      let compensation_dates := calculate_weekend_compensation weekend_worker d "B"
      let comps1 := st.comps.map fun c =>
        if c.engineer == weekend_worker && decide (c.weekend_date = d - 1) then
          { c with
              compensation_dates := c.compensation_dates ++ compensation_dates
              pattern_type := "A+B" }
        else c
      let fairness_weights := ftS.get_fairness_weights .weekend
      let alternatives := (weekend_seeded.filter fun e => !(e == weekend_worker)).take 2
      { st with
          ft := ftS
          comps := comps1
          log := (⟨date_iso d, "enhanced_weekend_assignment", [weekend_worker],
            "Enhanced weekend assignment for week " ++ toString w ++
              " Sunday using fairness-weighted selection (pattern B, fairness weight: " ++
              ratStr (fairness_weights weekend_worker) ++ ")",
            alternatives⟩ : EntryData) :: st.log }
    else st
  let day := generate_day_assignments d engineers start_sunday weekend_seeded leave_map seeds
    assign_early_on_weekends st1.log (some st1.ft)
  let ft2 := day.ft.getD st1.ft
  let cellsR := build_engineer_cells d w start_sunday weekend_seeded engineers day.roles
    day.leave_today seeds ft2 engineers
  let row : Row :=
    ⟨d, dow, w, day.roles.Early1, day.roles.Early2, day.roles.Chat, day.roles.OnCall,
     day.roles.Appointments, cellsR.1⟩
  { ft := cellsR.2, log := day.log, comps := st1.comps, rows := st.rows ++ [row] }

/-- The leave-`DataFrame` processing of `make_schedule_with_decisions`:
unique engineers in order of first appearance, their date lists, a
`leave_processing` entry per engineer in the frame, then `setdefault`
for the rest of the roster.  The input is the frame's `(Engineer, Date)`
rows. -/
def process_leave_frame (leave : List (Eng × Date)) (engineers : List Eng)
    (start_sunday : Date) (log : List EntryData) :
    List (Eng × List Date) × List EntryData :=
  let uniq := uniqueFirst (leave.map (·.1))
  let leave_map0 := uniq.map fun e => (e, (leave.filter fun p => p.1 == e).map (·.2))
  let log1 := leave_map0.foldl (fun acc p =>
    (⟨date_iso start_sunday, "leave_processing", [p.1],
      "Processed " ++ toString p.2.length ++ " leave days for " ++ p.1, []⟩ : EntryData) ::
      acc) log
  let leave_map := leave_map0 ++
    (engineers.filter fun e => !(uniq.contains e)).map fun e => (e, ([] : List Date))
  (leave_map, log1)

/-- `make_schedule_with_decisions`, before timestamps are attached:
returns the schedule rows, the decision log in creation order (no
timestamps yet) and the weekend-compensation records.  The source's
`assert len(engineers) == 6` is modelled by returning empty output for
other roster sizes. -/
def make_schedule_with_decisions_core (start_sunday : Date) (weeks : ℕ)
    (engineers : List Eng) (seeds : Seeds) (leave : List (Eng × Date))
    (assign_early_on_weekends : Bool := false) :
    List Row × List EntryData × List WeekendCompensation :=
  if engineers.length ≠ 6 then ([], [], [])
  else
    let fairness_tracker := EnhancedFairnessTracker.fresh engineers
    let weekend_seeded := build_rotation engineers (seeds.get .weekend)
    let log0 : List EntryData :=
      [⟨date_iso start_sunday, "weekend_rotation_setup", weekend_seeded,
        "Weekend rotation established with seed " ++ toString (seeds.get .weekend),
        (List.range 6).filterMap fun i =>
          if (i : ℤ) ≠ seeds.get .weekend then some ("Alternative seed " ++ toString i)
          else none⟩]
    let lp := process_leave_frame leave engineers start_sunday log0
    let leave_map := lp.1
    let log1 := lp.2
    let dates := (List.range (weeks * 7)).map fun i => start_sunday + (i : ℤ)
    let final := dates.foldl
      (schedule_day_step start_sunday engineers seeds weekend_seeded leave_map
        assign_early_on_weekends)
      ⟨fairness_tracker, log1, [], []⟩
    (final.rows, final.log.reverse, final.comps)

/-- `make_schedule_with_decisions` with the ambient clock made explicit:
identical to `make_schedule_with_decisions_core` except that the k-th
created `DecisionEntry` carries timestamp `clock k`. -/
def make_schedule_with_decisions (start_sunday : Date) (weeks : ℕ) (engineers : List Eng)
    (seeds : Seeds) (leave : List (Eng × Date)) (assign_early_on_weekends : Bool)
    (clock : ℕ → ℤ) :
    List Row × List DecisionEntry × List WeekendCompensation :=
  let core := make_schedule_with_decisions_core start_sunday weeks engineers seeds leave
    assign_early_on_weekends
  (core.1, attach_timestamps clock 0 core.2.1, core.2.2)

/-- The per-day step of the C9 end-to-end scenario (roster A–F, all seeds
0, start Sunday ordinal 7, no leave): `schedule_day_step` with that run's
weekend rotation, leave map and setup log, exactly as
`make_schedule_with_decisions_core` instantiates them. -/
def C9step := schedule_day_step 7 ["A","B","C","D","E","F"] ⟨0,0,0,0,0⟩
  (build_rotation ["A","B","C","D","E","F"] (Seeds.get ⟨0,0,0,0,0⟩ .weekend))
  (process_leave_frame [] ["A","B","C","D","E","F"] 7
    [⟨date_iso 7, "weekend_rotation_setup",
      build_rotation ["A","B","C","D","E","F"] (Seeds.get ⟨0,0,0,0,0⟩ .weekend),
      "Weekend rotation established with seed " ++
        toString (Seeds.get ⟨0,0,0,0,0⟩ .weekend),
      (List.range 6).filterMap fun i =>
        if (i : ℤ) ≠ Seeds.get ⟨0,0,0,0,0⟩ .weekend then
          some ("Alternative seed " ++ toString i)
        else none⟩]).1 false

/-- The initial run state of the C9 scenario. -/
def C9init : RunState :=
  ⟨EnhancedFairnessTracker.fresh ["A","B","C","D","E","F"],
    (process_leave_frame [] ["A","B","C","D","E","F"] 7
      [⟨date_iso 7, "weekend_rotation_setup",
        build_rotation ["A","B","C","D","E","F"] (Seeds.get ⟨0,0,0,0,0⟩ .weekend),
        "Weekend rotation established with seed " ++
          toString (Seeds.get ⟨0,0,0,0,0⟩ .weekend),
        (List.range 6).filterMap fun i =>
          if (i : ℤ) ≠ Seeds.get ⟨0,0,0,0,0⟩ .weekend then
            some ("Alternative seed " ++ toString i)
          else none⟩]).2, [], []⟩

/-- The C9 run state after days 7–10, recorded literally (verified against
the day fold by the staged lemmas below; staging keeps each kernel
evaluation to a few days). -/
def C9state4 : RunState := { ft := { engineers := ["A", "B", "C", "D", "E", "F"], assignment_history := [("A", { weekend := 4, oncall := 1, early := 1, chat := 0, appointments := 0 }), ("B", { weekend := 2, oncall := 0, early := (11 : Rat)/5, chat := 1, appointments := 0 }), ("C", { weekend := 2, oncall := 0, early := (11 : Rat)/5, chat := 1, appointments := 1 }), ("D", { weekend := 2, oncall := 0, early := (11 : Rat)/5, chat := 1, appointments := 1 }), ("E", { weekend := 2, oncall := 1, early := 1, chat := 0, appointments := 1 }), ("F", { weekend := 2, oncall := 1, early := 1, chat := 0, appointments := 0 })], weekend_assignments := [("A", 2), ("B", 1), ("C", 1), ("D", 1), ("E", 1), ("F", 1)], role_distribution_variance := { weekend := (5 : Rat)/9, oncall := (1 : Rat)/4, early := (9 : Rat)/25, chat := (1 : Rat)/4, appointments := (1 : Rat)/4 } }, log := [{ date := "day:10", decision_type := "scheduling_conflict", affected_engineers := ["D", "A", "E", "A", "D"], reason := "Conflicts detected: Engineer(s) assigned to multiple roles: D, A", alternatives_considered := ["Consider manual role reassignment to resolve conflicts", "Unassigned working engineers available: B, C, F"] }, { date := "day:10", decision_type := "enhanced_early_shift_assignment", affected_engineers := ["A", "D"], reason := "Enhanced early shift: OnCall engineer (A) assigned as Early1, second engineer (D) selected with fairness consideration", alternatives_considered := ["B", "C"] }, { date := "day:10", decision_type := "enhanced_appointments_assignment", affected_engineers := ["E"], reason := "Enhanced appointments assignment with fairness weighting (selected weight: 0.0, seed=0, day_offset=3) (fairness weight: 1.0, impact: 1.0)", alternatives_considered := ["F(weight:0.0)", "B(weight:0.0)", "C(weight:1.0)"] }, { date := "day:10", decision_type := "enhanced_oncall_assignment", affected_engineers := ["A"], reason := "Enhanced OnCall assignment with fairness weighting - avoided weekend workers: B", alternatives_considered := ["C", "E"] }, { date := "day:10", decision_type := "enhanced_chat_assignment", affected_engineers := ["D"], reason := "Enhanced chat assignment with fairness weighting (selected weight: 0.0, seed=0, day_offset=3) (fairness weight: 1.0, impact: 1.0)", alternatives_considered := ["E(weight:0.0)", "F(weight:0.0)", "A(weight:0.0)"] }, { date := "day:9", decision_type := "scheduling_conflict", affected_engineers := ["C", "E", "D", "E", "C"], reason := "Conflicts detected: Engineer(s) assigned to multiple roles: C, E", alternatives_considered := ["Consider manual role reassignment to resolve conflicts", "Unassigned working engineers available: A, B, F"] }, { date := "day:9", decision_type := "enhanced_early_shift_assignment", affected_engineers := ["E", "C"], reason := "Enhanced early shift: OnCall engineer (E) assigned as Early1, second engineer (C) selected with fairness consideration", alternatives_considered := ["A", "B"] }, { date := "day:9", decision_type := "enhanced_appointments_assignment", affected_engineers := ["D"], reason := "Enhanced appointments assignment with fairness weighting (selected weight: 0.0, seed=0, day_offset=2) (fairness weight: 1.0, impact: 1.0)", alternatives_considered := ["F(weight:0.0)", "A(weight:0.0)", "B(weight:0.0)"] }, { date := "day:9", decision_type := "enhanced_oncall_assignment", affected_engineers := ["E"], reason := "Enhanced OnCall assignment with fairness weighting - avoided weekend workers: B", alternatives_considered := ["A", "D"] }, { date := "day:9", decision_type := "enhanced_chat_assignment", affected_engineers := ["C"], reason := "Enhanced chat assignment with fairness weighting (selected weight: 0.0, seed=0, day_offset=2) (fairness weight: 1.0, impact: 1.0)", alternatives_considered := ["D(weight:0.0)", "E(weight:0.0)", "F(weight:0.0)"] }, { date := "day:8", decision_type := "scheduling_conflict", affected_engineers := ["B", "F", "C", "F", "B"], reason := "Conflicts detected: Engineer(s) assigned to multiple roles: B, F", alternatives_considered := ["Consider manual role reassignment to resolve conflicts", "Available backfill engineers: A"] }, { date := "day:8", decision_type := "enhanced_early_shift_assignment", affected_engineers := ["F", "B"], reason := "Enhanced early shift: OnCall engineer (F) assigned as Early1, second engineer (B) selected with fairness consideration", alternatives_considered := ["C", "D"] }, { date := "day:8", decision_type := "enhanced_appointments_assignment", affected_engineers := ["C"], reason := "Enhanced appointments assignment with fairness weighting (selected weight: 0.0, seed=0, day_offset=1) (fairness weight: 1.0, impact: 1.0)", alternatives_considered := ["D(weight:0.0)", "E(weight:0.0)"] }, { date := "day:8", decision_type := "enhanced_oncall_assignment", affected_engineers := ["F"], reason := "Enhanced OnCall assignment with fairness weighting - avoided weekend workers: ", alternatives_considered := ["C", "D"] }, { date := "day:8", decision_type := "enhanced_chat_assignment", affected_engineers := ["B"], reason := "Enhanced chat assignment with fairness weighting (selected weight: 0.0, seed=0, day_offset=1) (fairness weight: 1.0, impact: 1.0)", alternatives_considered := ["C(weight:0.0)", "D(weight:0.0)", "E(weight:0.0)"] }, { date := "day:7", decision_type := "enhanced_weekend_assignment", affected_engineers := ["A"], reason := "Enhanced weekend assignment for week 0 Sunday using fairness-weighted selection (pattern B, fairness weight: 2.0)", alternatives_considered := ["B", "C"] }, { date := "day:7", decision_type := "weekend_rotation_setup", affected_engineers := ["A", "B", "C", "D", "E", "F"], reason := "Weekend rotation established with seed 0", alternatives_considered := ["Alternative seed 1", "Alternative seed 2", "Alternative seed 3", "Alternative seed 4", "Alternative seed 5"] }], comps := [], rows := [{ Date := 7, Day := "Sun", WeekIndex := 0, Early1 := "", Early2 := "", Chat := "", OnCall := "", Appointments := "", cells := [("A", "WORK", "Weekend"), ("B", "WORK", "Weekend"), ("C", "WORK", "Weekend"), ("D", "WORK", "Weekend"), ("E", "WORK", "Weekend"), ("F", "WORK", "Weekend")] }, { Date := 8, Day := "Mon", WeekIndex := 0, Early1 := "F", Early2 := "B", Chat := "B", OnCall := "F", Appointments := "C", cells := [("A", "OFF", ""), ("B", "WORK", "06:45-15:45"), ("C", "WORK", "08:00-17:00"), ("D", "WORK", "08:00-17:00"), ("E", "WORK", "08:00-17:00"), ("F", "WORK", "06:45-15:45")] }, { Date := 9, Day := "Tue", WeekIndex := 0, Early1 := "E", Early2 := "C", Chat := "C", OnCall := "E", Appointments := "D", cells := [("A", "WORK", "08:00-17:00"), ("B", "WORK", "08:00-17:00"), ("C", "WORK", "06:45-15:45"), ("D", "WORK", "08:00-17:00"), ("E", "WORK", "06:45-15:45"), ("F", "WORK", "08:00-17:00")] }, { Date := 10, Day := "Wed", WeekIndex := 0, Early1 := "A", Early2 := "D", Chat := "D", OnCall := "A", Appointments := "E", cells := [("A", "WORK", "06:45-15:45"), ("B", "WORK", "08:00-17:00"), ("C", "WORK", "08:00-17:00"), ("D", "WORK", "06:45-15:45"), ("E", "WORK", "08:00-17:00"), ("F", "WORK", "08:00-17:00")] }] }

/-- The C9 run state after days 7–13 (week 1). -/
def C9state7 : RunState := { ft := { engineers := ["A", "B", "C", "D", "E", "F"], assignment_history := [("A", { weekend := 4, oncall := 1, early := 1, chat := 0, appointments := 1 }), ("B", { weekend := 4, oncall := 0, early := (11 : Rat)/5, chat := 1, appointments := 0 }), ("C", { weekend := 4, oncall := 1, early := (16 : Rat)/5, chat := 1, appointments := 1 }), ("D", { weekend := 4, oncall := 1, early := (16 : Rat)/5, chat := 1, appointments := 1 }), ("E", { weekend := 4, oncall := 1, early := (16 : Rat)/5, chat := 1, appointments := 1 }), ("F", { weekend := 4, oncall := 1, early := (16 : Rat)/5, chat := 1, appointments := 1 })], weekend_assignments := [("A", 2), ("B", 2), ("C", 2), ("D", 2), ("E", 2), ("F", 2)], role_distribution_variance := { weekend := 0, oncall := (5 : Rat)/36, early := (31 : Rat)/45, chat := (5 : Rat)/36, appointments := (5 : Rat)/36 } }, log := [{ date := "day:13", decision_type := "enhanced_weekend_assignment", affected_engineers := ["B"], reason := "Enhanced weekend assignment for week 0 using fairness-weighted selection (pattern A, fairness weight: 2.0)", alternatives_considered := ["A", "C"] }, { date := "day:12", decision_type := "scheduling_conflict", affected_engineers := ["F", "D", "A", "D", "F"], reason := "Conflicts detected: Engineer(s) assigned to multiple roles: F, D", alternatives_considered := ["Consider manual role reassignment to resolve conflicts", "Available backfill engineers: B"] }, { date := "day:12", decision_type := "enhanced_early_shift_assignment", affected_engineers := ["D", "F"], reason := "Enhanced early shift: OnCall engineer (D) assigned as Early1, second engineer (F) selected with fairness consideration", alternatives_considered := ["A", "C"] }, { date := "day:12", decision_type := "enhanced_appointments_assignment", affected_engineers := ["A"], reason := "Enhanced appointments assignment with fairness weighting (selected weight: 0.0, seed=0, day_offset=5) (fairness weight: 1.0, impact: 1.0)", alternatives_considered := ["C(weight:1.0)", "E(weight:1.0)"] }, { date := "day:12", decision_type := "enhanced_oncall_assignment", affected_engineers := ["D"], reason := "Enhanced OnCall assignment with fairness weighting - avoided weekend workers: C", alternatives_considered := ["E", "A"] }, { date := "day:12", decision_type := "enhanced_chat_assignment", affected_engineers := ["F"], reason := "Enhanced chat assignment with fairness weighting (selected weight: 0.0, seed=0, day_offset=5) (fairness weight: 1.0, impact: 1.0)", alternatives_considered := ["A(weight:0.0)", "C(weight:1.0)", "D(weight:1.0)"] }, { date := "day:11", decision_type := "scheduling_conflict", affected_engineers := ["E", "C", "F", "C", "E"], reason := "Conflicts detected: Engineer(s) assigned to multiple roles: E, C", alternatives_considered := ["Consider manual role reassignment to resolve conflicts", "Unassigned working engineers available: A, B, D"] }, { date := "day:11", decision_type := "enhanced_early_shift_assignment", affected_engineers := ["C", "E"], reason := "Enhanced early shift: OnCall engineer (C) assigned as Early1, second engineer (E) selected with fairness consideration", alternatives_considered := ["A", "B"] }, { date := "day:11", decision_type := "enhanced_appointments_assignment", affected_engineers := ["F"], reason := "Enhanced appointments assignment with fairness weighting (selected weight: 0.0, seed=0, day_offset=4) (fairness weight: 1.0, impact: 1.0)", alternatives_considered := ["A(weight:0.0)", "B(weight:0.0)", "D(weight:1.0)"] }, { date := "day:11", decision_type := "enhanced_oncall_assignment", affected_engineers := ["C"], reason := "Enhanced OnCall assignment with fairness weighting - avoided weekend workers: B", alternatives_considered := ["D", "F"] }, { date := "day:11", decision_type := "enhanced_chat_assignment", affected_engineers := ["E"], reason := "Enhanced chat assignment with fairness weighting (selected weight: 0.0, seed=0, day_offset=4) (fairness weight: 1.0, impact: 1.0)", alternatives_considered := ["F(weight:0.0)", "A(weight:0.0)", "B(weight:1.0)"] }, { date := "day:10", decision_type := "scheduling_conflict", affected_engineers := ["D", "A", "E", "A", "D"], reason := "Conflicts detected: Engineer(s) assigned to multiple roles: D, A", alternatives_considered := ["Consider manual role reassignment to resolve conflicts", "Unassigned working engineers available: B, C, F"] }, { date := "day:10", decision_type := "enhanced_early_shift_assignment", affected_engineers := ["A", "D"], reason := "Enhanced early shift: OnCall engineer (A) assigned as Early1, second engineer (D) selected with fairness consideration", alternatives_considered := ["B", "C"] }, { date := "day:10", decision_type := "enhanced_appointments_assignment", affected_engineers := ["E"], reason := "Enhanced appointments assignment with fairness weighting (selected weight: 0.0, seed=0, day_offset=3) (fairness weight: 1.0, impact: 1.0)", alternatives_considered := ["F(weight:0.0)", "B(weight:0.0)", "C(weight:1.0)"] }, { date := "day:10", decision_type := "enhanced_oncall_assignment", affected_engineers := ["A"], reason := "Enhanced OnCall assignment with fairness weighting - avoided weekend workers: B", alternatives_considered := ["C", "E"] }, { date := "day:10", decision_type := "enhanced_chat_assignment", affected_engineers := ["D"], reason := "Enhanced chat assignment with fairness weighting (selected weight: 0.0, seed=0, day_offset=3) (fairness weight: 1.0, impact: 1.0)", alternatives_considered := ["E(weight:0.0)", "F(weight:0.0)", "A(weight:0.0)"] }, { date := "day:9", decision_type := "scheduling_conflict", affected_engineers := ["C", "E", "D", "E", "C"], reason := "Conflicts detected: Engineer(s) assigned to multiple roles: C, E", alternatives_considered := ["Consider manual role reassignment to resolve conflicts", "Unassigned working engineers available: A, B, F"] }, { date := "day:9", decision_type := "enhanced_early_shift_assignment", affected_engineers := ["E", "C"], reason := "Enhanced early shift: OnCall engineer (E) assigned as Early1, second engineer (C) selected with fairness consideration", alternatives_considered := ["A", "B"] }, { date := "day:9", decision_type := "enhanced_appointments_assignment", affected_engineers := ["D"], reason := "Enhanced appointments assignment with fairness weighting (selected weight: 0.0, seed=0, day_offset=2) (fairness weight: 1.0, impact: 1.0)", alternatives_considered := ["F(weight:0.0)", "A(weight:0.0)", "B(weight:0.0)"] }, { date := "day:9", decision_type := "enhanced_oncall_assignment", affected_engineers := ["E"], reason := "Enhanced OnCall assignment with fairness weighting - avoided weekend workers: B", alternatives_considered := ["A", "D"] }, { date := "day:9", decision_type := "enhanced_chat_assignment", affected_engineers := ["C"], reason := "Enhanced chat assignment with fairness weighting (selected weight: 0.0, seed=0, day_offset=2) (fairness weight: 1.0, impact: 1.0)", alternatives_considered := ["D(weight:0.0)", "E(weight:0.0)", "F(weight:0.0)"] }, { date := "day:8", decision_type := "scheduling_conflict", affected_engineers := ["B", "F", "C", "F", "B"], reason := "Conflicts detected: Engineer(s) assigned to multiple roles: B, F", alternatives_considered := ["Consider manual role reassignment to resolve conflicts", "Available backfill engineers: A"] }, { date := "day:8", decision_type := "enhanced_early_shift_assignment", affected_engineers := ["F", "B"], reason := "Enhanced early shift: OnCall engineer (F) assigned as Early1, second engineer (B) selected with fairness consideration", alternatives_considered := ["C", "D"] }, { date := "day:8", decision_type := "enhanced_appointments_assignment", affected_engineers := ["C"], reason := "Enhanced appointments assignment with fairness weighting (selected weight: 0.0, seed=0, day_offset=1) (fairness weight: 1.0, impact: 1.0)", alternatives_considered := ["D(weight:0.0)", "E(weight:0.0)"] }, { date := "day:8", decision_type := "enhanced_oncall_assignment", affected_engineers := ["F"], reason := "Enhanced OnCall assignment with fairness weighting - avoided weekend workers: ", alternatives_considered := ["C", "D"] }, { date := "day:8", decision_type := "enhanced_chat_assignment", affected_engineers := ["B"], reason := "Enhanced chat assignment with fairness weighting (selected weight: 0.0, seed=0, day_offset=1) (fairness weight: 1.0, impact: 1.0)", alternatives_considered := ["C(weight:0.0)", "D(weight:0.0)", "E(weight:0.0)"] }, { date := "day:7", decision_type := "enhanced_weekend_assignment", affected_engineers := ["A"], reason := "Enhanced weekend assignment for week 0 Sunday using fairness-weighted selection (pattern B, fairness weight: 2.0)", alternatives_considered := ["B", "C"] }, { date := "day:7", decision_type := "weekend_rotation_setup", affected_engineers := ["A", "B", "C", "D", "E", "F"], reason := "Weekend rotation established with seed 0", alternatives_considered := ["Alternative seed 1", "Alternative seed 2", "Alternative seed 3", "Alternative seed 4", "Alternative seed 5"] }], comps := [{ engineer := "B", weekend_date := 13, compensation_dates := [19], pattern_type := "A" }], rows := [{ Date := 7, Day := "Sun", WeekIndex := 0, Early1 := "", Early2 := "", Chat := "", OnCall := "", Appointments := "", cells := [("A", "WORK", "Weekend"), ("B", "WORK", "Weekend"), ("C", "WORK", "Weekend"), ("D", "WORK", "Weekend"), ("E", "WORK", "Weekend"), ("F", "WORK", "Weekend")] }, { Date := 8, Day := "Mon", WeekIndex := 0, Early1 := "F", Early2 := "B", Chat := "B", OnCall := "F", Appointments := "C", cells := [("A", "OFF", ""), ("B", "WORK", "06:45-15:45"), ("C", "WORK", "08:00-17:00"), ("D", "WORK", "08:00-17:00"), ("E", "WORK", "08:00-17:00"), ("F", "WORK", "06:45-15:45")] }, { Date := 9, Day := "Tue", WeekIndex := 0, Early1 := "E", Early2 := "C", Chat := "C", OnCall := "E", Appointments := "D", cells := [("A", "WORK", "08:00-17:00"), ("B", "WORK", "08:00-17:00"), ("C", "WORK", "06:45-15:45"), ("D", "WORK", "08:00-17:00"), ("E", "WORK", "06:45-15:45"), ("F", "WORK", "08:00-17:00")] }, { Date := 10, Day := "Wed", WeekIndex := 0, Early1 := "A", Early2 := "D", Chat := "D", OnCall := "A", Appointments := "E", cells := [("A", "WORK", "06:45-15:45"), ("B", "WORK", "08:00-17:00"), ("C", "WORK", "08:00-17:00"), ("D", "WORK", "06:45-15:45"), ("E", "WORK", "08:00-17:00"), ("F", "WORK", "08:00-17:00")] }, { Date := 11, Day := "Thu", WeekIndex := 0, Early1 := "C", Early2 := "E", Chat := "E", OnCall := "C", Appointments := "F", cells := [("A", "WORK", "08:00-17:00"), ("B", "WORK", "08:00-17:00"), ("C", "WORK", "06:45-15:45"), ("D", "WORK", "08:00-17:00"), ("E", "WORK", "06:45-15:45"), ("F", "WORK", "08:00-17:00")] }, { Date := 12, Day := "Fri", WeekIndex := 0, Early1 := "D", Early2 := "F", Chat := "F", OnCall := "D", Appointments := "A", cells := [("A", "WORK", "08:00-17:00"), ("B", "OFF", ""), ("C", "WORK", "08:00-17:00"), ("D", "WORK", "06:45-15:45"), ("E", "WORK", "08:00-17:00"), ("F", "WORK", "06:45-15:45")] }, { Date := 13, Day := "Sat", WeekIndex := 0, Early1 := "", Early2 := "", Chat := "", OnCall := "", Appointments := "", cells := [("A", "OFF", ""), ("B", "OFF", ""), ("C", "WORK", "Weekend-A"), ("D", "WORK", "Weekend-A"), ("E", "WORK", "Weekend-A"), ("F", "WORK", "Weekend-A")] }] }

/-- The C9 run state after days 7–16. -/
def C9state10 : RunState := { ft := { engineers := ["A", "B", "C", "D", "E", "F"], assignment_history := [("A", { weekend := 4, oncall := 1, early := (16 : Rat)/5, chat := 1, appointments := 1 }), ("B", { weekend := 6, oncall := 1, early := (16 : Rat)/5, chat := 1, appointments := 1 }), ("C", { weekend := 6, oncall := 1, early := (27 : Rat)/5, chat := 2, appointments := 1 }), ("D", { weekend := 4, oncall := 1, early := (16 : Rat)/5, chat := 1, appointments := 2 }), ("E", { weekend := 4, oncall := 2, early := (21 : Rat)/5, chat := 1, appointments := 1 }), ("F", { weekend := 4, oncall := 1, early := (16 : Rat)/5, chat := 1, appointments := 1 })], weekend_assignments := [("A", 2), ("B", 3), ("C", 3), ("D", 2), ("E", 2), ("F", 2)], role_distribution_variance := { weekend := (8 : Rat)/9, oncall := (5 : Rat)/36, early := (31 : Rat)/45, chat := (5 : Rat)/36, appointments := (5 : Rat)/36 } }, log := [{ date := "day:16", decision_type := "scheduling_conflict", affected_engineers := ["A", "E", "B", "E", "A"], reason := "Conflicts detected: Engineer(s) assigned to multiple roles: A, E", alternatives_considered := ["Consider manual role reassignment to resolve conflicts", "Unassigned working engineers available: C, D, F"] }, { date := "day:16", decision_type := "enhanced_early_shift_assignment", affected_engineers := ["E", "A"], reason := "Enhanced early shift: OnCall engineer (E) assigned as Early1, second engineer (A) selected with fairness consideration", alternatives_considered := ["B", "C"] }, { date := "day:16", decision_type := "enhanced_appointments_assignment", affected_engineers := ["B"], reason := "Enhanced appointments assignment with fairness weighting (selected weight: 0.0, seed=0, day_offset=9) (fairness weight: 0.0, impact: 1.0)", alternatives_considered := ["F(weight:1.0)", "C(weight:1.0)", "D(weight:2.0)"] }, { date := "day:16", decision_type := "enhanced_oncall_assignment", affected_engineers := ["E"], reason := "Enhanced OnCall assignment with fairness weighting - avoided weekend workers: D", alternatives_considered := ["F", "B"] }, { date := "day:16", decision_type := "enhanced_chat_assignment", affected_engineers := ["A"], reason := "Enhanced chat assignment with fairness weighting (selected weight: 0.0, seed=0, day_offset=9) (fairness weight: 0.0, impact: 1.0)", alternatives_considered := ["D(weight:1.0)", "E(weight:1.0)", "F(weight:1.0)"] }, { date := "day:15", decision_type := "scheduling_conflict", affected_engineers := ["C", "B", "D", "B", "C"], reason := "Conflicts detected: Engineer(s) assigned to multiple roles: C, B", alternatives_considered := ["Consider manual role reassignment to resolve conflicts", "Available backfill engineers: A"] }, { date := "day:15", decision_type := "enhanced_early_shift_assignment", affected_engineers := ["B", "C"], reason := "Enhanced early shift: OnCall engineer (B) assigned as Early1, second engineer (C) selected with fairness consideration", alternatives_considered := ["D", "E"] }, { date := "day:15", decision_type := "enhanced_appointments_assignment", affected_engineers := ["D"], reason := "Enhanced appointments assignment with fairness weighting (selected weight: 1.0, seed=0, day_offset=8) (fairness weight: 2.0, impact: 1.0)", alternatives_considered := ["E(weight:1.0)", "F(weight:1.0)"] }, { date := "day:15", decision_type := "enhanced_oncall_assignment", affected_engineers := ["B"], reason := "Enhanced OnCall assignment with fairness weighting - avoided weekend workers: D", alternatives_considered := ["E", "F"] }, { date := "day:15", decision_type := "enhanced_chat_assignment", affected_engineers := ["C"], reason := "Enhanced chat assignment with fairness weighting (selected weight: 1.0, seed=0, day_offset=8) (fairness weight: 2.0, impact: 1.0)", alternatives_considered := ["D(weight:1.0)", "E(weight:1.0)", "F(weight:1.0)"] }, { date := "day:14", decision_type := "enhanced_weekend_assignment", affected_engineers := ["B"], reason := "Enhanced weekend assignment for week 1 Sunday using fairness-weighted selection (pattern B, fairness weight: 2.0)", alternatives_considered := ["A", "C"] }, { date := "day:13", decision_type := "enhanced_weekend_assignment", affected_engineers := ["B"], reason := "Enhanced weekend assignment for week 0 using fairness-weighted selection (pattern A, fairness weight: 2.0)", alternatives_considered := ["A", "C"] }, { date := "day:12", decision_type := "scheduling_conflict", affected_engineers := ["F", "D", "A", "D", "F"], reason := "Conflicts detected: Engineer(s) assigned to multiple roles: F, D", alternatives_considered := ["Consider manual role reassignment to resolve conflicts", "Available backfill engineers: B"] }, { date := "day:12", decision_type := "enhanced_early_shift_assignment", affected_engineers := ["D", "F"], reason := "Enhanced early shift: OnCall engineer (D) assigned as Early1, second engineer (F) selected with fairness consideration", alternatives_considered := ["A", "C"] }, { date := "day:12", decision_type := "enhanced_appointments_assignment", affected_engineers := ["A"], reason := "Enhanced appointments assignment with fairness weighting (selected weight: 0.0, seed=0, day_offset=5) (fairness weight: 1.0, impact: 1.0)", alternatives_considered := ["C(weight:1.0)", "E(weight:1.0)"] }, { date := "day:12", decision_type := "enhanced_oncall_assignment", affected_engineers := ["D"], reason := "Enhanced OnCall assignment with fairness weighting - avoided weekend workers: C", alternatives_considered := ["E", "A"] }, { date := "day:12", decision_type := "enhanced_chat_assignment", affected_engineers := ["F"], reason := "Enhanced chat assignment with fairness weighting (selected weight: 0.0, seed=0, day_offset=5) (fairness weight: 1.0, impact: 1.0)", alternatives_considered := ["A(weight:0.0)", "C(weight:1.0)", "D(weight:1.0)"] }, { date := "day:11", decision_type := "scheduling_conflict", affected_engineers := ["E", "C", "F", "C", "E"], reason := "Conflicts detected: Engineer(s) assigned to multiple roles: E, C", alternatives_considered := ["Consider manual role reassignment to resolve conflicts", "Unassigned working engineers available: A, B, D"] }, { date := "day:11", decision_type := "enhanced_early_shift_assignment", affected_engineers := ["C", "E"], reason := "Enhanced early shift: OnCall engineer (C) assigned as Early1, second engineer (E) selected with fairness consideration", alternatives_considered := ["A", "B"] }, { date := "day:11", decision_type := "enhanced_appointments_assignment", affected_engineers := ["F"], reason := "Enhanced appointments assignment with fairness weighting (selected weight: 0.0, seed=0, day_offset=4) (fairness weight: 1.0, impact: 1.0)", alternatives_considered := ["A(weight:0.0)", "B(weight:0.0)", "D(weight:1.0)"] }, { date := "day:11", decision_type := "enhanced_oncall_assignment", affected_engineers := ["C"], reason := "Enhanced OnCall assignment with fairness weighting - avoided weekend workers: B", alternatives_considered := ["D", "F"] }, { date := "day:11", decision_type := "enhanced_chat_assignment", affected_engineers := ["E"], reason := "Enhanced chat assignment with fairness weighting (selected weight: 0.0, seed=0, day_offset=4) (fairness weight: 1.0, impact: 1.0)", alternatives_considered := ["F(weight:0.0)", "A(weight:0.0)", "B(weight:1.0)"] }, { date := "day:10", decision_type := "scheduling_conflict", affected_engineers := ["D", "A", "E", "A", "D"], reason := "Conflicts detected: Engineer(s) assigned to multiple roles: D, A", alternatives_considered := ["Consider manual role reassignment to resolve conflicts", "Unassigned working engineers available: B, C, F"] }, { date := "day:10", decision_type := "enhanced_early_shift_assignment", affected_engineers := ["A", "D"], reason := "Enhanced early shift: OnCall engineer (A) assigned as Early1, second engineer (D) selected with fairness consideration", alternatives_considered := ["B", "C"] }, { date := "day:10", decision_type := "enhanced_appointments_assignment", affected_engineers := ["E"], reason := "Enhanced appointments assignment with fairness weighting (selected weight: 0.0, seed=0, day_offset=3) (fairness weight: 1.0, impact: 1.0)", alternatives_considered := ["F(weight:0.0)", "B(weight:0.0)", "C(weight:1.0)"] }, { date := "day:10", decision_type := "enhanced_oncall_assignment", affected_engineers := ["A"], reason := "Enhanced OnCall assignment with fairness weighting - avoided weekend workers: B", alternatives_considered := ["C", "E"] }, { date := "day:10", decision_type := "enhanced_chat_assignment", affected_engineers := ["D"], reason := "Enhanced chat assignment with fairness weighting (selected weight: 0.0, seed=0, day_offset=3) (fairness weight: 1.0, impact: 1.0)", alternatives_considered := ["E(weight:0.0)", "F(weight:0.0)", "A(weight:0.0)"] }, { date := "day:9", decision_type := "scheduling_conflict", affected_engineers := ["C", "E", "D", "E", "C"], reason := "Conflicts detected: Engineer(s) assigned to multiple roles: C, E", alternatives_considered := ["Consider manual role reassignment to resolve conflicts", "Unassigned working engineers available: A, B, F"] }, { date := "day:9", decision_type := "enhanced_early_shift_assignment", affected_engineers := ["E", "C"], reason := "Enhanced early shift: OnCall engineer (E) assigned as Early1, second engineer (C) selected with fairness consideration", alternatives_considered := ["A", "B"] }, { date := "day:9", decision_type := "enhanced_appointments_assignment", affected_engineers := ["D"], reason := "Enhanced appointments assignment with fairness weighting (selected weight: 0.0, seed=0, day_offset=2) (fairness weight: 1.0, impact: 1.0)", alternatives_considered := ["F(weight:0.0)", "A(weight:0.0)", "B(weight:0.0)"] }, { date := "day:9", decision_type := "enhanced_oncall_assignment", affected_engineers := ["E"], reason := "Enhanced OnCall assignment with fairness weighting - avoided weekend workers: B", alternatives_considered := ["A", "D"] }, { date := "day:9", decision_type := "enhanced_chat_assignment", affected_engineers := ["C"], reason := "Enhanced chat assignment with fairness weighting (selected weight: 0.0, seed=0, day_offset=2) (fairness weight: 1.0, impact: 1.0)", alternatives_considered := ["D(weight:0.0)", "E(weight:0.0)", "F(weight:0.0)"] }, { date := "day:8", decision_type := "scheduling_conflict", affected_engineers := ["B", "F", "C", "F", "B"], reason := "Conflicts detected: Engineer(s) assigned to multiple roles: B, F", alternatives_considered := ["Consider manual role reassignment to resolve conflicts", "Available backfill engineers: A"] }, { date := "day:8", decision_type := "enhanced_early_shift_assignment", affected_engineers := ["F", "B"], reason := "Enhanced early shift: OnCall engineer (F) assigned as Early1, second engineer (B) selected with fairness consideration", alternatives_considered := ["C", "D"] }, { date := "day:8", decision_type := "enhanced_appointments_assignment", affected_engineers := ["C"], reason := "Enhanced appointments assignment with fairness weighting (selected weight: 0.0, seed=0, day_offset=1) (fairness weight: 1.0, impact: 1.0)", alternatives_considered := ["D(weight:0.0)", "E(weight:0.0)"] }, { date := "day:8", decision_type := "enhanced_oncall_assignment", affected_engineers := ["F"], reason := "Enhanced OnCall assignment with fairness weighting - avoided weekend workers: ", alternatives_considered := ["C", "D"] }, { date := "day:8", decision_type := "enhanced_chat_assignment", affected_engineers := ["B"], reason := "Enhanced chat assignment with fairness weighting (selected weight: 0.0, seed=0, day_offset=1) (fairness weight: 1.0, impact: 1.0)", alternatives_considered := ["C(weight:0.0)", "D(weight:0.0)", "E(weight:0.0)"] }, { date := "day:7", decision_type := "enhanced_weekend_assignment", affected_engineers := ["A"], reason := "Enhanced weekend assignment for week 0 Sunday using fairness-weighted selection (pattern B, fairness weight: 2.0)", alternatives_considered := ["B", "C"] }, { date := "day:7", decision_type := "weekend_rotation_setup", affected_engineers := ["A", "B", "C", "D", "E", "F"], reason := "Weekend rotation established with seed 0", alternatives_considered := ["Alternative seed 1", "Alternative seed 2", "Alternative seed 3", "Alternative seed 4", "Alternative seed 5"] }], comps := [{ engineer := "B", weekend_date := 13, compensation_dates := [19, 15], pattern_type := "A+B" }], rows := [{ Date := 7, Day := "Sun", WeekIndex := 0, Early1 := "", Early2 := "", Chat := "", OnCall := "", Appointments := "", cells := [("A", "WORK", "Weekend"), ("B", "WORK", "Weekend"), ("C", "WORK", "Weekend"), ("D", "WORK", "Weekend"), ("E", "WORK", "Weekend"), ("F", "WORK", "Weekend")] }, { Date := 8, Day := "Mon", WeekIndex := 0, Early1 := "F", Early2 := "B", Chat := "B", OnCall := "F", Appointments := "C", cells := [("A", "OFF", ""), ("B", "WORK", "06:45-15:45"), ("C", "WORK", "08:00-17:00"), ("D", "WORK", "08:00-17:00"), ("E", "WORK", "08:00-17:00"), ("F", "WORK", "06:45-15:45")] }, { Date := 9, Day := "Tue", WeekIndex := 0, Early1 := "E", Early2 := "C", Chat := "C", OnCall := "E", Appointments := "D", cells := [("A", "WORK", "08:00-17:00"), ("B", "WORK", "08:00-17:00"), ("C", "WORK", "06:45-15:45"), ("D", "WORK", "08:00-17:00"), ("E", "WORK", "06:45-15:45"), ("F", "WORK", "08:00-17:00")] }, { Date := 10, Day := "Wed", WeekIndex := 0, Early1 := "A", Early2 := "D", Chat := "D", OnCall := "A", Appointments := "E", cells := [("A", "WORK", "06:45-15:45"), ("B", "WORK", "08:00-17:00"), ("C", "WORK", "08:00-17:00"), ("D", "WORK", "06:45-15:45"), ("E", "WORK", "08:00-17:00"), ("F", "WORK", "08:00-17:00")] }, { Date := 11, Day := "Thu", WeekIndex := 0, Early1 := "C", Early2 := "E", Chat := "E", OnCall := "C", Appointments := "F", cells := [("A", "WORK", "08:00-17:00"), ("B", "WORK", "08:00-17:00"), ("C", "WORK", "06:45-15:45"), ("D", "WORK", "08:00-17:00"), ("E", "WORK", "06:45-15:45"), ("F", "WORK", "08:00-17:00")] }, { Date := 12, Day := "Fri", WeekIndex := 0, Early1 := "D", Early2 := "F", Chat := "F", OnCall := "D", Appointments := "A", cells := [("A", "WORK", "08:00-17:00"), ("B", "OFF", ""), ("C", "WORK", "08:00-17:00"), ("D", "WORK", "06:45-15:45"), ("E", "WORK", "08:00-17:00"), ("F", "WORK", "06:45-15:45")] }, { Date := 13, Day := "Sat", WeekIndex := 0, Early1 := "", Early2 := "", Chat := "", OnCall := "", Appointments := "", cells := [("A", "OFF", ""), ("B", "OFF", ""), ("C", "WORK", "Weekend-A"), ("D", "WORK", "Weekend-A"), ("E", "WORK", "Weekend-A"), ("F", "WORK", "Weekend-A")] }, { Date := 14, Day := "Sun", WeekIndex := 1, Early1 := "", Early2 := "", Chat := "", OnCall := "", Appointments := "", cells := [("A", "WORK", "Weekend"), ("B", "OFF", ""), ("C", "OFF", ""), ("D", "OFF", ""), ("E", "OFF", ""), ("F", "OFF", "")] }, { Date := 15, Day := "Mon", WeekIndex := 1, Early1 := "B", Early2 := "C", Chat := "C", OnCall := "B", Appointments := "D", cells := [("A", "OFF", ""), ("B", "WORK", "06:45-15:45"), ("C", "WORK", "06:45-15:45"), ("D", "WORK", "08:00-17:00"), ("E", "WORK", "08:00-17:00"), ("F", "WORK", "08:00-17:00")] }, { Date := 16, Day := "Tue", WeekIndex := 1, Early1 := "E", Early2 := "A", Chat := "A", OnCall := "E", Appointments := "B", cells := [("A", "WORK", "06:45-15:45"), ("B", "WORK", "08:00-17:00"), ("C", "WORK", "08:00-17:00"), ("D", "WORK", "08:00-17:00"), ("E", "WORK", "06:45-15:45"), ("F", "WORK", "08:00-17:00")] }] }

/-- The C9 run state after the full two weeks (days 7–20). -/
def C9state14 : RunState := { ft := { engineers := ["A", "B", "C", "D", "E", "F"], assignment_history := [("A", { weekend := 4, oncall := 1, early := (27 : Rat)/5, chat := 2, appointments := 2 }), ("B", { weekend := 6, oncall := 2, early := (32 : Rat)/5, chat := 1, appointments := 2 }), ("C", { weekend := 6, oncall := 2, early := (32 : Rat)/5, chat := 2, appointments := 1 }), ("D", { weekend := 6, oncall := 1, early := (16 : Rat)/5, chat := 1, appointments := 2 }), ("E", { weekend := 6, oncall := 2, early := (21 : Rat)/5, chat := 2, appointments := 1 }), ("F", { weekend := 6, oncall := 2, early := (32 : Rat)/5, chat := 2, appointments := 2 })], weekend_assignments := [("A", 2), ("B", 3), ("C", 3), ("D", 3), ("E", 3), ("F", 3)], role_distribution_variance := { weekend := (5 : Rat)/9, oncall := (2 : Rat)/9, early := (347 : Rat)/225, chat := (2 : Rat)/9, appointments := (2 : Rat)/9 } }, log := [{ date := "day:20", decision_type := "enhanced_weekend_assignment", affected_engineers := ["D"], reason := "Enhanced weekend assignment for week 1 using fairness-weighted selection (pattern A, fairness weight: 2.0)", alternatives_considered := ["A", "B"] }, { date := "day:19", decision_type := "scheduling_conflict", affected_engineers := ["A", "F", "B", "F", "B"], reason := "Conflicts detected: Engineer(s) assigned to multiple roles: F, B", alternatives_considered := ["Consider manual role reassignment to resolve conflicts", "Available backfill engineers: D"] }, { date := "day:19", decision_type := "enhanced_early_shift_assignment", affected_engineers := ["F", "B"], reason := "Enhanced early shift: OnCall engineer (F) assigned as Early1, second engineer (B) selected with fairness consideration", alternatives_considered := ["A", "C"] }, { date := "day:19", decision_type := "enhanced_appointments_assignment", affected_engineers := ["B"], reason := "Enhanced appointments assignment with fairness weighting (selected weight: 0.0, seed=0, day_offset=12) (fairness weight: 1.0, impact: 1.0)", alternatives_considered := ["C(weight:0.0)", "E(weight:0.0)"] }, { date := "day:19", decision_type := "enhanced_oncall_assignment", affected_engineers := ["F"], reason := "Enhanced OnCall assignment with fairness weighting - avoided weekend workers: E", alternatives_considered := ["B", "C"] }, { date := "day:19", decision_type := "enhanced_chat_assignment", affected_engineers := ["A"], reason := "Enhanced chat assignment with fairness weighting (selected weight: 0.0, seed=0, day_offset=12) (fairness weight: 1.0, impact: 1.0)", alternatives_considered := ["B(weight:0.0)", "C(weight:1.0)", "E(weight:1.0)"] }, { date := "day:18", decision_type := "scheduling_conflict", affected_engineers := ["F", "B", "A", "B", "A"], reason := "Conflicts detected: Engineer(s) assigned to multiple roles: B, A", alternatives_considered := ["Consider manual role reassignment to resolve conflicts", "Unassigned working engineers available: C, D, E"] }, { date := "day:18", decision_type := "enhanced_early_shift_assignment", affected_engineers := ["B", "A"], reason := "Enhanced early shift: OnCall engineer (B) assigned as Early1, second engineer (A) selected with fairness consideration", alternatives_considered := ["C", "D"] }, { date := "day:18", decision_type := "enhanced_appointments_assignment", affected_engineers := ["A"], reason := "Enhanced appointments assignment with fairness weighting (selected weight: 0.0, seed=0, day_offset=11) (fairness weight: 1.0, impact: 1.0)", alternatives_considered := ["C(weight:0.0)", "E(weight:0.0)", "D(weight:1.0)"] }, { date := "day:18", decision_type := "enhanced_oncall_assignment", affected_engineers := ["B"], reason := "Enhanced OnCall assignment with fairness weighting - avoided weekend workers: D", alternatives_considered := ["A", "C"] }, { date := "day:18", decision_type := "enhanced_chat_assignment", affected_engineers := ["F"], reason := "Enhanced chat assignment with fairness weighting (selected weight: 0.0, seed=0, day_offset=11) (fairness weight: 1.0, impact: 1.0)", alternatives_considered := ["A(weight:0.0)", "B(weight:0.0)", "D(weight:0.0)"] }, { date := "day:17", decision_type := "scheduling_conflict", affected_engineers := ["E", "C", "F", "C", "F"], reason := "Conflicts detected: Engineer(s) assigned to multiple roles: C, F", alternatives_considered := ["Consider manual role reassignment to resolve conflicts", "Unassigned working engineers available: A, B, D"] }, { date := "day:17", decision_type := "enhanced_early_shift_assignment", affected_engineers := ["C", "F"], reason := "Enhanced early shift: OnCall engineer (C) assigned as Early1, second engineer (F) selected with fairness consideration", alternatives_considered := ["A", "B"] }, { date := "day:17", decision_type := "enhanced_appointments_assignment", affected_engineers := ["F"], reason := "Enhanced appointments assignment with fairness weighting (selected weight: 0.0, seed=0, day_offset=10) (fairness weight: 1.0, impact: 1.0)", alternatives_considered := ["A(weight:0.0)", "B(weight:0.0)", "D(weight:1.0)"] }, { date := "day:17", decision_type := "enhanced_oncall_assignment", affected_engineers := ["C"], reason := "Enhanced OnCall assignment with fairness weighting - avoided weekend workers: D", alternatives_considered := ["F", "A"] }, { date := "day:17", decision_type := "enhanced_chat_assignment", affected_engineers := ["E"], reason := "Enhanced chat assignment with fairness weighting (selected weight: 0.0, seed=0, day_offset=10) (fairness weight: 1.0, impact: 1.0)", alternatives_considered := ["F(weight:0.0)", "A(weight:0.0)", "B(weight:0.0)"] }, { date := "day:16", decision_type := "scheduling_conflict", affected_engineers := ["A", "E", "B", "E", "A"], reason := "Conflicts detected: Engineer(s) assigned to multiple roles: A, E", alternatives_considered := ["Consider manual role reassignment to resolve conflicts", "Unassigned working engineers available: C, D, F"] }, { date := "day:16", decision_type := "enhanced_early_shift_assignment", affected_engineers := ["E", "A"], reason := "Enhanced early shift: OnCall engineer (E) assigned as Early1, second engineer (A) selected with fairness consideration", alternatives_considered := ["B", "C"] }, { date := "day:16", decision_type := "enhanced_appointments_assignment", affected_engineers := ["B"], reason := "Enhanced appointments assignment with fairness weighting (selected weight: 0.0, seed=0, day_offset=9) (fairness weight: 0.0, impact: 1.0)", alternatives_considered := ["F(weight:1.0)", "C(weight:1.0)", "D(weight:2.0)"] }, { date := "day:16", decision_type := "enhanced_oncall_assignment", affected_engineers := ["E"], reason := "Enhanced OnCall assignment with fairness weighting - avoided weekend workers: D", alternatives_considered := ["F", "B"] }, { date := "day:16", decision_type := "enhanced_chat_assignment", affected_engineers := ["A"], reason := "Enhanced chat assignment with fairness weighting (selected weight: 0.0, seed=0, day_offset=9) (fairness weight: 0.0, impact: 1.0)", alternatives_considered := ["D(weight:1.0)", "E(weight:1.0)", "F(weight:1.0)"] }, { date := "day:15", decision_type := "scheduling_conflict", affected_engineers := ["C", "B", "D", "B", "C"], reason := "Conflicts detected: Engineer(s) assigned to multiple roles: C, B", alternatives_considered := ["Consider manual role reassignment to resolve conflicts", "Available backfill engineers: A"] }, { date := "day:15", decision_type := "enhanced_early_shift_assignment", affected_engineers := ["B", "C"], reason := "Enhanced early shift: OnCall engineer (B) assigned as Early1, second engineer (C) selected with fairness consideration", alternatives_considered := ["D", "E"] }, { date := "day:15", decision_type := "enhanced_appointments_assignment", affected_engineers := ["D"], reason := "Enhanced appointments assignment with fairness weighting (selected weight: 1.0, seed=0, day_offset=8) (fairness weight: 2.0, impact: 1.0)", alternatives_considered := ["E(weight:1.0)", "F(weight:1.0)"] }, { date := "day:15", decision_type := "enhanced_oncall_assignment", affected_engineers := ["B"], reason := "Enhanced OnCall assignment with fairness weighting - avoided weekend workers: D", alternatives_considered := ["E", "F"] }, { date := "day:15", decision_type := "enhanced_chat_assignment", affected_engineers := ["C"], reason := "Enhanced chat assignment with fairness weighting (selected weight: 1.0, seed=0, day_offset=8) (fairness weight: 2.0, impact: 1.0)", alternatives_considered := ["D(weight:1.0)", "E(weight:1.0)", "F(weight:1.0)"] }, { date := "day:14", decision_type := "enhanced_weekend_assignment", affected_engineers := ["B"], reason := "Enhanced weekend assignment for week 1 Sunday using fairness-weighted selection (pattern B, fairness weight: 2.0)", alternatives_considered := ["A", "C"] }, { date := "day:13", decision_type := "enhanced_weekend_assignment", affected_engineers := ["B"], reason := "Enhanced weekend assignment for week 0 using fairness-weighted selection (pattern A, fairness weight: 2.0)", alternatives_considered := ["A", "C"] }, { date := "day:12", decision_type := "scheduling_conflict", affected_engineers := ["F", "D", "A", "D", "F"], reason := "Conflicts detected: Engineer(s) assigned to multiple roles: F, D", alternatives_considered := ["Consider manual role reassignment to resolve conflicts", "Available backfill engineers: B"] }, { date := "day:12", decision_type := "enhanced_early_shift_assignment", affected_engineers := ["D", "F"], reason := "Enhanced early shift: OnCall engineer (D) assigned as Early1, second engineer (F) selected with fairness consideration", alternatives_considered := ["A", "C"] }, { date := "day:12", decision_type := "enhanced_appointments_assignment", affected_engineers := ["A"], reason := "Enhanced appointments assignment with fairness weighting (selected weight: 0.0, seed=0, day_offset=5) (fairness weight: 1.0, impact: 1.0)", alternatives_considered := ["C(weight:1.0)", "E(weight:1.0)"] }, { date := "day:12", decision_type := "enhanced_oncall_assignment", affected_engineers := ["D"], reason := "Enhanced OnCall assignment with fairness weighting - avoided weekend workers: C", alternatives_considered := ["E", "A"] }, { date := "day:12", decision_type := "enhanced_chat_assignment", affected_engineers := ["F"], reason := "Enhanced chat assignment with fairness weighting (selected weight: 0.0, seed=0, day_offset=5) (fairness weight: 1.0, impact: 1.0)", alternatives_considered := ["A(weight:0.0)", "C(weight:1.0)", "D(weight:1.0)"] }, { date := "day:11", decision_type := "scheduling_conflict", affected_engineers := ["E", "C", "F", "C", "E"], reason := "Conflicts detected: Engineer(s) assigned to multiple roles: E, C", alternatives_considered := ["Consider manual role reassignment to resolve conflicts", "Unassigned working engineers available: A, B, D"] }, { date := "day:11", decision_type := "enhanced_early_shift_assignment", affected_engineers := ["C", "E"], reason := "Enhanced early shift: OnCall engineer (C) assigned as Early1, second engineer (E) selected with fairness consideration", alternatives_considered := ["A", "B"] }, { date := "day:11", decision_type := "enhanced_appointments_assignment", affected_engineers := ["F"], reason := "Enhanced appointments assignment with fairness weighting (selected weight: 0.0, seed=0, day_offset=4) (fairness weight: 1.0, impact: 1.0)", alternatives_considered := ["A(weight:0.0)", "B(weight:0.0)", "D(weight:1.0)"] }, { date := "day:11", decision_type := "enhanced_oncall_assignment", affected_engineers := ["C"], reason := "Enhanced OnCall assignment with fairness weighting - avoided weekend workers: B", alternatives_considered := ["D", "F"] }, { date := "day:11", decision_type := "enhanced_chat_assignment", affected_engineers := ["E"], reason := "Enhanced chat assignment with fairness weighting (selected weight: 0.0, seed=0, day_offset=4) (fairness weight: 1.0, impact: 1.0)", alternatives_considered := ["F(weight:0.0)", "A(weight:0.0)", "B(weight:1.0)"] }, { date := "day:10", decision_type := "scheduling_conflict", affected_engineers := ["D", "A", "E", "A", "D"], reason := "Conflicts detected: Engineer(s) assigned to multiple roles: D, A", alternatives_considered := ["Consider manual role reassignment to resolve conflicts", "Unassigned working engineers available: B, C, F"] }, { date := "day:10", decision_type := "enhanced_early_shift_assignment", affected_engineers := ["A", "D"], reason := "Enhanced early shift: OnCall engineer (A) assigned as Early1, second engineer (D) selected with fairness consideration", alternatives_considered := ["B", "C"] }, { date := "day:10", decision_type := "enhanced_appointments_assignment", affected_engineers := ["E"], reason := "Enhanced appointments assignment with fairness weighting (selected weight: 0.0, seed=0, day_offset=3) (fairness weight: 1.0, impact: 1.0)", alternatives_considered := ["F(weight:0.0)", "B(weight:0.0)", "C(weight:1.0)"] }, { date := "day:10", decision_type := "enhanced_oncall_assignment", affected_engineers := ["A"], reason := "Enhanced OnCall assignment with fairness weighting - avoided weekend workers: B", alternatives_considered := ["C", "E"] }, { date := "day:10", decision_type := "enhanced_chat_assignment", affected_engineers := ["D"], reason := "Enhanced chat assignment with fairness weighting (selected weight: 0.0, seed=0, day_offset=3) (fairness weight: 1.0, impact: 1.0)", alternatives_considered := ["E(weight:0.0)", "F(weight:0.0)", "A(weight:0.0)"] }, { date := "day:9", decision_type := "scheduling_conflict", affected_engineers := ["C", "E", "D", "E", "C"], reason := "Conflicts detected: Engineer(s) assigned to multiple roles: C, E", alternatives_considered := ["Consider manual role reassignment to resolve conflicts", "Unassigned working engineers available: A, B, F"] }, { date := "day:9", decision_type := "enhanced_early_shift_assignment", affected_engineers := ["E", "C"], reason := "Enhanced early shift: OnCall engineer (E) assigned as Early1, second engineer (C) selected with fairness consideration", alternatives_considered := ["A", "B"] }, { date := "day:9", decision_type := "enhanced_appointments_assignment", affected_engineers := ["D"], reason := "Enhanced appointments assignment with fairness weighting (selected weight: 0.0, seed=0, day_offset=2) (fairness weight: 1.0, impact: 1.0)", alternatives_considered := ["F(weight:0.0)", "A(weight:0.0)", "B(weight:0.0)"] }, { date := "day:9", decision_type := "enhanced_oncall_assignment", affected_engineers := ["E"], reason := "Enhanced OnCall assignment with fairness weighting - avoided weekend workers: B", alternatives_considered := ["A", "D"] }, { date := "day:9", decision_type := "enhanced_chat_assignment", affected_engineers := ["C"], reason := "Enhanced chat assignment with fairness weighting (selected weight: 0.0, seed=0, day_offset=2) (fairness weight: 1.0, impact: 1.0)", alternatives_considered := ["D(weight:0.0)", "E(weight:0.0)", "F(weight:0.0)"] }, { date := "day:8", decision_type := "scheduling_conflict", affected_engineers := ["B", "F", "C", "F", "B"], reason := "Conflicts detected: Engineer(s) assigned to multiple roles: B, F", alternatives_considered := ["Consider manual role reassignment to resolve conflicts", "Available backfill engineers: A"] }, { date := "day:8", decision_type := "enhanced_early_shift_assignment", affected_engineers := ["F", "B"], reason := "Enhanced early shift: OnCall engineer (F) assigned as Early1, second engineer (B) selected with fairness consideration", alternatives_considered := ["C", "D"] }, { date := "day:8", decision_type := "enhanced_appointments_assignment", affected_engineers := ["C"], reason := "Enhanced appointments assignment with fairness weighting (selected weight: 0.0, seed=0, day_offset=1) (fairness weight: 1.0, impact: 1.0)", alternatives_considered := ["D(weight:0.0)", "E(weight:0.0)"] }, { date := "day:8", decision_type := "enhanced_oncall_assignment", affected_engineers := ["F"], reason := "Enhanced OnCall assignment with fairness weighting - avoided weekend workers: ", alternatives_considered := ["C", "D"] }, { date := "day:8", decision_type := "enhanced_chat_assignment", affected_engineers := ["B"], reason := "Enhanced chat assignment with fairness weighting (selected weight: 0.0, seed=0, day_offset=1) (fairness weight: 1.0, impact: 1.0)", alternatives_considered := ["C(weight:0.0)", "D(weight:0.0)", "E(weight:0.0)"] }, { date := "day:7", decision_type := "enhanced_weekend_assignment", affected_engineers := ["A"], reason := "Enhanced weekend assignment for week 0 Sunday using fairness-weighted selection (pattern B, fairness weight: 2.0)", alternatives_considered := ["B", "C"] }, { date := "day:7", decision_type := "weekend_rotation_setup", affected_engineers := ["A", "B", "C", "D", "E", "F"], reason := "Weekend rotation established with seed 0", alternatives_considered := ["Alternative seed 1", "Alternative seed 2", "Alternative seed 3", "Alternative seed 4", "Alternative seed 5"] }], comps := [{ engineer := "B", weekend_date := 13, compensation_dates := [19, 15], pattern_type := "A+B" }, { engineer := "D", weekend_date := 20, compensation_dates := [26], pattern_type := "A" }], rows := [{ Date := 7, Day := "Sun", WeekIndex := 0, Early1 := "", Early2 := "", Chat := "", OnCall := "", Appointments := "", cells := [("A", "WORK", "Weekend"), ("B", "WORK", "Weekend"), ("C", "WORK", "Weekend"), ("D", "WORK", "Weekend"), ("E", "WORK", "Weekend"), ("F", "WORK", "Weekend")] }, { Date := 8, Day := "Mon", WeekIndex := 0, Early1 := "F", Early2 := "B", Chat := "B", OnCall := "F", Appointments := "C", cells := [("A", "OFF", ""), ("B", "WORK", "06:45-15:45"), ("C", "WORK", "08:00-17:00"), ("D", "WORK", "08:00-17:00"), ("E", "WORK", "08:00-17:00"), ("F", "WORK", "06:45-15:45")] }, { Date := 9, Day := "Tue", WeekIndex := 0, Early1 := "E", Early2 := "C", Chat := "C", OnCall := "E", Appointments := "D", cells := [("A", "WORK", "08:00-17:00"), ("B", "WORK", "08:00-17:00"), ("C", "WORK", "06:45-15:45"), ("D", "WORK", "08:00-17:00"), ("E", "WORK", "06:45-15:45"), ("F", "WORK", "08:00-17:00")] }, { Date := 10, Day := "Wed", WeekIndex := 0, Early1 := "A", Early2 := "D", Chat := "D", OnCall := "A", Appointments := "E", cells := [("A", "WORK", "06:45-15:45"), ("B", "WORK", "08:00-17:00"), ("C", "WORK", "08:00-17:00"), ("D", "WORK", "06:45-15:45"), ("E", "WORK", "08:00-17:00"), ("F", "WORK", "08:00-17:00")] }, { Date := 11, Day := "Thu", WeekIndex := 0, Early1 := "C", Early2 := "E", Chat := "E", OnCall := "C", Appointments := "F", cells := [("A", "WORK", "08:00-17:00"), ("B", "WORK", "08:00-17:00"), ("C", "WORK", "06:45-15:45"), ("D", "WORK", "08:00-17:00"), ("E", "WORK", "06:45-15:45"), ("F", "WORK", "08:00-17:00")] }, { Date := 12, Day := "Fri", WeekIndex := 0, Early1 := "D", Early2 := "F", Chat := "F", OnCall := "D", Appointments := "A", cells := [("A", "WORK", "08:00-17:00"), ("B", "OFF", ""), ("C", "WORK", "08:00-17:00"), ("D", "WORK", "06:45-15:45"), ("E", "WORK", "08:00-17:00"), ("F", "WORK", "06:45-15:45")] }, { Date := 13, Day := "Sat", WeekIndex := 0, Early1 := "", Early2 := "", Chat := "", OnCall := "", Appointments := "", cells := [("A", "OFF", ""), ("B", "OFF", ""), ("C", "WORK", "Weekend-A"), ("D", "WORK", "Weekend-A"), ("E", "WORK", "Weekend-A"), ("F", "WORK", "Weekend-A")] }, { Date := 14, Day := "Sun", WeekIndex := 1, Early1 := "", Early2 := "", Chat := "", OnCall := "", Appointments := "", cells := [("A", "WORK", "Weekend"), ("B", "OFF", ""), ("C", "OFF", ""), ("D", "OFF", ""), ("E", "OFF", ""), ("F", "OFF", "")] }, { Date := 15, Day := "Mon", WeekIndex := 1, Early1 := "B", Early2 := "C", Chat := "C", OnCall := "B", Appointments := "D", cells := [("A", "OFF", ""), ("B", "WORK", "06:45-15:45"), ("C", "WORK", "06:45-15:45"), ("D", "WORK", "08:00-17:00"), ("E", "WORK", "08:00-17:00"), ("F", "WORK", "08:00-17:00")] }, { Date := 16, Day := "Tue", WeekIndex := 1, Early1 := "E", Early2 := "A", Chat := "A", OnCall := "E", Appointments := "B", cells := [("A", "WORK", "06:45-15:45"), ("B", "WORK", "08:00-17:00"), ("C", "WORK", "08:00-17:00"), ("D", "WORK", "08:00-17:00"), ("E", "WORK", "06:45-15:45"), ("F", "WORK", "08:00-17:00")] }, { Date := 17, Day := "Wed", WeekIndex := 1, Early1 := "C", Early2 := "F", Chat := "E", OnCall := "C", Appointments := "F", cells := [("A", "WORK", "08:00-17:00"), ("B", "WORK", "08:00-17:00"), ("C", "WORK", "06:45-15:45"), ("D", "WORK", "08:00-17:00"), ("E", "WORK", "08:00-17:00"), ("F", "WORK", "06:45-15:45")] }, { Date := 18, Day := "Thu", WeekIndex := 1, Early1 := "B", Early2 := "A", Chat := "F", OnCall := "B", Appointments := "A", cells := [("A", "WORK", "06:45-15:45"), ("B", "WORK", "06:45-15:45"), ("C", "WORK", "08:00-17:00"), ("D", "WORK", "08:00-17:00"), ("E", "WORK", "08:00-17:00"), ("F", "WORK", "08:00-17:00")] }, { Date := 19, Day := "Fri", WeekIndex := 1, Early1 := "F", Early2 := "B", Chat := "A", OnCall := "F", Appointments := "B", cells := [("A", "WORK", "08:00-17:00"), ("B", "WORK", "06:45-15:45"), ("C", "WORK", "08:00-17:00"), ("D", "OFF", ""), ("E", "WORK", "08:00-17:00"), ("F", "WORK", "06:45-15:45")] }, { Date := 20, Day := "Sat", WeekIndex := 1, Early1 := "", Early2 := "", Chat := "", OnCall := "", Appointments := "", cells := [("A", "OFF", ""), ("B", "OFF", ""), ("C", "OFF", ""), ("D", "OFF", ""), ("E", "WORK", "Weekend-A"), ("F", "WORK", "Weekend-A")] }] }

end Scheduler

namespace Scheduler

/-- `InvariantType` from `lib/invariant_checker.py`. -/
inductive InvariantType
  | no_oncall_weekends
  | status_field_integrity
  | engineer_field_integrity
  | csv_column_count
  | weekend_coverage_pattern
  | fairness_distribution
deriving DecidableEq, Repr

/-- One `weekend_oncalls` details item. -/
structure WeekendOncallItem where
  date : String
  day : String
  engineer : String
deriving DecidableEq, Repr

/-- One `invalid_statuses` / `invalid_engineers` details item (both are
dicts with the keys `date`, `column`, `value`, `issue`). -/
structure FieldItem where
  date : String
  column : String
  value : String
  issue : String
deriving DecidableEq, Repr

/-- One `weekend_violations` details item. -/
structure WeekendPatternItem where
  week : ℤ
  issue : String
  saturday_engineers : List Eng
  sunday_engineers : List Eng
deriving DecidableEq, Repr

/-- The heterogeneous `details` dict of a violation, specialised to the
four payload shapes `check_all_invariants` can produce. -/
inductive ViolationDetails
  | weekend_oncalls (items : List WeekendOncallItem)
  | invalid_statuses (items : List FieldItem)
  | invalid_engineers (items : List FieldItem)
  | weekend_violations (items : List WeekendPatternItem)
deriving DecidableEq, Repr

/-- `InvariantViolation` from `lib/invariant_checker.py` (the
`affected_dates` / `affected_engineers` fields default to `None`). -/
structure InvariantViolation where
  violation_type : InvariantType
  severity : String
  message : String
  details : ViolationDetails
  affected_dates : Option (List String) := none
  affected_engineers : Option (List String) := none
deriving DecidableEq, Repr

/-- `_check_no_oncall_weekends`: flags rows whose `Day` is literally
`'Saturday'` or `'Sunday'` with a non-empty stripped `OnCall` value. -/
def check_no_oncall_weekends (rows : List Row) : List InvariantViolation :=
  let weekend_oncalls := rows.filterMap fun row =>
    if row.Day == "Saturday" || row.Day == "Sunday" then
      let oncall_engineer := row.OnCall.trim
      if !(oncall_engineer == "") then
        some (⟨date_iso row.Date, row.Day, oncall_engineer⟩ : WeekendOncallItem)
      else none
    else none
  if !weekend_oncalls.isEmpty then
    [{ violation_type := .no_oncall_weekends
       severity := "error"
       message := "Found " ++ toString weekend_oncalls.length ++
         " oncall assignments on weekends"
       details := .weekend_oncalls weekend_oncalls
       affected_dates := some (weekend_oncalls.map (·.date))
       affected_engineers := some (weekend_oncalls.map (·.engineer)) }]
  else []

/-- `_check_status_field_integrity` over the `Status i` cells. -/
def check_status_field_integrity (engineers : List Eng) (rows : List Row) :
    List InvariantViolation :=
  let invalid_statuses := rows.flatMap fun row =>
    row.cells.enum.filterMap fun ic =>
      let status_value := ic.2.2.1.trim
      let column := "Status " ++ toString (ic.1 + 1)
      if engineers.contains status_value then
        some (⟨date_iso row.Date, column, status_value, "engineer_name_in_status"⟩ : FieldItem)
      else if !(["WORK", "OFF", "LEAVE", ""].contains status_value) then
        some (⟨date_iso row.Date, column, status_value, "invalid_status_value"⟩ : FieldItem)
      else none
  if !invalid_statuses.isEmpty then
    [{ violation_type := .status_field_integrity
       severity := "error"
       message := "Found " ++ toString invalid_statuses.length ++
         " invalid status field values"
       details := .invalid_statuses invalid_statuses
       affected_dates := some (invalid_statuses.map (·.date)) }]
  else []

/-- `_check_engineer_field_integrity` over the `i) Engineer` cells. -/
def check_engineer_field_integrity (engineers : List Eng) (rows : List Row) :
    List InvariantViolation :=
  let invalid_engineers := rows.flatMap fun row =>
    row.cells.enum.filterMap fun ic =>
      let engineer_value := ic.2.1.trim
      let column := toString (ic.1 + 1) ++ ") Engineer"
      if engineer_value == "" then none
      else if engineer_value.contains ':' ||
          engineer_value.toList.all (·.isDigit) then
        some (⟨date_iso row.Date, column, engineer_value,
          "time_string_in_engineer_field"⟩ : FieldItem)
      else if !(engineers.contains engineer_value) then
        some (⟨date_iso row.Date, column, engineer_value, "unknown_engineer_name"⟩ : FieldItem)
      else none
  if !invalid_engineers.isEmpty then
    [{ violation_type := .engineer_field_integrity
       severity := "error"
       message := "Found " ++ toString invalid_engineers.length ++
         " invalid engineer field values"
       details := .invalid_engineers invalid_engineers
       affected_dates := some (invalid_engineers.map (·.date)) }]
  else []

/-- `_get_weekend_engineers`: the known engineers among `Early1`, `Early2`,
`Chat` of a row, sorted. -/
def get_weekend_engineers (engineers : List Eng) (row : Row) : List Eng :=
  stableSortBy strLe
    (([row.Early1, row.Early2, row.Chat].map String.trim).filter fun e =>
      !(e == "") && engineers.contains e)

/-- `_check_weekend_coverage_pattern`: per `WeekIndex`, when the week has
exactly two `'Saturday'`/`'Sunday'`-labelled rows (one of each; the source
indexes `.iloc[0]` and would raise if one of the two labels were missing,
a case no claim touches), compare their weekend engineer sets. -/
def check_weekend_coverage_pattern (engineers : List Eng) (rows : List Row) :
    List InvariantViolation :=
  let weekend_violations := (uniqueFirst (rows.map (·.WeekIndex))).filterMap fun week_idx =>
    let week_data := rows.filter fun r => r.WeekIndex == week_idx
    let weekend_data := week_data.filter fun r => r.Day == "Saturday" || r.Day == "Sunday"
    if weekend_data.length = 2 then
      match (weekend_data.filter fun r => r.Day == "Saturday").head?,
            (weekend_data.filter fun r => r.Day == "Sunday").head? with
      | some sat, some sun =>
        let saturday_engineers := get_weekend_engineers engineers sat
        let sunday_engineers := get_weekend_engineers engineers sun
        if saturday_engineers ≠ sunday_engineers then
          some (⟨week_idx, "inconsistent_weekend_engineers", saturday_engineers,
            sunday_engineers⟩ : WeekendPatternItem)
        else none
      | _, _ => none
    else none
  if !weekend_violations.isEmpty then
    [{ violation_type := .weekend_coverage_pattern
       severity := "warning"
       message := "Found " ++ toString weekend_violations.length ++
         " weekend coverage pattern violations"
       details := .weekend_violations weekend_violations }]
  else []

/-- `ScheduleInvariantChecker.check_all_invariants` with `csv_content=None`
(the pipeline's call): the four schedule checks, in source order.  The
separate `check_fairness_distribution` method is not called by
`check_all_invariants` (its pipeline call site is commented out). -/
def check_all_invariants (engineers : List Eng) (rows : List Row) :
    List InvariantViolation :=
  check_no_oncall_weekends rows ++
    check_status_field_integrity engineers rows ++
    check_engineer_field_integrity engineers rows ++
    check_weekend_coverage_pattern engineers rows

end Scheduler

namespace Scheduler

lemma insertLe_perm {a : Type} (le : a -> a -> Bool) (x : a) (l : List a) :
    List.Perm (insertLe le x l) (x :: l) := by
  induction l with
  | nil => simp [insertLe]
  | cons y ys ih =>
    simp only [insertLe]
    split
    . exact ((ih.cons y).trans (List.Perm.swap x y ys))
    . exact List.Perm.refl _

lemma stableSortBy_foldl_perm {a : Type} (le : a -> a -> Bool) (l acc : List a) :
    List.Perm (l.foldl (fun acc y => insertLe le y acc) acc) (acc ++ l) := by
  induction l generalizing acc with
  | nil => simp
  | cons x xs ih =>
    simp only [List.foldl_cons]
    refine (ih _).trans ?_
    refine List.Perm.trans ?_ List.perm_middle.symm
    exact (insertLe_perm le x acc).append_right xs

lemma stableSortBy_perm {a : Type} (le : a -> a -> Bool) (l : List a) :
    List.Perm (stableSortBy le l) l := by
  simpa using stableSortBy_foldl_perm le l []

lemma mem_stableSortBy {a : Type} {le : a -> a -> Bool} {l : List a} {x : a} :
    x ∈ stableSortBy le l ↔ x ∈ l :=
  (stableSortBy_perm le l).mem_iff

lemma length_stableSortBy {a : Type} (le : a -> a -> Bool) (l : List a) :
    (stableSortBy le l).length = l.length :=
  (stableSortBy_perm le l).length_eq

lemma nodup_stableSortBy {a : Type} {le : a -> a -> Bool} {l : List a} (h : l.Nodup) :
    (stableSortBy le l).Nodup :=
  ((stableSortBy_perm le l).nodup_iff).2 h

lemma mem_sortByKey {a k : Type} {le : k -> k -> Bool} {f : a -> k} {l : List a} {x : a} :
    x ∈ sortByKey le f l ↔ x ∈ l := mem_stableSortBy

lemma headD_mem {a : Type} {l : List a} (h : l ≠ []) (d : a) : l.headD d ∈ l := by
  cases l with
  | nil => exact absurd rfl h
  | cons x xs => simp

end Scheduler

namespace Scheduler

lemma contains_iff {l : List Eng} {x : Eng} : l.contains x = true ↔ x ∈ l := by
  simp

lemma build_rotation_perm (engineers : List Eng) (seed : ℤ) :
    List.Perm (build_rotation engineers seed) engineers := by
  unfold build_rotation
  split
  · next h => simp_all [List.isEmpty_iff]
  · exact (List.perm_append_comm).trans (by rw [List.take_append_drop])

lemma mem_build_rotation {engineers : List Eng} {seed : ℤ} {x : Eng} :
    x ∈ build_rotation engineers seed ↔ x ∈ engineers :=
  (build_rotation_perm engineers seed).mem_iff

lemma length_build_rotation (engineers : List Eng) (seed : ℤ) :
    (build_rotation engineers seed).length = engineers.length :=
  (build_rotation_perm engineers seed).length_eq

lemma nodup_build_rotation {engineers : List Eng} {seed : ℤ} (h : engineers.Nodup) :
    (build_rotation engineers seed).Nodup :=
  ((build_rotation_perm engineers seed).nodup_iff).2 h

lemma calculate_fairness_weighted_selection_perm (candidates : List Eng) (role : Role)
    (ft : Option EnhancedFairnessTracker) (base : Option (List Eng)) :
    List.Perm (calculate_fairness_weighted_selection candidates role ft base) candidates := by
  unfold calculate_fairness_weighted_selection
  match ft with
  | none => exact List.Perm.refl _
  | some t =>
    simp only
    split
    · exact List.Perm.refl _
    · exact stableSortBy_perm _ _

lemma mem_calculate_fairness_weighted_selection {candidates : List Eng} {role : Role}
    {ft : Option EnhancedFairnessTracker} {base : Option (List Eng)} {x : Eng} :
    x ∈ calculate_fairness_weighted_selection candidates role ft base ↔ x ∈ candidates :=
  (calculate_fairness_weighted_selection_perm candidates role ft base).mem_iff

lemma mem_get_fairness_weighted_rotation_order {engineers : List Eng} {role : Role}
    {seed : ℤ} {avail : List Eng} {ft : Option EnhancedFairnessTracker} {x : Eng}
    (h : x ∈ get_fairness_weighted_rotation_order engineers role seed avail ft) :
    x ∈ avail := by
  unfold get_fairness_weighted_rotation_order at h
  split at h
  · simp at h
  · split at h
    · rw [mem_calculate_fairness_weighted_selection] at h
      exact contains_iff.1 (List.mem_filter.1 h).2
    · exact contains_iff.1 (List.mem_filter.1 h).2

lemma mem_era_order {avail : List Eng} {role : Role} {engineers : List Eng} {seeds : Seeds}
    {day_idx : ℤ} {ft : Option EnhancedFairnessTracker} {x : Eng}
    (h : x ∈ era_order avail role engineers seeds day_idx ft) : x ∈ avail := by
  unfold era_order at h
  match ft with
  | some t => exact mem_get_fairness_weighted_rotation_order h
  | none => exact mem_sortByKey.1 h

lemma headD_empty_or_mem {l : List Eng} : l.headD "" = "" ∨ l.headD "" ∈ l := by
  cases l with
  | nil => left; rfl
  | cons x xs => right; simp

lemma enhanced_role_assignment_fst (avail : List Eng) (role : Role) (engineers : List Eng)
    (seeds : Seeds) (day_idx : ℤ) (ds : String) (log : List EntryData)
    (ft : Option EnhancedFairnessTracker) :
    (enhanced_role_assignment avail role engineers seeds day_idx ds log ft).1 =
      if avail.isEmpty then ""
      else (era_order avail role engineers seeds day_idx ft).headD "" := by
  unfold enhanced_role_assignment
  split
  · rfl
  · cases ft <;> rfl

lemma enhanced_role_assignment_mem {avail : List Eng} {role : Role} {engineers : List Eng}
    {seeds : Seeds} {day_idx : ℤ} {ds : String} {log : List EntryData}
    {ft : Option EnhancedFairnessTracker}
    (h : (enhanced_role_assignment avail role engineers seeds day_idx ds log ft).1 ≠ "") :
    (enhanced_role_assignment avail role engineers seeds day_idx ds log ft).1 ∈ avail := by
  rw [enhanced_role_assignment_fst] at h ⊢
  by_cases hc : avail.isEmpty = true
  · rw [if_pos hc] at h
    exact absurd rfl h
  · rw [if_neg hc] at h ⊢
    rcases headD_empty_or_mem (l := era_order avail role engineers seeds day_idx ft) with
      he | hm
    · exact absurd he h
    · exact mem_era_order hm

lemma oncall_assignment_block_fst (available : List Eng) (d : Date) (start_sunday : Date)
    (ws : List Eng) (engineers : List Eng) (seeds : Seeds) (day_idx : ℤ) (ds : String)
    (log : List EntryData) (ft : Option EnhancedFairnessTracker) :
    (oncall_assignment_block available d start_sunday ws engineers seeds day_idx ds log
        ft).1 =
      oncall_selected available d start_sunday ws engineers seeds day_idx ft := by
  cases ft <;> rfl

lemma oncall_assignment_block_pool (available : List Eng) (d : Date) (start_sunday : Date)
    (ws : List Eng) (engineers : List Eng) (seeds : Seeds) (day_idx : ℤ) (ds : String)
    (log : List EntryData) (ft : Option EnhancedFairnessTracker) :
    (oncall_assignment_block available d start_sunday ws engineers seeds day_idx ds log
        ft).2.1 =
      available.erase
        (oncall_selected available d start_sunday ws engineers seeds day_idx ft) := by
  cases ft <;> rfl

lemma oncall_fair_sort_perm (candidates oncall_order : List Eng)
    (ft : Option EnhancedFairnessTracker) :
    List.Perm (oncall_fair_sort candidates oncall_order ft) candidates := by
  unfold oncall_fair_sort
  match ft with
  | some t => exact stableSortBy_perm _ _
  | none => exact List.Perm.refl _

lemma oncall_order_of_perm (available : List Eng) (engineers : List Eng) (seeds : Seeds)
    (day_idx : ℤ) :
    List.Perm (oncall_order_of available engineers seeds day_idx) available :=
  stableSortBy_perm _ _

lemma oncall_non_weekend_subset {available : List Eng} {d : Date} {start_sunday : Date}
    {ws : List Eng} {engineers : List Eng} {seeds : Seeds} {day_idx : ℤ}
    {ft : Option EnhancedFairnessTracker} :
    oncall_non_weekend available d start_sunday ws engineers seeds day_idx ft ⊆
      available := by
  intro y hy
  simp only [oncall_non_weekend] at hy
  split at hy
  · have h1 := (oncall_fair_sort_perm _ _ ft).mem_iff.1 hy
    have h2 := List.mem_filter.1 h1
    exact (oncall_order_of_perm available engineers seeds day_idx).mem_iff.1 h2.1
  · have h2 := List.mem_filter.1 hy
    exact (oncall_order_of_perm available engineers seeds day_idx).mem_iff.1 h2.1

lemma oncall_selected_mem {available : List Eng} {d : Date} {start_sunday : Date}
    {ws : List Eng} {engineers : List Eng} {seeds : Seeds} {day_idx : ℤ}
    {ft : Option EnhancedFairnessTracker} (h : available ≠ []) :
    oncall_selected available d start_sunday ws engineers seeds day_idx ft ∈ available := by
  simp only [oncall_selected]
  split
  · next hne =>
    have hq : oncall_non_weekend available d start_sunday ws engineers seeds day_idx ft ≠
        [] := by
      simpa [List.isEmpty_iff] using hne
    exact oncall_non_weekend_subset (headD_mem hq "")
  · have h1 := (oncall_fair_sort_perm (oncall_order_of available engineers seeds day_idx)
      (oncall_order_of available engineers seeds day_idx) ft).length_eq
    have h2 := (oncall_order_of_perm available engineers seeds day_idx).length_eq
    have hpos : 0 < (oncall_fair_sort (oncall_order_of available engineers seeds day_idx)
        (oncall_order_of available engineers seeds day_idx) ft).length := by
      rw [h1, h2]
      exact List.length_pos.2 h
    have hne := List.length_pos.1 hpos
    have hm := headD_mem hne ""
    have h3 := (oncall_fair_sort_perm _ _ ft).mem_iff.1 hm
    exact (oncall_order_of_perm available engineers seeds day_idx).mem_iff.1 h3

end Scheduler

namespace Scheduler

lemma select_second_early_engineer_fst (avail : List Eng) (oc : Eng) (engineers : List Eng)
    (seeds : Seeds) (day_idx : ℤ) (ft : Option EnhancedFairnessTracker) :
    (select_second_early_engineer avail oc engineers seeds day_idx ft).1 =
      if avail.isEmpty then ""
      else if (avail.filter fun e => !(e == oc)).isEmpty then ""
      else
        (era_order (avail.filter fun e => !(e == oc)) .early engineers seeds day_idx
          ft).headD "" := by
  simp only [select_second_early_engineer]
  split
  · rfl
  · split
    · rfl
    · cases ft <;> rfl

lemma select_second_early_engineer_props {avail : List Eng} {oc : Eng}
    {engineers : List Eng} {seeds : Seeds} {day_idx : ℤ}
    {ft : Option EnhancedFairnessTracker}
    (h : (select_second_early_engineer avail oc engineers seeds day_idx ft).1 ≠ "") :
    (select_second_early_engineer avail oc engineers seeds day_idx ft).1 ∈ avail ∧
      (select_second_early_engineer avail oc engineers seeds day_idx ft).1 ≠ oc := by
  rw [select_second_early_engineer_fst] at h ⊢
  by_cases h1 : avail.isEmpty = true
  · rw [if_pos h1] at h; exact absurd rfl h
  · rw [if_neg h1] at h ⊢
    by_cases h2 : (avail.filter fun e => !(e == oc)).isEmpty = true
    · rw [if_pos h2] at h; exact absurd rfl h
    · rw [if_neg h2] at h ⊢
      rcases headD_empty_or_mem
          (l := era_order (avail.filter fun e => !(e == oc)) .early engineers seeds day_idx
            ft) with he | hm
      · exact absurd he h
      · have hf := List.mem_filter.1 (mem_era_order hm)
        refine ⟨hf.1, ?_⟩
        simpa using hf.2

lemma should_avoid_weekend_worker_eq (e : Eng) (d start_sunday : Date) (ws : List Eng)
    (ft : Option EnhancedFairnessTracker) (sw : ℤ) :
    should_avoid_weekend_worker e d start_sunday ws ft sw =
      (if e = current_weekend_worker_of d start_sunday ws ft sw then true
       else if weekday d = 4 then (e == next_weekend_worker_of d start_sunday ws ft sw)
       else false) := by
  cases ft <;> rfl

lemma should_avoid_false {e : Eng} {d start_sunday : Date} {ws : List Eng}
    {ft : Option EnhancedFairnessTracker} {sw : ℤ}
    (h : should_avoid_weekend_worker e d start_sunday ws ft sw = false) :
    e ≠ current_weekend_worker_of d start_sunday ws ft sw ∧
      (weekday d = 4 → e ≠ next_weekend_worker_of d start_sunday ws ft sw) := by
  rw [should_avoid_weekend_worker_eq] at h
  by_cases h1 : e = current_weekend_worker_of d start_sunday ws ft sw
  · rw [if_pos h1] at h; exact absurd h (by simp)
  · rw [if_neg h1] at h
    refine ⟨h1, fun h4 => ?_⟩
    rw [if_pos h4] at h
    simpa using h

lemma enhanced_backfill_selection_fst (engineers leave_today expected_working : List Eng)
    (d start_sunday : Date) (ws : List Eng) (required_roles : List String)
    (ftr : EnhancedFairnessTracker) (log : List EntryData) (ds : String) :
    (enhanced_backfill_selection engineers leave_today expected_working d start_sunday ws
        required_roles ftr log ds).1 =
      backfill_selection engineers leave_today expected_working required_roles ftr := by
  simp only [enhanced_backfill_selection, backfill_selection]
  split
  · rfl
  · rfl

lemma backfill_selection_sub {engineers leave_today expected_working : List Eng}
    {required_roles : List String} {ftr : EnhancedFairnessTracker} {x : Eng}
    (h : x ∈ backfill_selection engineers leave_today expected_working required_roles ftr) :
    x ∈ engineers ∧ x ∉ leave_today ∧ x ∉ expected_working := by
  simp only [backfill_selection] at h
  split at h
  · simp at h
  · have h1 := List.mem_of_mem_take h
    have h2 := mem_stableSortBy.1 h1
    have h3 := List.mem_filter.1 h2
    have h4 := List.mem_filter.1 h3.1
    refine ⟨h4.1, ?_, ?_⟩
    · intro hx
      have hf := h4.2
      simp only [Bool.not_eq_true'] at hf
      have hc := contains_iff.2 hx
      rw [hf] at hc
      exact Bool.noConfusion hc
    · intro hx
      have hf := h3.2
      simp only [Bool.not_eq_true'] at hf
      have hc := contains_iff.2 hx
      rw [hf] at hc
      exact Bool.noConfusion hc

lemma backfill_selection_nodup {engineers leave_today expected_working : List Eng}
    {required_roles : List String} {ftr : EnhancedFairnessTracker}
    (h : engineers.Nodup) :
    (backfill_selection engineers leave_today expected_working required_roles ftr).Nodup := by
  simp only [backfill_selection]
  split
  · exact List.nodup_nil
  · exact (List.Sublist.nodup (List.take_sublist _ _))
      (nodup_stableSortBy ((h.filter _).filter _))

end Scheduler

namespace Scheduler

lemma gda_leave_eq (d : Date) (engineers : List Eng) (s : Date) (ws : List Eng)
    (lm : List (Eng × List Date)) (seeds : Seeds) (flag : Bool) (log : List EntryData)
    (ft : Option EnhancedFairnessTracker) :
    (generate_day_assignments d engineers s ws lm seeds flag log ft).leave_today =
      gda_leave lm d := rfl

lemma gda_working_eq (d : Date) (engineers : List Eng) (s : Date) (ws : List Eng)
    (lm : List (Eng × List Date)) (seeds : Seeds) (flag : Bool) (log : List EntryData)
    (ft : Option EnhancedFairnessTracker) :
    (generate_day_assignments d engineers s ws lm seeds flag log ft).working =
      gda_working d engineers s ws lm seeds ft := rfl

lemma mem_gda_expected {d : Date} {engineers : List Eng} {s : Date} {ws : List Eng}
    {seeds : Seeds} {ft : Option EnhancedFairnessTracker} {x : Eng}
    (h : x ∈ gda_expected d engineers s ws seeds ft) : x ∈ engineers :=
  (List.mem_filter.1 h).1

lemma gda_working_mem {d : Date} {engineers : List Eng} {s : Date} {ws : List Eng}
    {lm : List (Eng × List Date)} {seeds : Seeds} {ft : Option EnhancedFairnessTracker}
    {x : Eng} (hx : x ∈ gda_working d engineers s ws lm seeds ft) :
    x ∈ engineers ∧ x ∉ gda_leave lm d := by
  have hW0 : ∀ y, y ∈ (gda_expected d engineers s ws seeds ft).filter
      (fun e => !((gda_leave lm d).contains e)) → y ∈ engineers ∧ y ∉ gda_leave lm d := by
    intro y hy
    have h1 := List.mem_filter.1 hy
    refine ⟨mem_gda_expected h1.1, fun hl => ?_⟩
    have hf := h1.2
    simp only [Bool.not_eq_true'] at hf
    have hc := contains_iff.2 hl
    rw [hf] at hc
    exact Bool.noConfusion hc
  simp only [gda_working] at hx
  repeat' split at hx
  all_goals
    first
    | exact hW0 x hx
    | (rcases List.mem_append.1 hx with hl | hr
       · exact hW0 x hl
       · first
         | (have h2 := backfill_selection_sub (List.mem_of_mem_take hr)
            exact ⟨h2.1, h2.2.1⟩)
         | (rw [List.take_nil] at hr
            exact absurd hr (List.not_mem_nil x))
         | (have h2 := List.mem_of_mem_take (List.mem_of_mem_take hr)
            have h3 := List.mem_filter.1 h2
            have h4 := List.mem_filter.1 h3.1
            refine ⟨h4.1, fun hl => ?_⟩
            have hf := h4.2
            simp only [Bool.not_eq_true'] at hf
            have hc := contains_iff.2 hl
            rw [hf] at hc
            exact Bool.noConfusion hc))

lemma gda_working_sub {d : Date} {engineers : List Eng} {s : Date} {ws : List Eng}
    {lm : List (Eng × List Date)} {seeds : Seeds} {ft : Option EnhancedFairnessTracker} :
    gda_working d engineers s ws lm seeds ft ⊆ engineers :=
  fun _ hx => (gda_working_mem hx).1

lemma gda_working_nodup {d : Date} {engineers : List Eng} {s : Date} {ws : List Eng}
    {lm : List (Eng × List Date)} {seeds : Seeds} {ft : Option EnhancedFairnessTracker}
    (h : engineers.Nodup) : (gda_working d engineers s ws lm seeds ft).Nodup := by
  have hW0 : ((gda_expected d engineers s ws seeds ft).filter
      (fun e => !((gda_leave lm d).contains e))).Nodup := (h.filter _).filter _
  have hTake : ∀ (BF : List Eng) (k : ℕ), BF.Nodup →
      (∀ y ∈ BF, y ∉ gda_expected d engineers s ws seeds ft) →
      ((gda_expected d engineers s ws seeds ft).filter
        (fun e => !((gda_leave lm d).contains e)) ++ BF.take k).Nodup := by
    intro BF k hBF hdisj
    refine hW0.append ((List.Sublist.nodup (List.take_sublist _ _)) hBF) ?_
    intro y hy hy2
    have hyE : y ∈ gda_expected d engineers s ws seeds ft := (List.mem_filter.1 hy).1
    exact hdisj y (List.mem_of_mem_take hy2) hyE
  simp only [gda_working]
  repeat' split
  all_goals
    first
    | exact hW0
    | (apply hTake
       · first
         | exact backfill_selection_nodup h
         | exact (List.Sublist.nodup (List.take_sublist _ _)) ((h.filter _).filter _)
         | exact List.nodup_nil
       · intro y hy
         first
         | exact fun hyE => (backfill_selection_sub hy).2.2 hyE
         | exact absurd hy (List.not_mem_nil y)
         | (intro hyE
            have h2 := List.mem_of_mem_take hy
            have h3 := (List.mem_filter.1 h2).2
            simp only [Bool.not_eq_true'] at h3
            have hc := contains_iff.2 hyE
            rw [h3] at hc
            exact Bool.noConfusion hc))

end Scheduler

namespace Scheduler

lemma era_headD_mem {avail : List Eng} {role : Role} {engineers : List Eng} {seeds : Seeds}
    {day_idx : ℤ} {ft : Option EnhancedFairnessTracker}
    (h : (era_order avail role engineers seeds day_idx ft).headD "" ≠ "") :
    (era_order avail role engineers seeds day_idx ft).headD "" ∈ avail := by
  rcases headD_empty_or_mem (l := era_order avail role engineers seeds day_idx ft) with
    he | hm
  · exact absurd he h
  · exact mem_era_order hm

lemma step1_chat_mem {d s : Date} {engineers : List Eng} {seeds : Seeds} {W : List Eng}
    {ft : Option EnhancedFairnessTracker} (h : step1_chat d s engineers seeds W ft ≠ "") :
    step1_chat d s engineers seeds W ft ∈ W := by
  unfold step1_chat at *
  by_cases hW : W.isEmpty = true
  · rw [if_pos hW] at h; exact absurd rfl h
  · rw [if_neg hW] at h ⊢
    exact era_headD_mem h

lemma step1_avail1_sub {d s : Date} {engineers : List Eng} {seeds : Seeds} {W : List Eng}
    {ft : Option EnhancedFairnessTracker} :
    step1_avail1 d s engineers seeds W ft ⊆ W := by
  unfold step1_avail1
  split
  · exact fun _ h => h
  · exact List.erase_subset _ _

lemma step1_avail1_nodup {d s : Date} {engineers : List Eng} {seeds : Seeds} {W : List Eng}
    {ft : Option EnhancedFairnessTracker} (h : W.Nodup) :
    (step1_avail1 d s engineers seeds W ft).Nodup := by
  unfold step1_avail1
  split
  · exact h
  · exact h.erase _

lemma step1_avail1_not_chat {d s : Date} {engineers : List Eng} {seeds : Seeds}
    {W : List Eng} {ft : Option EnhancedFairnessTracker} (hnd : W.Nodup)
    (hc : step1_chat d s engineers seeds W ft ≠ "") {x : Eng}
    (hx : x ∈ step1_avail1 d s engineers seeds W ft) :
    x ≠ step1_chat d s engineers seeds W ft := by
  unfold step1_avail1 at hx
  rw [if_neg hc] at hx
  exact ((hnd.mem_erase_iff).1 hx).1

/-- The weekday role picks of `gda_step1`: Early1/Early2 are left empty,
each of Chat, OnCall and Appointments is either empty or a member of the
working pool, and the three picks are pairwise distinct when nonempty
(each pick is erased from the pool before the next).  The
fairness-tracker states used for the OnCall and Appointments picks are
the mutated states after the earlier picks; all the properties here are
uniform in them. -/
lemma gda_step1_spec {d s : Date} {ws engineers : List Eng} {seeds : Seeds} {W : List Eng}
    {ds : String} {log : List EntryData} {ft : Option EnhancedFairnessTracker}
    (hwd : is_weekday d = true) (hnd : W.Nodup) :
    (gda_step1 d engineers s ws seeds W ds log ft).1.Early1 = "" ∧
    (gda_step1 d engineers s ws seeds W ds log ft).1.Early2 = "" ∧
    ((gda_step1 d engineers s ws seeds W ds log ft).1.Chat ≠ "" →
      (gda_step1 d engineers s ws seeds W ds log ft).1.Chat ∈ W) ∧
    ((gda_step1 d engineers s ws seeds W ds log ft).1.OnCall ≠ "" →
      (gda_step1 d engineers s ws seeds W ds log ft).1.OnCall ∈ W) ∧
    ((gda_step1 d engineers s ws seeds W ds log ft).1.Appointments ≠ "" →
      (gda_step1 d engineers s ws seeds W ds log ft).1.Appointments ∈ W) ∧
    ((gda_step1 d engineers s ws seeds W ds log ft).1.Chat ≠ "" →
      (gda_step1 d engineers s ws seeds W ds log ft).1.OnCall ≠
        (gda_step1 d engineers s ws seeds W ds log ft).1.Chat) ∧
    ((gda_step1 d engineers s ws seeds W ds log ft).1.Chat ≠ "" →
      (gda_step1 d engineers s ws seeds W ds log ft).1.Appointments ≠ "" →
      (gda_step1 d engineers s ws seeds W ds log ft).1.Appointments ≠
        (gda_step1 d engineers s ws seeds W ds log ft).1.Chat) ∧
    ((gda_step1 d engineers s ws seeds W ds log ft).1.OnCall ≠ "" →
      (gda_step1 d engineers s ws seeds W ds log ft).1.Appointments ≠ "" →
      (gda_step1 d engineers s ws seeds W ds log ft).1.Appointments ≠
        (gda_step1 d engineers s ws seeds W ds log ft).1.OnCall) := by
  have hc : (if (!W.isEmpty) = true then
        enhanced_role_assignment W Role.chat engineers seeds (d - s) ds log ft
      else ("", log, ft)).1 = step1_chat d s engineers seeds W ft := by
    by_cases hW : W.isEmpty = true
    · simp [hW, step1_chat]
    · simp only [hW, Bool.not_false, if_true]
      rw [enhanced_role_assignment_fst]
      simp [step1_chat, hW]
  unfold gda_step1
  rw [if_pos hwd]
  simp only []
  generalize hCH : (if (!W.isEmpty) = true then
      enhanced_role_assignment W Role.chat engineers seeds (d - s) ds log ft
    else ("", log, ft)) = CR
  obtain ⟨c, lg, ftc⟩ := CR
  rw [hCH] at hc
  simp only at hc
  simp only []
  subst hc
  generalize hA1 : (if (!(step1_chat d s engineers seeds W ft == "")) = true then
      W.erase (step1_chat d s engineers seeds W ft)
    else W) = A1
  have hA1v : A1 = step1_avail1 d s engineers seeds W ft := by
    rw [← hA1]
    unfold step1_avail1
    by_cases hch : step1_chat d s engineers seeds W ft = ""
    · simp [hch]
    · simp [hch]
  subst hA1v
  by_cases hA1e : (step1_avail1 d s engineers seeds W ft).isEmpty = true
  · have hcond : ¬((!(step1_avail1 d s engineers seeds W ft).isEmpty) = true) := by
      simp [hA1e]
    rw [if_neg hcond]
    simp only []
    rw [if_neg hcond]
    simp only []
    exact ⟨rfl, rfl, fun h => step1_chat_mem h, fun h => absurd rfl h,
      fun h => absurd rfl h, fun hch heq => hch heq.symm, fun _ h => absurd rfl h,
      fun _ h => absurd rfl h⟩
  · have hA1f : (step1_avail1 d s engineers seeds W ft).isEmpty = false := by
      simpa using hA1e
    have hA1ne : step1_avail1 d s engineers seeds W ft ≠ [] := by
      intro h
      rw [h] at hA1f
      exact Bool.noConfusion hA1f
    have hcond : (!(step1_avail1 d s engineers seeds W ft).isEmpty) = true := by
      simp [hA1f]
    rw [if_pos hcond]
    rw [oncall_assignment_block_fst, oncall_assignment_block_pool]
    have hselA1 : oncall_selected (step1_avail1 d s engineers seeds W ft) d s ws engineers
        seeds (d - s) ftc ∈ step1_avail1 d s engineers seeds W ft :=
      oncall_selected_mem hA1ne
    have hselW : oncall_selected (step1_avail1 d s engineers seeds W ft) d s ws engineers
        seeds (d - s) ftc ∈ W := step1_avail1_sub hselA1
    by_cases hA2e : ((step1_avail1 d s engineers seeds W ft).erase
        (oncall_selected (step1_avail1 d s engineers seeds W ft) d s ws engineers seeds
          (d - s) ftc)).isEmpty = true
    · have hcond2 : ¬((!((step1_avail1 d s engineers seeds W ft).erase
          (oncall_selected (step1_avail1 d s engineers seeds W ft) d s ws engineers seeds
            (d - s) ftc)).isEmpty) = true) := by
        simp [hA2e]
      rw [if_neg hcond2]
      simp only []
      exact ⟨rfl, rfl, fun h => step1_chat_mem h, fun _ => hselW, fun h => absurd rfl h,
        fun hch => step1_avail1_not_chat hnd hch hselA1, fun _ h => absurd rfl h,
        fun _ h => absurd rfl h⟩
    · have hcond2 : (!((step1_avail1 d s engineers seeds W ft).erase
          (oncall_selected (step1_avail1 d s engineers seeds W ft) d s ws engineers seeds
            (d - s) ftc)).isEmpty) = true := by
        simpa using hA2e
      rw [if_pos hcond2]
      rw [enhanced_role_assignment_fst]
      rw [if_neg hA2e]
      refine ⟨rfl, rfl, fun h => step1_chat_mem h, fun _ => hselW, ?_, ?_, ?_, ?_⟩
      · intro h
        exact step1_avail1_sub (List.erase_subset _ _ (era_headD_mem h))
      · exact fun hch => step1_avail1_not_chat hnd hch hselA1
      · intro hch h
        exact step1_avail1_not_chat hnd hch
          (((step1_avail1_nodup hnd).mem_erase_iff).1 (era_headD_mem h)).2
      · intro _ h
        exact (((step1_avail1_nodup hnd).mem_erase_iff).1 (era_headD_mem h)).1

end Scheduler

namespace Scheduler

lemma gda_step1_weekend {d : Date} {engineers : List Eng} {s : Date} {ws : List Eng}
    {seeds : Seeds} {W : List Eng} {ds : String} {log : List EntryData}
    {ft : Option EnhancedFairnessTracker} (h : is_weekday d = false) :
    (gda_step1 d engineers s ws seeds W ds log ft).1 = Roles.empty := by
  unfold gda_step1
  rw [if_neg (by simp [h])]

lemma rotation_update_early_mem {working : List Eng} (roles : Roles) (ord : List Eng)
    (hsub : ∀ x ∈ ord, x ∈ working) :
    ((if 1 ≤ ord.length then ord.headD "" else roles.Early1) ∈ working ∨
      (if 1 ≤ ord.length then ord.headD "" else roles.Early1) = roles.Early1) ∧
    ((if 2 ≤ ord.length then (ord.drop 1).headD "" else roles.Early2) ∈ working ∨
      (if 2 ≤ ord.length then (ord.drop 1).headD "" else roles.Early2) = roles.Early2) := by
  constructor
  · by_cases hl : 1 ≤ ord.length
    · rw [if_pos hl]
      left
      have hne : ord ≠ [] := by
        intro h
        rw [h] at hl
        simp at hl
      exact hsub _ (headD_mem hne "")
    · rw [if_neg hl]
      right
      rfl
  · by_cases hl : 2 ≤ ord.length
    · rw [if_pos hl]
      left
      have hld : 0 < (ord.drop 1).length := by
        rw [List.length_drop]
        omega
      exact hsub _ (List.mem_of_mem_drop (headD_mem (List.length_pos.1 hld) ""))
    · rw [if_neg hl]
      right
      rfl

lemma early_shift_block_keeps (d : Date) (working : List Eng) (roles : Roles)
    (engineers : List Eng) (seeds : Seeds) (s : Date) (ds : String) (flag : Bool)
    (log : List EntryData) (ft : Option EnhancedFairnessTracker) :
    (early_shift_block d working roles engineers seeds s ds flag log ft).1.Chat =
        roles.Chat ∧
      (early_shift_block d working roles engineers seeds s ds flag log ft).1.OnCall =
        roles.OnCall ∧
      (early_shift_block d working roles engineers seeds s ds flag log ft).1.Appointments =
        roles.Appointments := by
  simp only [early_shift_block]
  repeat' split
  all_goals exact ⟨rfl, rfl, rfl⟩

lemma early_shift_block_early1 {d : Date} {working : List Eng} {roles : Roles}
    {engineers : List Eng} {seeds : Seeds} {s : Date} {ds : String} {flag : Bool}
    {log : List EntryData} {ft : Option EnhancedFairnessTracker}
    (hwd : is_weekday d = true) (hoc : roles.OnCall ≠ "") (hmem : roles.OnCall ∈ working) :
    (early_shift_block d working roles engineers seeds s ds flag log ft).1.Early1 =
      roles.OnCall := by
  have hne : working ≠ [] := List.ne_nil_of_mem hmem
  simp only [early_shift_block]
  rw [if_neg (show ¬((!(is_weekday d || flag)) = true) by simp [hwd])]
  rw [if_neg (show ¬(working.isEmpty = true) by simp [List.isEmpty_iff, hne])]
  rw [if_pos (show (is_weekday d && !(roles.OnCall == "")) = true by simp [hwd, hoc])]
  rw [if_pos (contains_iff.2 hmem)]
  split
  · rfl
  · rfl

lemma early_shift_block_early2 {d : Date} {working : List Eng} {roles : Roles}
    {engineers : List Eng} {seeds : Seeds} {s : Date} {ds : String} {flag : Bool}
    {log : List EntryData} {ft : Option EnhancedFairnessTracker}
    (hwd : is_weekday d = true) (hoc : roles.OnCall ≠ "") (hmem : roles.OnCall ∈ working)
    (he2 : roles.Early2 = "") :
    (early_shift_block d working roles engineers seeds s ds flag log ft).1.Early2 = "" ∨
      ((early_shift_block d working roles engineers seeds s ds flag log ft).1.Early2 ∈
          working ∧
        (early_shift_block d working roles engineers seeds s ds flag log ft).1.Early2 ≠
          roles.OnCall) := by
  have hne : working ≠ [] := List.ne_nil_of_mem hmem
  simp only [early_shift_block]
  rw [if_neg (show ¬((!(is_weekday d || flag)) = true) by simp [hwd])]
  rw [if_neg (show ¬(working.isEmpty = true) by simp [List.isEmpty_iff, hne])]
  rw [if_pos (show (is_weekday d && !(roles.OnCall == "")) = true by simp [hwd, hoc])]
  rw [if_pos (contains_iff.2 hmem)]
  by_cases h5 : (!((select_second_early_engineer working roles.OnCall engineers seeds
      (d - s) ft).1 == "")) = true
  · rw [if_pos h5]
    right
    have hne5 : (select_second_early_engineer working roles.OnCall engineers seeds (d - s)
        ft).1 ≠ "" := by simpa using h5
    have hp := select_second_early_engineer_props hne5
    exact ⟨hp.1, hp.2⟩
  · rw [if_neg h5]
    left
    exact he2

lemma early_shift_block_early_mem (d : Date) (working : List Eng) (roles : Roles)
    (engineers : List Eng) (seeds : Seeds) (s : Date) (ds : String) (flag : Bool)
    (log : List EntryData) (ft : Option EnhancedFairnessTracker) :
    ((early_shift_block d working roles engineers seeds s ds flag log ft).1.Early1 ∈
        working ∨
      (early_shift_block d working roles engineers seeds s ds flag log ft).1.Early1 =
        roles.Early1) ∧
    ((early_shift_block d working roles engineers seeds s ds flag log ft).1.Early2 ∈
        working ∨
      (early_shift_block d working roles engineers seeds s ds flag log ft).1.Early2 =
        roles.Early2) := by
  simp only [early_shift_block]
  by_cases h1 : (!(is_weekday d || flag)) = true
  · rw [if_pos h1]
    exact ⟨Or.inr rfl, Or.inr rfl⟩
  · rw [if_neg h1]
    by_cases h2 : working.isEmpty = true
    · rw [if_pos h2]
      exact ⟨Or.inr rfl, Or.inr rfl⟩
    · rw [if_neg h2]
      by_cases h3 : (is_weekday d && !(roles.OnCall == "")) = true
      · rw [if_pos h3]
        by_cases h4 : working.contains roles.OnCall = true
        · rw [if_pos h4]
          have hocW : roles.OnCall ∈ working := contains_iff.1 h4
          by_cases h5 : (!((select_second_early_engineer working roles.OnCall engineers
              seeds (d - s) ft).1 == "")) = true
          · rw [if_pos h5]
            have hne5 : (select_second_early_engineer working roles.OnCall engineers seeds
                (d - s) ft).1 ≠ "" := by simpa using h5
            exact ⟨Or.inl hocW, Or.inl (select_second_early_engineer_props hne5).1⟩
          · rw [if_neg h5]
            exact ⟨Or.inl hocW, Or.inr rfl⟩
        · rw [if_neg h4]
          rcases rotation_update_early_mem roles
              (sortByKey zLe
                (fun name => ((engineers.indexOf name : ℤ) + seeds.get .early + (d - s)) %
                  (engineers.length : ℤ)) working)
              (fun _ hx => mem_sortByKey.1 hx) with ⟨hE1, hE2⟩
          split
          · exact ⟨hE1, hE2⟩
          · exact ⟨hE1, hE2⟩
      · rw [if_neg h3]
        rcases rotation_update_early_mem roles
            (sortByKey zLe
              (fun name => ((engineers.indexOf name : ℤ) + seeds.get .early + (d - s)) %
                (engineers.length : ℤ)) working)
            (fun _ hx => mem_sortByKey.1 hx) with ⟨hE1, hE2⟩
        split
        · exact ⟨hE1, hE2⟩
        · exact ⟨hE1, hE2⟩

/-- The roles of `generate_day_assignments` are exactly the result of
`early_shift_block` applied to the `gda_step1` picks (for some decision
log, whose contents the role values do not depend on). -/
lemma gda_roles_eq (d : Date) (engineers : List Eng) (s : Date) (ws : List Eng)
    (lm : List (Eng × List Date)) (seeds : Seeds) (flag : Bool) (log : List EntryData)
    (ft : Option EnhancedFairnessTracker) :
    ∃ log3 : List EntryData,
      (generate_day_assignments d engineers s ws lm seeds flag log ft).roles =
        (early_shift_block d (gda_working d engineers s ws lm seeds ft)
          (gda_step1 d engineers s ws seeds (gda_working d engineers s ws lm seeds ft)
            (date_iso d) log3 ft).1
          engineers seeds s (date_iso d) flag
          (gda_step1 d engineers s ws seeds (gda_working d engineers s ws lm seeds ft)
            (date_iso d) log3 ft).2.1
          (gda_step1 d engineers s ws seeds (gda_working d engineers s ws lm seeds ft)
            (date_iso d) log3 ft).2.2).1 :=
  ⟨_, rfl⟩

end Scheduler

namespace Scheduler

lemma gda_roles_spec {d : Date} {engineers : List Eng} {s : Date} {ws : List Eng}
    {lm : List (Eng × List Date)} {seeds : Seeds} {flag : Bool} {log : List EntryData}
    {ft : Option EnhancedFairnessTracker} {R : Roles}
    (hwd : is_weekday d = true) (hnd : engineers.Nodup)
    (hR : R = (generate_day_assignments d engineers s ws lm seeds flag log ft).roles) :
    (R.Chat ≠ "" → R.Chat ∈ gda_working d engineers s ws lm seeds ft) ∧
    (R.OnCall ≠ "" → R.OnCall ∈ gda_working d engineers s ws lm seeds ft) ∧
    (R.Appointments ≠ "" → R.Appointments ∈ gda_working d engineers s ws lm seeds ft) ∧
    (R.Chat ≠ "" → R.OnCall ≠ R.Chat) ∧
    (R.Chat ≠ "" → R.Appointments ≠ "" → R.Appointments ≠ R.Chat) ∧
    (R.OnCall ≠ "" → R.Appointments ≠ "" → R.Appointments ≠ R.OnCall) ∧
    (R.OnCall ≠ "" → R.Early1 = R.OnCall) ∧
    (R.Early2 ≠ "" → R.Early2 ≠ R.OnCall) ∧
    (R.Early1 ∈ gda_working d engineers s ws lm seeds ft ∨ R.Early1 = "") ∧
    (R.Early2 ∈ gda_working d engineers s ws lm seeds ft ∨ R.Early2 = "") := by
  obtain ⟨log3, hRE⟩ := gda_roles_eq d engineers s ws lm seeds flag log ft
  rw [hRE] at hR
  subst hR
  obtain ⟨hs1, hs2, hs3, hs4, hs5, hs6, hs7, hs8⟩ := @gda_step1_spec d s ws engineers seeds
    (gda_working d engineers s ws lm seeds ft) (date_iso d) log3 ft hwd
    (gda_working_nodup hnd)
  obtain ⟨hkC, hkO, hkA⟩ := early_shift_block_keeps d
    (gda_working d engineers s ws lm seeds ft)
    (gda_step1 d engineers s ws seeds (gda_working d engineers s ws lm seeds ft)
      (date_iso d) log3 ft).1 engineers seeds s (date_iso d) flag
    (gda_step1 d engineers s ws seeds (gda_working d engineers s ws lm seeds ft)
      (date_iso d) log3 ft).2.1
    (gda_step1 d engineers s ws seeds (gda_working d engineers s ws lm seeds ft)
      (date_iso d) log3 ft).2.2
  have hmem := early_shift_block_early_mem d (gda_working d engineers s ws lm seeds ft)
    (gda_step1 d engineers s ws seeds (gda_working d engineers s ws lm seeds ft)
      (date_iso d) log3 ft).1 engineers seeds s (date_iso d) flag
    (gda_step1 d engineers s ws seeds (gda_working d engineers s ws lm seeds ft)
      (date_iso d) log3 ft).2.1
    (gda_step1 d engineers s ws seeds (gda_working d engineers s ws lm seeds ft)
      (date_iso d) log3 ft).2.2
  rw [hkC, hkO, hkA]
  refine ⟨hs3, hs4, hs5, hs6, hs7, hs8, ?_, ?_, ?_, ?_⟩
  · intro hoc
    rw [early_shift_block_early1 hwd hoc (hs4 hoc)]
  · intro h2
    by_cases hocz : (gda_step1 d engineers s ws seeds
        (gda_working d engineers s ws lm seeds ft) (date_iso d) log3 ft).1.OnCall = ""
    · rw [hocz]
      exact h2
    · rcases early_shift_block_early2 hwd hocz (hs4 hocz) hs2 with he | he
      · exact absurd he h2
      · exact he.2
  · rcases hmem.1 with h | h
    · exact Or.inl h
    · exact Or.inr (h.trans hs1)
  · rcases hmem.2 with h | h
    · exact Or.inl h
    · exact Or.inr (h.trans hs2)

lemma gda_roles_weekend_spec {d : Date} {engineers : List Eng} {s : Date} {ws : List Eng}
    {lm : List (Eng × List Date)} {seeds : Seeds} {flag : Bool} {log : List EntryData}
    {ft : Option EnhancedFairnessTracker} {R : Roles}
    (hwf : is_weekday d = false)
    (hR : R = (generate_day_assignments d engineers s ws lm seeds flag log ft).roles) :
    R.Chat = "" ∧ R.OnCall = "" ∧ R.Appointments = "" ∧
    (R.Early1 ∈ gda_working d engineers s ws lm seeds ft ∨ R.Early1 = "") ∧
    (R.Early2 ∈ gda_working d engineers s ws lm seeds ft ∨ R.Early2 = "") := by
  obtain ⟨log3, hRE⟩ := gda_roles_eq d engineers s ws lm seeds flag log ft
  rw [hRE] at hR
  subst hR
  have hwe : (gda_step1 d engineers s ws seeds (gda_working d engineers s ws lm seeds ft)
      (date_iso d) log3 ft).1 = Roles.empty := gda_step1_weekend hwf
  obtain ⟨hkC, hkO, hkA⟩ := early_shift_block_keeps d
    (gda_working d engineers s ws lm seeds ft)
    (gda_step1 d engineers s ws seeds (gda_working d engineers s ws lm seeds ft)
      (date_iso d) log3 ft).1 engineers seeds s (date_iso d) flag
    (gda_step1 d engineers s ws seeds (gda_working d engineers s ws lm seeds ft)
      (date_iso d) log3 ft).2.1
    (gda_step1 d engineers s ws seeds (gda_working d engineers s ws lm seeds ft)
      (date_iso d) log3 ft).2.2
  have hmem := early_shift_block_early_mem d (gda_working d engineers s ws lm seeds ft)
    (gda_step1 d engineers s ws seeds (gda_working d engineers s ws lm seeds ft)
      (date_iso d) log3 ft).1 engineers seeds s (date_iso d) flag
    (gda_step1 d engineers s ws seeds (gda_working d engineers s ws lm seeds ft)
      (date_iso d) log3 ft).2.1
    (gda_step1 d engineers s ws seeds (gda_working d engineers s ws lm seeds ft)
      (date_iso d) log3 ft).2.2
  rw [hkC, hkO, hkA]
  refine ⟨?_, ?_, ?_, ?_, ?_⟩
  · simp [hwe, Roles.empty]
  · simp [hwe, Roles.empty]
  · simp [hwe, Roles.empty]
  · rcases hmem.1 with h | h
    · exact Or.inl h
    · exact Or.inr (by rw [h, hwe]; rfl)
  · rcases hmem.2 with h | h
    · exact Or.inl h
    · exact Or.inr (by rw [h, hwe]; rfl)

end Scheduler

namespace Scheduler

/-- C1 (corrected): on a weekday, the Chat, OnCall and Appointments picks of
`generate_day_assignments` are pairwise distinct whenever nonempty (each
pick is removed from the available pool before the next), a nonempty OnCall
engineer deliberately also fills the Early1 slot, and a nonempty Early2
never equals the OnCall engineer.  The original claim's stronger statement
— that Early2 also never equals the Chat or Appointments engineer — is
false: `select_second_early_engineer` only excludes the on-call engineer
from the early pool, so Early2 can coincide with Chat (see the
counterexample theorem). -/
theorem C1_weekday_roles_distinct {d : Date} {engineers : List Eng} {s : Date}
    {ws : List Eng} {lm : List (Eng × List Date)} {seeds : Seeds} {flag : Bool}
    {log : List EntryData} {ft : Option EnhancedFairnessTracker} {R : Roles}
    (hwd : is_weekday d = true) (hnd : engineers.Nodup)
    (hR : R = (generate_day_assignments d engineers s ws lm seeds flag log ft).roles) :
    (R.Chat ≠ "" → R.OnCall ≠ "" → R.OnCall ≠ R.Chat) ∧
    (R.Chat ≠ "" → R.Appointments ≠ "" → R.Appointments ≠ R.Chat) ∧
    (R.OnCall ≠ "" → R.Appointments ≠ "" → R.Appointments ≠ R.OnCall) ∧
    (R.OnCall ≠ "" → R.Early1 = R.OnCall) ∧
    (R.Early2 ≠ "" → R.Early2 ≠ R.OnCall) := by
  obtain ⟨h1, h2, h3, h4, h5, h6, h7, h8, h9, h10⟩ := gda_roles_spec hwd hnd hR
  exact ⟨fun hc _ => h4 hc, h5, h6, h7, h8⟩

/-- Witness for C1: the concrete Monday (ordinal 8, week starting Sunday 7)
with roster A–F, all seeds 0, no leave and a fresh fairness tracker. -/
theorem C1_weekday_roles_distinct_witness :
    ((generate_day_assignments 8 ["A","B","C","D","E","F"] 7
          (build_rotation ["A","B","C","D","E","F"] 0) [] ⟨0,0,0,0,0⟩ false []
          (some (EnhancedFairnessTracker.fresh ["A","B","C","D","E","F"]))).roles.Chat ≠
        "" →
      (generate_day_assignments 8 ["A","B","C","D","E","F"] 7
          (build_rotation ["A","B","C","D","E","F"] 0) [] ⟨0,0,0,0,0⟩ false []
          (some (EnhancedFairnessTracker.fresh
            ["A","B","C","D","E","F"]))).roles.OnCall ≠ "" →
      (generate_day_assignments 8 ["A","B","C","D","E","F"] 7
          (build_rotation ["A","B","C","D","E","F"] 0) [] ⟨0,0,0,0,0⟩ false []
          (some (EnhancedFairnessTracker.fresh
            ["A","B","C","D","E","F"]))).roles.OnCall ≠
        (generate_day_assignments 8 ["A","B","C","D","E","F"] 7
          (build_rotation ["A","B","C","D","E","F"] 0) [] ⟨0,0,0,0,0⟩ false []
          (some (EnhancedFairnessTracker.fresh
            ["A","B","C","D","E","F"]))).roles.Chat) ∧
    ((generate_day_assignments 8 ["A","B","C","D","E","F"] 7
          (build_rotation ["A","B","C","D","E","F"] 0) [] ⟨0,0,0,0,0⟩ false []
          (some (EnhancedFairnessTracker.fresh ["A","B","C","D","E","F"]))).roles.Chat ≠
        "" →
      (generate_day_assignments 8 ["A","B","C","D","E","F"] 7
          (build_rotation ["A","B","C","D","E","F"] 0) [] ⟨0,0,0,0,0⟩ false []
          (some (EnhancedFairnessTracker.fresh
            ["A","B","C","D","E","F"]))).roles.Appointments ≠ "" →
      (generate_day_assignments 8 ["A","B","C","D","E","F"] 7
          (build_rotation ["A","B","C","D","E","F"] 0) [] ⟨0,0,0,0,0⟩ false []
          (some (EnhancedFairnessTracker.fresh
            ["A","B","C","D","E","F"]))).roles.Appointments ≠
        (generate_day_assignments 8 ["A","B","C","D","E","F"] 7
          (build_rotation ["A","B","C","D","E","F"] 0) [] ⟨0,0,0,0,0⟩ false []
          (some (EnhancedFairnessTracker.fresh
            ["A","B","C","D","E","F"]))).roles.Chat) ∧
    ((generate_day_assignments 8 ["A","B","C","D","E","F"] 7
          (build_rotation ["A","B","C","D","E","F"] 0) [] ⟨0,0,0,0,0⟩ false []
          (some (EnhancedFairnessTracker.fresh
            ["A","B","C","D","E","F"]))).roles.OnCall ≠ "" →
      (generate_day_assignments 8 ["A","B","C","D","E","F"] 7
          (build_rotation ["A","B","C","D","E","F"] 0) [] ⟨0,0,0,0,0⟩ false []
          (some (EnhancedFairnessTracker.fresh
            ["A","B","C","D","E","F"]))).roles.Appointments ≠ "" →
      (generate_day_assignments 8 ["A","B","C","D","E","F"] 7
          (build_rotation ["A","B","C","D","E","F"] 0) [] ⟨0,0,0,0,0⟩ false []
          (some (EnhancedFairnessTracker.fresh
            ["A","B","C","D","E","F"]))).roles.Appointments ≠
        (generate_day_assignments 8 ["A","B","C","D","E","F"] 7
          (build_rotation ["A","B","C","D","E","F"] 0) [] ⟨0,0,0,0,0⟩ false []
          (some (EnhancedFairnessTracker.fresh
            ["A","B","C","D","E","F"]))).roles.OnCall) ∧
    ((generate_day_assignments 8 ["A","B","C","D","E","F"] 7
          (build_rotation ["A","B","C","D","E","F"] 0) [] ⟨0,0,0,0,0⟩ false []
          (some (EnhancedFairnessTracker.fresh
            ["A","B","C","D","E","F"]))).roles.OnCall ≠ "" →
      (generate_day_assignments 8 ["A","B","C","D","E","F"] 7
          (build_rotation ["A","B","C","D","E","F"] 0) [] ⟨0,0,0,0,0⟩ false []
          (some (EnhancedFairnessTracker.fresh
            ["A","B","C","D","E","F"]))).roles.Early1 =
        (generate_day_assignments 8 ["A","B","C","D","E","F"] 7
          (build_rotation ["A","B","C","D","E","F"] 0) [] ⟨0,0,0,0,0⟩ false []
          (some (EnhancedFairnessTracker.fresh
            ["A","B","C","D","E","F"]))).roles.OnCall) ∧
    ((generate_day_assignments 8 ["A","B","C","D","E","F"] 7
          (build_rotation ["A","B","C","D","E","F"] 0) [] ⟨0,0,0,0,0⟩ false []
          (some (EnhancedFairnessTracker.fresh
            ["A","B","C","D","E","F"]))).roles.Early2 ≠ "" →
      (generate_day_assignments 8 ["A","B","C","D","E","F"] 7
          (build_rotation ["A","B","C","D","E","F"] 0) [] ⟨0,0,0,0,0⟩ false []
          (some (EnhancedFairnessTracker.fresh
            ["A","B","C","D","E","F"]))).roles.Early2 ≠
        (generate_day_assignments 8 ["A","B","C","D","E","F"] 7
          (build_rotation ["A","B","C","D","E","F"] 0) [] ⟨0,0,0,0,0⟩ false []
          (some (EnhancedFairnessTracker.fresh
            ["A","B","C","D","E","F"]))).roles.OnCall) :=
  C1_weekday_roles_distinct (by decide) (by decide) rfl

/-- Counterexample to C1 as stated: on the concrete Monday (ordinal 8) with
roster A–F, all seeds 0, no leave and a fresh fairness tracker, the Early2
engineer equals the Chat engineer ("B"), so the Early2 pick does not avoid
the Chat engineer of the same date. -/
theorem C1_early2_equals_chat_counterexample :
    (generate_day_assignments 8 ["A","B","C","D","E","F"] 7
        (build_rotation ["A","B","C","D","E","F"] 0) [] ⟨0,0,0,0,0⟩ false []
        (some (EnhancedFairnessTracker.fresh ["A","B","C","D","E","F"]))).roles.Chat =
      "B" ∧
    (generate_day_assignments 8 ["A","B","C","D","E","F"] 7
        (build_rotation ["A","B","C","D","E","F"] 0) [] ⟨0,0,0,0,0⟩ false []
        (some (EnhancedFairnessTracker.fresh ["A","B","C","D","E","F"]))).roles.Early2 =
      "B" := by
  constructor
  · with_unfolding_all decide
  · with_unfolding_all decide

/-- C4: on every weekday, whenever the OnCall role of
`generate_day_assignments` is nonempty, Early1 equals the OnCall engineer —
for every early-shift rotation seed. -/
theorem C4_early1_equals_oncall {d : Date} {engineers : List Eng} {s : Date}
    {ws : List Eng} {lm : List (Eng × List Date)} {seeds : Seeds} {flag : Bool}
    {log : List EntryData} {ft : Option EnhancedFairnessTracker}
    (hwd : is_weekday d = true) (hnd : engineers.Nodup)
    (hoc :
      (generate_day_assignments d engineers s ws lm seeds flag log ft).roles.OnCall ≠
        "") :
    (generate_day_assignments d engineers s ws lm seeds flag log ft).roles.Early1 =
      (generate_day_assignments d engineers s ws lm seeds flag log ft).roles.OnCall :=
  (gda_roles_spec hwd hnd rfl).2.2.2.2.2.2.1 hoc

/-- Witness for C4 at the concrete Monday (ordinal 8) run with a nonzero
early-rotation seed (3), showing Early1 = OnCall regardless of the early
rotation. -/
theorem C4_early1_equals_oncall_witness :
    (generate_day_assignments 8 ["A","B","C","D","E","F"] 7
        (build_rotation ["A","B","C","D","E","F"] 0) [] ⟨0,0,0,0,3⟩ false []
        (some (EnhancedFairnessTracker.fresh ["A","B","C","D","E","F"]))).roles.Early1 =
      (generate_day_assignments 8 ["A","B","C","D","E","F"] 7
        (build_rotation ["A","B","C","D","E","F"] 0) [] ⟨0,0,0,0,3⟩ false []
        (some (EnhancedFairnessTracker.fresh ["A","B","C","D","E","F"]))).roles.OnCall :=
  C4_early1_equals_oncall (by decide) (by decide) (by with_unfolding_all decide)

end Scheduler

namespace Scheduler

lemma mem_gda_leave_of {lm : List (Eng × List Date)} {d : Date} {e : Eng}
    {dates : List Date} (h1 : (e, dates) ∈ lm) (h2 : d ∈ dates) : e ∈ gda_leave lm d := by
  simp only [gda_leave]
  refine List.mem_filterMap.2 ⟨(e, dates), h1, ?_⟩
  simp [h2]

/-- C2: an engineer with a leave record for a date is excluded from the
working set of `generate_day_assignments` that date, holds none of the
five roles, and is never produced by the fairness backfill selection
(whose candidates are filtered against the same leave list). -/
theorem C2_leave_exclusion {d : Date} {engineers : List Eng} {s : Date} {ws : List Eng}
    {lm : List (Eng × List Date)} {seeds : Seeds} {flag : Bool} {log : List EntryData}
    {ft : Option EnhancedFairnessTracker} {e : Eng} {dates : List Date}
    {required_roles : List String} {tr : EnhancedFairnessTracker}
    (hnd : engineers.Nodup) (hmem : (e, dates) ∈ lm) (hd : d ∈ dates) (hne : e ≠ "") :
    e ∉ (generate_day_assignments d engineers s ws lm seeds flag log ft).working ∧
    (generate_day_assignments d engineers s ws lm seeds flag log ft).roles.Chat ≠ e ∧
    (generate_day_assignments d engineers s ws lm seeds flag log ft).roles.OnCall ≠ e ∧
    (generate_day_assignments d engineers s ws lm seeds flag log
        ft).roles.Appointments ≠ e ∧
    (generate_day_assignments d engineers s ws lm seeds flag log ft).roles.Early1 ≠ e ∧
    (generate_day_assignments d engineers s ws lm seeds flag log ft).roles.Early2 ≠ e ∧
    e ∉ backfill_selection engineers (gda_leave lm d)
      (gda_expected d engineers s ws seeds ft) required_roles tr := by
  have hel : e ∈ gda_leave lm d := mem_gda_leave_of hmem hd
  have hw : e ∉ gda_working d engineers s ws lm seeds ft := fun hx =>
    (gda_working_mem hx).2 hel
  have hrole : ∀ x : Eng, (x ≠ "" → x ∈ gda_working d engineers s ws lm seeds ft) →
      x ≠ e := by
    intro x hx heq
    subst heq
    exact hw (hx hne)
  have hrole2 : ∀ x : Eng, (x ∈ gda_working d engineers s ws lm seeds ft ∨ x = "") →
      x ≠ e := by
    intro x hx heq
    subst heq
    rcases hx with h | h
    · exact hw h
    · exact hne h
  refine ⟨?_, ?_, ?_, ?_, ?_, ?_, fun hx => (backfill_selection_sub hx).2.1 hel⟩
  · rw [gda_working_eq]
    exact hw
  all_goals by_cases hwd : is_weekday d = true
  case pos =>
    obtain ⟨h1, _, _, _, _, _, _, _, _, _⟩ := gda_roles_spec hwd hnd
      (Eq.refl (generate_day_assignments d engineers s ws lm seeds flag log ft).roles)
    exact hrole _ h1
  case neg =>
    have hwf : is_weekday d = false := by simpa using hwd
    obtain ⟨h1, _, _, _, _⟩ := gda_roles_weekend_spec hwf
      (Eq.refl (generate_day_assignments d engineers s ws lm seeds flag log ft).roles)
    intro heq
    rw [h1] at heq
    exact hne heq.symm
  case pos =>
    obtain ⟨_, h2, _, _, _, _, _, _, _, _⟩ := gda_roles_spec hwd hnd
      (Eq.refl (generate_day_assignments d engineers s ws lm seeds flag log ft).roles)
    exact hrole _ h2
  case neg =>
    have hwf : is_weekday d = false := by simpa using hwd
    obtain ⟨_, h2, _, _, _⟩ := gda_roles_weekend_spec hwf
      (Eq.refl (generate_day_assignments d engineers s ws lm seeds flag log ft).roles)
    intro heq
    rw [h2] at heq
    exact hne heq.symm
  case pos =>
    obtain ⟨_, _, h3, _, _, _, _, _, _, _⟩ := gda_roles_spec hwd hnd
      (Eq.refl (generate_day_assignments d engineers s ws lm seeds flag log ft).roles)
    exact hrole _ h3
  case neg =>
    have hwf : is_weekday d = false := by simpa using hwd
    obtain ⟨_, _, h3, _, _⟩ := gda_roles_weekend_spec hwf
      (Eq.refl (generate_day_assignments d engineers s ws lm seeds flag log ft).roles)
    intro heq
    rw [h3] at heq
    exact hne heq.symm
  case pos =>
    obtain ⟨_, _, _, _, _, _, _, _, h9, _⟩ := gda_roles_spec hwd hnd
      (Eq.refl (generate_day_assignments d engineers s ws lm seeds flag log ft).roles)
    exact hrole2 _ h9
  case neg =>
    have hwf : is_weekday d = false := by simpa using hwd
    obtain ⟨_, _, _, h4, _⟩ := gda_roles_weekend_spec hwf
      (Eq.refl (generate_day_assignments d engineers s ws lm seeds flag log ft).roles)
    exact hrole2 _ h4
  case pos =>
    obtain ⟨_, _, _, _, _, _, _, _, _, h10⟩ := gda_roles_spec hwd hnd
      (Eq.refl (generate_day_assignments d engineers s ws lm seeds flag log ft).roles)
    exact hrole2 _ h10
  case neg =>
    have hwf : is_weekday d = false := by simpa using hwd
    obtain ⟨_, _, _, _, h5⟩ := gda_roles_weekend_spec hwf
      (Eq.refl (generate_day_assignments d engineers s ws lm seeds flag log ft).roles)
    exact hrole2 _ h5

/-- Witness for C2: engineer "C" on leave on the concrete Monday (ordinal
8); "C" gets no role, is not in the working set and is not a backfill
candidate. -/
theorem C2_leave_exclusion_witness :
    "C" ∉ (generate_day_assignments 8 ["A","B","C","D","E","F"] 7
        (build_rotation ["A","B","C","D","E","F"] 0) [("C", [8])] ⟨0,0,0,0,0⟩ false []
        (some (EnhancedFairnessTracker.fresh ["A","B","C","D","E","F"]))).working ∧
    (generate_day_assignments 8 ["A","B","C","D","E","F"] 7
        (build_rotation ["A","B","C","D","E","F"] 0) [("C", [8])] ⟨0,0,0,0,0⟩ false []
        (some (EnhancedFairnessTracker.fresh ["A","B","C","D","E","F"]))).roles.Chat ≠
      "C" ∧
    (generate_day_assignments 8 ["A","B","C","D","E","F"] 7
        (build_rotation ["A","B","C","D","E","F"] 0) [("C", [8])] ⟨0,0,0,0,0⟩ false []
        (some (EnhancedFairnessTracker.fresh ["A","B","C","D","E","F"]))).roles.OnCall ≠
      "C" ∧
    (generate_day_assignments 8 ["A","B","C","D","E","F"] 7
        (build_rotation ["A","B","C","D","E","F"] 0) [("C", [8])] ⟨0,0,0,0,0⟩ false []
        (some (EnhancedFairnessTracker.fresh
          ["A","B","C","D","E","F"]))).roles.Appointments ≠ "C" ∧
    (generate_day_assignments 8 ["A","B","C","D","E","F"] 7
        (build_rotation ["A","B","C","D","E","F"] 0) [("C", [8])] ⟨0,0,0,0,0⟩ false []
        (some (EnhancedFairnessTracker.fresh ["A","B","C","D","E","F"]))).roles.Early1 ≠
      "C" ∧
    (generate_day_assignments 8 ["A","B","C","D","E","F"] 7
        (build_rotation ["A","B","C","D","E","F"] 0) [("C", [8])] ⟨0,0,0,0,0⟩ false []
        (some (EnhancedFairnessTracker.fresh ["A","B","C","D","E","F"]))).roles.Early2 ≠
      "C" ∧
    "C" ∉ backfill_selection ["A","B","C","D","E","F"] (gda_leave [("C", [8])] 8)
      (gda_expected 8 ["A","B","C","D","E","F"] 7
        (build_rotation ["A","B","C","D","E","F"] 0) ⟨0,0,0,0,0⟩
        (some (EnhancedFairnessTracker.fresh ["A","B","C","D","E","F"])))
      ["Chat", "OnCall", "Appointments"]
      (EnhancedFairnessTracker.fresh ["A","B","C","D","E","F"]) :=
  C2_leave_exclusion (by decide)
    (show ("C", [(8 : ℤ)]) ∈ [("C", [(8 : ℤ)])] by decide)
    (show (8 : ℤ) ∈ [(8 : ℤ)] by decide) (by decide)

end Scheduler

namespace Scheduler

lemma oncall_non_weekend_avoid_false {available : List Eng} {d s : Date}
    {ws engineers : List Eng} {seeds : Seeds} {day_idx : ℤ}
    {ft : Option EnhancedFairnessTracker} {x : Eng}
    (hx : x ∈ oncall_non_weekend available d s ws engineers seeds day_idx ft) :
    should_avoid_weekend_worker x d s ws ft (seeds.get .weekend) = false := by
  simp only [oncall_non_weekend] at hx
  split at hx
  · have h1 := (oncall_fair_sort_perm _ _ ft).mem_iff.1 hx
    have h2 := List.mem_filter.1 h1
    simpa using h2.2
  · have h2 := List.mem_filter.1 hx
    simpa using h2.2

lemma oncall_non_weekend_ne_nil {available : List Eng} {d s : Date}
    {ws engineers : List Eng} {seeds : Seeds} {day_idx : ℤ}
    {ft : Option EnhancedFairnessTracker} {e : Eng} (he : e ∈ available)
    (hf : should_avoid_weekend_worker e d s ws ft (seeds.get .weekend) = false) :
    oncall_non_weekend available d s ws engineers seeds day_idx ft ≠ [] := by
  have hmem : e ∈ (oncall_order_of available engineers seeds day_idx).filter
      (fun x => !(should_avoid_weekend_worker x d s ws ft (seeds.get .weekend))) := by
    refine List.mem_filter.2
      ⟨(oncall_order_of_perm available engineers seeds day_idx).mem_iff.2 he, ?_⟩
    simp [hf]
  simp only [oncall_non_weekend]
  split
  · intro hnil
    have hlen := (oncall_fair_sort_perm
      ((oncall_order_of available engineers seeds day_idx).filter
        (fun x => !(should_avoid_weekend_worker x d s ws ft (seeds.get .weekend))))
      (oncall_order_of available engineers seeds day_idx) ft).length_eq
    rw [hnil] at hlen
    have hfe : (oncall_order_of available engineers seeds day_idx).filter
        (fun x => !(should_avoid_weekend_worker x d s ws ft (seeds.get .weekend))) =
        [] := List.length_eq_zero.1 hlen.symm
    rw [hfe] at hmem
    exact absurd hmem (List.not_mem_nil e)
  · exact List.ne_nil_of_mem hmem

lemma oncall_non_weekend_nil_of_all_avoided {available : List Eng} {d s : Date}
    {ws engineers : List Eng} {seeds : Seeds} {day_idx : ℤ}
    {ft : Option EnhancedFairnessTracker}
    (hall : ∀ e ∈ available,
      should_avoid_weekend_worker e d s ws ft (seeds.get .weekend) = true) :
    oncall_non_weekend available d s ws engineers seeds day_idx ft = [] := by
  have hf : (oncall_order_of available engineers seeds day_idx).filter
      (fun e => !(should_avoid_weekend_worker e d s ws ft (seeds.get .weekend))) = [] := by
    rw [List.filter_eq_nil]
    intro a ha
    have := hall a ((oncall_order_of_perm available engineers seeds day_idx).mem_iff.1 ha)
    simp [this]
  simp only [oncall_non_weekend]
  rw [hf]
  simp

lemma oncall_selected_avoid_false {available : List Eng} {d s : Date}
    {ws engineers : List Eng} {seeds : Seeds} {day_idx : ℤ}
    {ft : Option EnhancedFairnessTracker} {e : Eng} (he : e ∈ available)
    (hf : should_avoid_weekend_worker e d s ws ft (seeds.get .weekend) = false) :
    should_avoid_weekend_worker
      (oncall_selected available d s ws engineers seeds day_idx ft) d s ws ft
      (seeds.get .weekend) = false := by
  have hne : oncall_non_weekend available d s ws engineers seeds day_idx ft ≠ [] :=
    oncall_non_weekend_ne_nil he hf
  simp only [oncall_selected]
  rw [if_pos (show (!(oncall_non_weekend available d s ws engineers seeds day_idx
      ft).isEmpty) = true by simp [List.isEmpty_iff, hne])]
  exact oncall_non_weekend_avoid_false (headD_mem hne "")

lemma oncall_assignment_block_log (available : List Eng) (d s : Date) (ws : List Eng)
    (engineers : List Eng) (seeds : Seeds) (day_idx : ℤ) (ds : String)
    (log : List EntryData) (ft : Option EnhancedFairnessTracker) :
    ∃ alts : List Eng,
      (oncall_assignment_block available d s ws engineers seeds day_idx ds log
          ft).2.2.1 =
        (⟨ds, "enhanced_oncall_assignment",
          [oncall_selected available d s ws engineers seeds day_idx ft],
          if (!(oncall_non_weekend available d s ws engineers seeds day_idx
              ft).isEmpty) = true then
            "Enhanced OnCall assignment with fairness weighting - avoided weekend workers: "
              ++ String.intercalate ", "
                ((oncall_order_of available engineers seeds day_idx).filter fun e =>
                  should_avoid_weekend_worker e d s ws ft (seeds.get .weekend))
          else
            "Enhanced OnCall assignment with fairness weighting - no non-weekend options available, using fallback",
          alts⟩ : EntryData) :: log := by
  cases ft <;> exact ⟨_, rfl⟩

/-- C3: the OnCall pick of the on-call assignment block always comes from
the available pool; whenever some available candidate is not excluded by
`should_avoid_weekend_worker`, the pick is not the current week's weekend
worker, and on Friday (weekday 4) it is also not the next week's weekend
worker; and when every available candidate is excluded, the pick falls
back to the full pool and the block logs an entry with the explicit
fallback reason. -/
theorem C3_oncall_exclusion_and_fallback {available : List Eng} {d s : Date}
    {ws engineers : List Eng} {seeds : Seeds} {day_idx : ℤ} {ds : String}
    {log : List EntryData} {ft : Option EnhancedFairnessTracker}
    (hav : available ≠ []) :
    (oncall_assignment_block available d s ws engineers seeds day_idx ds log ft).1 ∈
      available ∧
    ((∃ e ∈ available,
        should_avoid_weekend_worker e d s ws ft (seeds.get .weekend) = false) →
      (oncall_assignment_block available d s ws engineers seeds day_idx ds log ft).1 ≠
          current_weekend_worker_of d s ws ft (seeds.get .weekend) ∧
        (weekday d = 4 →
          (oncall_assignment_block available d s ws engineers seeds day_idx ds log
              ft).1 ≠
            next_weekend_worker_of d s ws ft (seeds.get .weekend))) ∧
    ((∀ e ∈ available,
        should_avoid_weekend_worker e d s ws ft (seeds.get .weekend) = true) →
      ∃ alts : List Eng,
        (oncall_assignment_block available d s ws engineers seeds day_idx ds log
            ft).2.2.1 =
          (⟨ds, "enhanced_oncall_assignment",
            [(oncall_assignment_block available d s ws engineers seeds day_idx ds log
              ft).1],
            "Enhanced OnCall assignment with fairness weighting - no non-weekend options available, using fallback",
            alts⟩ : EntryData) :: log) := by
  refine ⟨?_, ?_, ?_⟩
  · rw [oncall_assignment_block_fst]
    exact oncall_selected_mem hav
  · rintro ⟨e, he, hfe⟩
    rw [oncall_assignment_block_fst]
    exact should_avoid_false (oncall_selected_avoid_false he hfe)
  · intro hall
    have hnil : oncall_non_weekend available d s ws engineers seeds day_idx ft = [] :=
      oncall_non_weekend_nil_of_all_avoided hall
    obtain ⟨alts, hlog⟩ :=
      oncall_assignment_block_log available d s ws engineers seeds day_idx ds log ft
    refine ⟨alts, ?_⟩
    rw [hlog, oncall_assignment_block_fst, hnil]
    simp

/-- Witness for C3: the concrete Monday (ordinal 8) pool B–F with the
seeded weekend rotation of roster A–F and a fresh fairness tracker. -/
theorem C3_oncall_exclusion_and_fallback_witness :
    (oncall_assignment_block ["B","C","D","E","F"] 8 7
        (build_rotation ["A","B","C","D","E","F"] 0) ["A","B","C","D","E","F"]
        ⟨0,0,0,0,0⟩ 1 "day:8" []
        (some (EnhancedFairnessTracker.fresh ["A","B","C","D","E","F"]))).1 ∈
      ["B","C","D","E","F"] ∧
    ((∃ e ∈ ["B","C","D","E","F"],
        should_avoid_weekend_worker e 8 7 (build_rotation ["A","B","C","D","E","F"] 0)
          (some (EnhancedFairnessTracker.fresh ["A","B","C","D","E","F"]))
          (Seeds.get ⟨0,0,0,0,0⟩ .weekend) = false) →
      (oncall_assignment_block ["B","C","D","E","F"] 8 7
          (build_rotation ["A","B","C","D","E","F"] 0) ["A","B","C","D","E","F"]
          ⟨0,0,0,0,0⟩ 1 "day:8" []
          (some (EnhancedFairnessTracker.fresh ["A","B","C","D","E","F"]))).1 ≠
          current_weekend_worker_of 8 7 (build_rotation ["A","B","C","D","E","F"] 0)
            (some (EnhancedFairnessTracker.fresh ["A","B","C","D","E","F"]))
            (Seeds.get ⟨0,0,0,0,0⟩ .weekend) ∧
        (weekday 8 = 4 →
          (oncall_assignment_block ["B","C","D","E","F"] 8 7
              (build_rotation ["A","B","C","D","E","F"] 0) ["A","B","C","D","E","F"]
              ⟨0,0,0,0,0⟩ 1 "day:8" []
              (some (EnhancedFairnessTracker.fresh ["A","B","C","D","E","F"]))).1 ≠
            next_weekend_worker_of 8 7 (build_rotation ["A","B","C","D","E","F"] 0)
              (some (EnhancedFairnessTracker.fresh ["A","B","C","D","E","F"]))
              (Seeds.get ⟨0,0,0,0,0⟩ .weekend))) ∧
    ((∀ e ∈ ["B","C","D","E","F"],
        should_avoid_weekend_worker e 8 7 (build_rotation ["A","B","C","D","E","F"] 0)
          (some (EnhancedFairnessTracker.fresh ["A","B","C","D","E","F"]))
          (Seeds.get ⟨0,0,0,0,0⟩ .weekend) = true) →
      ∃ alts : List Eng,
        (oncall_assignment_block ["B","C","D","E","F"] 8 7
            (build_rotation ["A","B","C","D","E","F"] 0) ["A","B","C","D","E","F"]
            ⟨0,0,0,0,0⟩ 1 "day:8" []
            (some (EnhancedFairnessTracker.fresh
              ["A","B","C","D","E","F"]))).2.2.1 =
          (⟨"day:8", "enhanced_oncall_assignment",
            [(oncall_assignment_block ["B","C","D","E","F"] 8 7
              (build_rotation ["A","B","C","D","E","F"] 0) ["A","B","C","D","E","F"]
              ⟨0,0,0,0,0⟩ 1 "day:8" []
              (some (EnhancedFairnessTracker.fresh ["A","B","C","D","E","F"]))).1],
            "Enhanced OnCall assignment with fairness weighting - no non-weekend options available, using fallback",
            alts⟩ : EntryData) :: []) :=
  C3_oncall_exclusion_and_fallback (by decide)

end Scheduler

namespace Scheduler

lemma works_today_eq (e : Eng) (d s : Date) (ws : List Eng)
    (ft : Option EnhancedFairnessTracker) (sw : ℤ) :
    works_today e d s ws ft sw =
      (if e = current_weekend_worker_of d s ws ft sw then
        ([0, 1, 2, 3, 5] : List ℤ).contains (weekday d)
      else if e = prev_weekend_worker_of d s ws ft sw then
        ([1, 2, 3, 4, 6] : List ℤ).contains (weekday d)
      else decide (weekday d ≤ 4)) := by
  cases ft <;> rfl

lemma weekend_worker_getD {ws : List Eng} (h : ws ≠ []) (k : ℤ) :
    weekend_worker_for_week ws k = ws.getD (k % (ws.length : ℤ)).toNat "" := by
  unfold weekend_worker_for_week
  rw [if_neg (by simp [List.isEmpty_iff, h])]

lemma getD_ne_of_index {ws : List Eng} (hnd : ws.Nodup) {i j : ℕ} (hi : i < ws.length)
    (hj : j < ws.length) (hij : i ≠ j) : ws.getD i "" ≠ ws.getD j "" := by
  rw [List.getD_eq_getElem ws "" hi, List.getD_eq_getElem ws "" hj]
  intro h
  exact hij ((hnd.getElem_inj_iff).1 h)

lemma emod_sub_one_ne {n w : ℤ} (hn : 2 ≤ n) : (w - 1) % n ≠ w % n := by
  intro h
  have h1 : (w - (w - 1)) % n = 0 := by
    rw [Int.sub_emod, h, sub_self]
    simp
  have h2 : w - (w - 1) = 1 := by ring
  rw [h2] at h1
  rw [Int.emod_eq_of_lt (by norm_num) (by omega)] at h1
  exact one_ne_zero h1

lemma prev_ne_current_of_none {d s : Date} {ws : List Eng} {sw : ℤ}
    (hnd : ws.Nodup) (hlen : 2 ≤ ws.length) (hw : 0 ≤ week_index s d) :
    prev_weekend_worker_of d s ws none sw ≠ current_weekend_worker_of d s ws none sw := by
  have hne : ws ≠ [] := by
    intro h
    rw [h] at hlen
    simp at hlen
  have hn2 : (2 : ℤ) ≤ (ws.length : ℤ) := by exact_mod_cast hlen
  have hnpos : (0 : ℤ) < (ws.length : ℤ) := by omega
  have hcur : current_weekend_worker_of d s ws none sw =
      ws.getD ((week_index s d % (ws.length : ℤ)).toNat) "" := by
    show weekend_worker_for_week ws (week_index s d) = _
    exact weekend_worker_getD hne _
  have hprev : prev_weekend_worker_of d s ws none sw =
      ws.getD (((week_index s d - 1) % (ws.length : ℤ)).toNat) "" := by
    show (if 0 ≤ week_index s d - 1 then weekend_worker_for_week ws (week_index s d - 1)
      else weekend_worker_for_week ws (-1)) = _
    by_cases hw1 : 0 ≤ week_index s d - 1
    · rw [if_pos hw1]
      exact weekend_worker_getD hne _
    · rw [if_neg hw1]
      have hzero : (-1 : ℤ) = week_index s d - 1 := by omega
      rw [weekend_worker_getD hne, hzero]
  rw [hcur, hprev]
  have hmodne : (week_index s d - 1) % (ws.length : ℤ) ≠
      week_index s d % (ws.length : ℤ) := emod_sub_one_ne hn2
  have hm1 : 0 ≤ (week_index s d - 1) % (ws.length : ℤ) :=
    Int.emod_nonneg _ (by omega)
  have hm1lt : (week_index s d - 1) % (ws.length : ℤ) < (ws.length : ℤ) :=
    Int.emod_lt_of_pos _ hnpos
  have hm2 : 0 ≤ week_index s d % (ws.length : ℤ) := Int.emod_nonneg _ (by omega)
  have hm2lt : week_index s d % (ws.length : ℤ) < (ws.length : ℤ) :=
    Int.emod_lt_of_pos _ hnpos
  have hi : ((week_index s d - 1) % (ws.length : ℤ)).toNat < ws.length := by
    omega
  have hj : (week_index s d % (ws.length : ℤ)).toNat < ws.length := by
    omega
  refine getD_ne_of_index hnd hi hj ?_
  intro h
  apply hmodne
  omega

/-- C5: `works_today` implements the three weekend work patterns exactly:
the current week's weekend worker works Mon, Tue, Wed, Thu and Sat
(Pattern A); the previous week's weekend worker — whenever distinct from
the current one — works Sun, Tue, Wed, Thu and Fri (Pattern B); every
other engineer works Mon–Fri; and with the plain (trackerless) rotation,
a duplicate-free roster of at least two engineers and a non-negative week
index, the two weekend workers are indeed distinct. -/
theorem C5_works_today_patterns {d s : Date} {ws : List Eng}
    {ft : Option EnhancedFairnessTracker} {sw : ℤ}
    (hnd : ws.Nodup) (hlen : 2 ≤ ws.length) (hw : 0 ≤ week_index s d) :
    (works_today (current_weekend_worker_of d s ws ft sw) d s ws ft sw =
      ([0, 1, 2, 3, 5] : List ℤ).contains (weekday d)) ∧
    (prev_weekend_worker_of d s ws ft sw ≠ current_weekend_worker_of d s ws ft sw →
      works_today (prev_weekend_worker_of d s ws ft sw) d s ws ft sw =
        ([1, 2, 3, 4, 6] : List ℤ).contains (weekday d)) ∧
    (∀ e : Eng, e ≠ current_weekend_worker_of d s ws ft sw →
      e ≠ prev_weekend_worker_of d s ws ft sw →
      works_today e d s ws ft sw = decide (weekday d ≤ 4)) ∧
    (ft = none →
      prev_weekend_worker_of d s ws ft sw ≠ current_weekend_worker_of d s ws ft sw) := by
  refine ⟨?_, ?_, ?_, ?_⟩
  · rw [works_today_eq, if_pos rfl]
  · intro hne
    rw [works_today_eq, if_neg hne, if_pos rfl]
  · intro e h1 h2
    rw [works_today_eq, if_neg h1, if_neg h2]
  · intro hft
    subst hft
    exact prev_ne_current_of_none hnd hlen hw

/-- Witness for C5 on the concrete Saturday (ordinal 13, week starting
Sunday 7) with the plain A–F rotation and no tracker. -/
theorem C5_works_today_patterns_witness :
    (works_today (current_weekend_worker_of 13 7 ["A","B","C","D","E","F"] none 0) 13 7
        ["A","B","C","D","E","F"] none 0 =
      ([0, 1, 2, 3, 5] : List ℤ).contains (weekday 13)) ∧
    (prev_weekend_worker_of 13 7 ["A","B","C","D","E","F"] none 0 ≠
        current_weekend_worker_of 13 7 ["A","B","C","D","E","F"] none 0 →
      works_today (prev_weekend_worker_of 13 7 ["A","B","C","D","E","F"] none 0) 13 7
          ["A","B","C","D","E","F"] none 0 =
        ([1, 2, 3, 4, 6] : List ℤ).contains (weekday 13)) ∧
    (∀ e : Eng, e ≠ current_weekend_worker_of 13 7 ["A","B","C","D","E","F"] none 0 →
      e ≠ prev_weekend_worker_of 13 7 ["A","B","C","D","E","F"] none 0 →
      works_today e 13 7 ["A","B","C","D","E","F"] none 0 = decide (weekday 13 ≤ 4)) ∧
    ((none : Option EnhancedFairnessTracker) = none →
      prev_weekend_worker_of 13 7 ["A","B","C","D","E","F"] none 0 ≠
        current_weekend_worker_of 13 7 ["A","B","C","D","E","F"] none 0) :=
  C5_works_today_patterns (by decide) (by decide) (by decide)

end Scheduler

namespace Scheduler

lemma sum_zip_range_aux (l : List ℚ) (k : ℕ) :
    (((List.range' k l.length).zip l).map fun p => ((p.1 : ℚ) + 1) * p.2).sum =
      ∑ i ∈ Finset.range l.length, (((k + i : ℕ) : ℚ) + 1) * l.getD i 0 := by
  induction l generalizing k with
  | nil => simp
  | cons x xs ih =>
    rw [List.length_cons, List.range'_succ]
    simp only [List.zip_cons_cons, List.map_cons, List.sum_cons]
    rw [ih (k + 1), Finset.sum_range_succ']
    simp only [List.getD_cons_succ, List.getD_cons_zero]
    have hsum : ∑ i ∈ Finset.range xs.length, (((k + 1 + i : ℕ) : ℚ) + 1) * xs.getD i 0 =
        ∑ i ∈ Finset.range xs.length, (((k + (i + 1) : ℕ) : ℚ) + 1) * xs.getD i 0 := by
      apply Finset.sum_congr rfl
      intro i _
      have he : k + 1 + i = k + (i + 1) := by omega
      rw [he]
    rw [hsum]
    have hk0 : (((k + 0 : ℕ) : ℚ) + 1) * x = ((k : ℚ) + 1) * x := by norm_num
    rw [hk0]
    ring

lemma sum_zip_range (l : List ℚ) :
    (((List.range l.length).zip l).map fun p => ((p.1 : ℚ) + 1) * p.2).sum =
      ∑ i ∈ Finset.range l.length, ((i : ℚ) + 1) * l.getD i 0 := by
  rw [List.range_eq_range', sum_zip_range_aux]
  apply Finset.sum_congr rfl
  intro i _
  norm_num

lemma gini_eq_spec (values : List ℚ) :
    calculate_gini_coefficient values = giniSpec values := by
  unfold calculate_gini_coefficient giniSpec
  simp only []
  have hlen : (stableSortBy (fun a b => decide (a ≤ b)) values).length = values.length :=
    length_stableSortBy _ _
  by_cases h1 : values.length ≤ 1
  · rw [if_pos h1,
      if_pos (show (stableSortBy (fun a b => decide (a ≤ b)) values).length ≤ 1 by
        rw [hlen]; exact h1)]
  · rw [if_neg h1,
      if_neg (show ¬((stableSortBy (fun a b => decide (a ≤ b)) values).length ≤ 1) by
        rw [hlen]; exact h1)]
    split
    · rfl
    · split
      · rfl
      · rw [sum_zip_range]

lemma gini_replicate (n : ℕ) (c : ℚ) :
    calculate_gini_coefficient (List.replicate n c) = 0 := by
  unfold calculate_gini_coefficient
  by_cases h1 : (List.replicate n c).length ≤ 1
  · rw [if_pos h1]
  · rw [if_neg h1]
    simp only []
    have hne : stableSortBy (fun a b => decide (a ≤ b)) (List.replicate n c) ≠ [] := by
      intro h
      have hl := length_stableSortBy (fun a b => decide (a ≤ b)) (List.replicate n c)
      rw [h] at hl
      simp at hl
      rw [List.length_replicate] at h1
      omega
    have hall : (stableSortBy (fun a b => decide (a ≤ b)) (List.replicate n c)).all
        (fun x => decide (x = (stableSortBy (fun a b => decide (a ≤ b))
          (List.replicate n c)).headD 0)) = true := by
      rw [List.all_eq_true]
      intro x hx
      have hxc : x = c := List.eq_of_mem_replicate
        ((stableSortBy_perm (fun a b => decide (a ≤ b)) (List.replicate n c)).mem_iff.1 hx)
      have hh : (stableSortBy (fun a b => decide (a ≤ b))
          (List.replicate n c)).headD 0 = c := List.eq_of_mem_replicate
        ((stableSortBy_perm (fun a b => decide (a ≤ b))
          (List.replicate n c)).mem_iff.1 (headD_mem hne 0))
      rw [hxc, hh]
      simp
    rw [if_pos hall]

end Scheduler

namespace Scheduler

/-- C6: `calculate_gini_coefficient` computes exactly the spec's clamped
formula (2 times the 1-based index-weighted sum over the ascending sort,
divided by n times the total, minus (n+1)/n), returning 0 for lists of at
most one element, all-equal values or zero total; a uniform vector yields
exactly 0, and the input [0,0,0,0,0,5] yields exactly 5/6. -/
theorem C6_gini_formula :
    (∀ values : List ℚ, calculate_gini_coefficient values = giniSpec values) ∧
    (∀ (n : ℕ) (c : ℚ), calculate_gini_coefficient (List.replicate n c) = 0) ∧
    calculate_gini_coefficient [0, 0, 0, 0, 0, 5] = 5 / 6 := by
  refine ⟨gini_eq_spec, gini_replicate, ?_⟩
  with_unfolding_all decide

end Scheduler

namespace Scheduler

/-- C7 (corrected): what `check_all_invariants` actually guarantees: every
row whose `Day` field is literally `"Saturday"` or `"Sunday"` and whose
stripped OnCall value is non-empty produces an error-severity
`no_oncall_weekends` violation listing that row's date and engineer.  The
original claim's further checks do not exist: the checker has no
double-role check and no leave check, and generated rows label days with
the abbreviations `"Sat"`/`"Sun"`, which the weekend matcher does not
match (see the counterexample theorem). -/
theorem C7_weekend_oncall_flagged {engineers : List Eng} {rows : List Row} {row : Row}
    (hrow : row ∈ rows) (hday : row.Day = "Saturday" ∨ row.Day = "Sunday")
    (hoc : row.OnCall.trim ≠ "") :
    ∃ v ∈ check_all_invariants engineers rows,
      v.violation_type = InvariantType.no_oncall_weekends ∧
      v.severity = "error" ∧
      ∃ dates : List String, v.affected_dates = some dates ∧ date_iso row.Date ∈ dates ∧
        ∃ engs : List String, v.affected_engineers = some engs ∧ row.OnCall.trim ∈ engs := by
  have hitem : (⟨date_iso row.Date, row.Day, row.OnCall.trim⟩ : WeekendOncallItem) ∈
      rows.filterMap fun r =>
        if r.Day == "Saturday" || r.Day == "Sunday" then
          if !(r.OnCall.trim == "") then
            some (⟨date_iso r.Date, r.Day, r.OnCall.trim⟩ : WeekendOncallItem)
          else none
        else none := by
    refine List.mem_filterMap.2 ⟨row, hrow, ?_⟩
    have hd : (row.Day == "Saturday" || row.Day == "Sunday") = true := by
      rcases hday with h | h <;> simp [h]
    rw [if_pos hd, if_pos (by simpa using hoc)]
  have hne : (rows.filterMap fun r =>
      if r.Day == "Saturday" || r.Day == "Sunday" then
        if !(r.OnCall.trim == "") then
          some (⟨date_iso r.Date, r.Day, r.OnCall.trim⟩ : WeekendOncallItem)
        else none
      else none) ≠ [] := List.ne_nil_of_mem hitem
  have hcheck : check_no_oncall_weekends rows =
      [{ violation_type := .no_oncall_weekends
         severity := "error"
         message := "Found " ++ toString (rows.filterMap fun r =>
           if r.Day == "Saturday" || r.Day == "Sunday" then
             if !(r.OnCall.trim == "") then
               some (⟨date_iso r.Date, r.Day, r.OnCall.trim⟩ : WeekendOncallItem)
             else none
           else none).length ++ " oncall assignments on weekends"
         details := .weekend_oncalls (rows.filterMap fun r =>
           if r.Day == "Saturday" || r.Day == "Sunday" then
             if !(r.OnCall.trim == "") then
               some (⟨date_iso r.Date, r.Day, r.OnCall.trim⟩ : WeekendOncallItem)
             else none
           else none)
         affected_dates := some ((rows.filterMap fun r =>
           if r.Day == "Saturday" || r.Day == "Sunday" then
             if !(r.OnCall.trim == "") then
               some (⟨date_iso r.Date, r.Day, r.OnCall.trim⟩ : WeekendOncallItem)
             else none
           else none).map (·.date))
         affected_engineers := some ((rows.filterMap fun r =>
           if r.Day == "Saturday" || r.Day == "Sunday" then
             if !(r.OnCall.trim == "") then
               some (⟨date_iso r.Date, r.Day, r.OnCall.trim⟩ : WeekendOncallItem)
             else none
           else none).map (·.engineer)) }] := by
    unfold check_no_oncall_weekends
    rw [if_pos (by simpa [List.isEmpty_iff] using hne)]
  have hmemv : ∀ v : InvariantViolation, check_no_oncall_weekends rows = [v] →
      v ∈ check_all_invariants engineers rows := by
    intro v hv
    unfold check_all_invariants
    rw [hv]
    simp
  refine ⟨_, hmemv _ hcheck, rfl, rfl, _, rfl, ?_, _, rfl, ?_⟩
  · exact List.mem_map.2 ⟨_, hitem, rfl⟩
  · exact List.mem_map.2 ⟨_, hitem, rfl⟩

end Scheduler

namespace Scheduler

set_option maxRecDepth 4000 in
/-- Counterexample to C7 as stated: on the generated 1-week schedule
(roster A–F, all seeds 0, start Sunday ordinal 7, no leave),
`check_all_invariants` reports nothing at all, although the schedule
contains a weekday row on which one engineer holds two roles (Early2 =
Chat ≠ "").  The checker has no double-role or leave checks, and its
weekend matcher looks for `"Saturday"`/`"Sunday"` while generated rows say
`"Sat"`/`"Sun"`. -/
theorem C7_checker_misses_generated_violations :
    check_all_invariants ["A","B","C","D","E","F"]
      (make_schedule_with_decisions_core 7 1 ["A","B","C","D","E","F"] ⟨0,0,0,0,0⟩ []
        false).1 = [] ∧
    ∃ row ∈ (make_schedule_with_decisions_core 7 1 ["A","B","C","D","E","F"] ⟨0,0,0,0,0⟩
        [] false).1, row.Early2 = row.Chat ∧ row.Chat ≠ "" := by
  constructor
  · with_unfolding_all decide
  · with_unfolding_all decide

/-- Witness for C7 (amended) on a one-row literal schedule whose `Day` is
spelled out as `"Saturday"` with OnCall `"X"`. -/
theorem C7_weekend_oncall_flagged_witness :
    ∃ v ∈ check_all_invariants ["A","B","C","D","E","F"]
        [⟨13, "Saturday", 0, "", "", "", "X", "", []⟩],
      v.violation_type = InvariantType.no_oncall_weekends ∧
      v.severity = "error" ∧
      ∃ dates : List String, v.affected_dates = some dates ∧
        date_iso (13 : Date) ∈ dates ∧
      ∃ engs : List String, v.affected_engineers = some engs ∧
        ("X" : String).trim ∈ engs := by
  exact C7_weekend_oncall_flagged
    (show (⟨13, "Saturday", 0, "", "", "", "X", "", []⟩ : Row) ∈
      [(⟨13, "Saturday", 0, "", "", "", "X", "", []⟩ : Row)] by decide)
    (Or.inl rfl) (by with_unfolding_all decide)

end Scheduler

namespace Scheduler

set_option maxRecDepth 8000 in
lemma C9_core_eq :
    make_schedule_with_decisions_core 7 2 ["A","B","C","D","E","F"] ⟨0,0,0,0,0⟩ []
        false =
      (C9state14.rows, C9state14.log.reverse, C9state14.comps) := by
  have h1 : [(7 : ℤ), 8, 9, 10].foldl C9step C9init = C9state4 := by
    with_unfolding_all decide
  have h2 : [(11 : ℤ), 12, 13].foldl C9step C9state4 = C9state7 := by
    with_unfolding_all decide
  have h3 : [(14 : ℤ), 15, 16].foldl C9step C9state7 = C9state10 := by
    with_unfolding_all decide
  have h4 : [(17 : ℤ), 18, 19, 20].foldl C9step C9state10 = C9state14 := by
    with_unfolding_all decide
  have hdates : ((List.range (2 * 7)).map fun i => (7 : Date) + (i : ℤ)) =
      [(7 : ℤ), 8, 9, 10] ++ ([(11 : ℤ), 12, 13] ++
        ([(14 : ℤ), 15, 16] ++ [(17 : ℤ), 18, 19, 20])) := by decide
  have hsplit : make_schedule_with_decisions_core 7 2 ["A","B","C","D","E","F"]
      ⟨0,0,0,0,0⟩ [] false =
      (let final := [(17 : ℤ), 18, 19, 20].foldl C9step
        ([(14 : ℤ), 15, 16].foldl C9step
          ([(11 : ℤ), 12, 13].foldl C9step
            ([(7 : ℤ), 8, 9, 10].foldl C9step C9init)))
       (final.rows, final.log.reverse, final.comps)) := by
    unfold make_schedule_with_decisions_core
    rw [if_neg (show ¬((["A","B","C","D","E","F"] : List Eng).length ≠ 6) from
      fun h => h rfl)]
    simp only [C9step, C9init]
    rw [hdates, List.foldl_append, List.foldl_append, List.foldl_append]
  rw [hsplit]
  simp only []
  rw [h1, h2, h3, h4]

set_option maxRecDepth 8000 in
/-- Counterexample to C9 as stated: in the 2-week run with roster A–F, all
seeds 0 and start Sunday ordinal 7, the weekend workers are "B" (week 0)
and "D" (week 1) — not "A" and "B" — because every weekend-row formatting
call mutates the shared fairness tracker before and between the weekend
picks; and "A" IS the on-call engineer on a week-0 weekday (the
Wednesday). -/
theorem C9_scenario_counterexample :
    (make_schedule_with_decisions_core 7 2 ["A","B","C","D","E","F"] ⟨0,0,0,0,0⟩ []
        false).2.2.map (fun c => c.engineer) = ["B", "D"] ∧
    ∃ row ∈ (make_schedule_with_decisions_core 7 2 ["A","B","C","D","E","F"] ⟨0,0,0,0,0⟩
        [] false).1,
      is_weekday row.Date = true ∧ week_index 7 row.Date = 0 ∧ row.OnCall = "A" := by
  rw [C9_core_eq]
  constructor
  · with_unfolding_all decide
  · with_unfolding_all decide

set_option maxRecDepth 8000 in
/-- C9 (corrected): the computed facts of the spec's end-to-end scenario
(roster A–F, all seeds 0, start at the week boundary ordinal 7, 2 weeks,
no leave): the weekend-compensation records name "B" for the week-0
weekend (Saturday ordinal 13, pattern A+B after the Sunday merge) and "D"
for the week-1 weekend (Saturday ordinal 20, pattern A); and on every
weekday row Early1 equals that day's on-call engineer. -/
theorem C9_two_week_schedule_facts :
    (make_schedule_with_decisions_core 7 2 ["A","B","C","D","E","F"] ⟨0,0,0,0,0⟩ []
        false).2.2 =
      [⟨"B", 13, [19, 15], "A+B"⟩, ⟨"D", 20, [26], "A"⟩] ∧
    ∀ row ∈ (make_schedule_with_decisions_core 7 2 ["A","B","C","D","E","F"] ⟨0,0,0,0,0⟩
        [] false).1,
      is_weekday row.Date = true → row.Early1 = row.OnCall := by
  rw [C9_core_eq]
  constructor
  · with_unfolding_all decide
  · with_unfolding_all decide

end Scheduler

namespace Scheduler

lemma Counts.get_add_self (c : Counts) (r : Role) (w : ℚ) :
    (c.add r w).get r = c.get r + w := by
  cases r <;> rfl

lemma Counts.get_add_ne (c : Counts) (r r' : Role) (w : ℚ) (h : r' ≠ r) :
    (c.add r w).get r' = c.get r' := by
  cases r <;> cases r' <;> first | rfl | exact absurd rfl h

lemma lookup_updAssoc_self {β : Type} (l : List (Eng × β)) (e : Eng) (f : β → β) :
    (updAssoc l e f).lookup e = (l.lookup e).map f := by
  induction l with
  | nil => rfl
  | cons p l ih =>
    obtain ⟨k, v⟩ := p
    simp only [updAssoc, List.map_cons]
    by_cases hk : k = e
    · subst hk
      rw [if_pos rfl]
      simp [List.lookup]
    · rw [if_neg hk]
      have hbe : (e == k) = false := by
        simp [Ne.symm hk]
      simp only [List.lookup, hbe]
      exact ih

lemma lookup_updAssoc_ne {β : Type} (l : List (Eng × β)) (e e' : Eng) (f : β → β)
    (h : e' ≠ e) : (updAssoc l e f).lookup e' = l.lookup e' := by
  induction l with
  | nil => rfl
  | cons p l ih =>
    obtain ⟨k, v⟩ := p
    simp only [updAssoc, List.map_cons]
    by_cases hk : k = e
    · subst hk
      rw [if_pos rfl]
      have hbe : (e' == k) = false := by simp [h]
      simp only [List.lookup, hbe]
      exact ih
    · rw [if_neg hk]
      by_cases hke : (e' == k) = true
      · simp only [List.lookup, hke]
      · have hbe : (e' == k) = false := by
          simp only [Bool.not_eq_true] at hke
          exact hke
        simp only [List.lookup, hbe]
        exact ih

lemma track_weight_history (t : EnhancedFairnessTracker) (e : Eng) (r : Role)
    (ds : String) (w : ℚ) (h : (t.assignment_history.lookup e).isSome) :
    (t.track_assignment_with_weight e r ds w).assignment_history =
      updAssoc t.assignment_history e (·.add r w) := by
  unfold EnhancedFairnessTracker.track_assignment_with_weight
  rw [if_pos h]
  split <;> rfl

lemma track_weight_weekend_assignments (t : EnhancedFairnessTracker) (e : Eng)
    (ds : String) (w : ℚ) (h : (t.assignment_history.lookup e).isSome) :
    (t.track_assignment_with_weight e .weekend ds w).weekend_assignments =
      updAssoc t.weekend_assignments e (· + 1) := by
  unfold EnhancedFairnessTracker.track_assignment_with_weight
  rw [if_pos h]
  rfl

lemma track_weight_engineers (t : EnhancedFairnessTracker) (e : Eng) (r : Role)
    (ds : String) (w : ℚ) :
    (t.track_assignment_with_weight e r ds w).engineers = t.engineers := by
  unfold EnhancedFairnessTracker.track_assignment_with_weight
  repeat' split
  all_goals rfl

lemma ewa_snd (engineers : List Eng) (w : ℤ) (t : EnhancedFairnessTracker) (seed : ℤ) :
    (enhanced_weekend_assignment engineers w t seed).2 =
      t.track_assignment_with_weight (enhanced_weekend_assignment engineers w t seed).1
        .weekend ("week_" ++ toString w) 2 := rfl

/-- C10: `enhanced_weekend_assignment` is not a pure query.  Whenever the
engineer it returns is a key of the tracker's assignment history, the
returned tracker's weekend counter for that engineer grows by exactly 2,
every other engineer's counters and the selected engineer's non-weekend
counters are unchanged, the selected engineer's weekend-assignment tally
grows by 1 (others unchanged), and the roster is unchanged; and since each
call mutates the state it reads, two calls with the same week index 0 in
one run (fresh tracker, roster A–F, seed 0 — exactly the repeated
weekend-row formatting calls of `make_schedule_with_decisions`) return
"A" and then "B". -/
theorem C10_weekend_assignment_frame {engineers : List Eng} {w : ℤ}
    {t : EnhancedFairnessTracker} {seed : ℤ}
    (h : (t.assignment_history.lookup
      (enhanced_weekend_assignment engineers w t seed).1).isSome) :
    ((enhanced_weekend_assignment engineers w t seed).2.count
        (enhanced_weekend_assignment engineers w t seed).1 .weekend =
      t.count (enhanced_weekend_assignment engineers w t seed).1 .weekend + 2) ∧
    (∀ e : Eng, e ≠ (enhanced_weekend_assignment engineers w t seed).1 → ∀ r : Role,
      (enhanced_weekend_assignment engineers w t seed).2.count e r = t.count e r) ∧
    (∀ r : Role, r ≠ .weekend →
      (enhanced_weekend_assignment engineers w t seed).2.count
          (enhanced_weekend_assignment engineers w t seed).1 r =
        t.count (enhanced_weekend_assignment engineers w t seed).1 r) ∧
    ((enhanced_weekend_assignment engineers w t seed).2.weekend_assignments.lookup
        (enhanced_weekend_assignment engineers w t seed).1 =
      (t.weekend_assignments.lookup
        (enhanced_weekend_assignment engineers w t seed).1).map (· + 1)) ∧
    (∀ e : Eng, e ≠ (enhanced_weekend_assignment engineers w t seed).1 →
      (enhanced_weekend_assignment engineers w t seed).2.weekend_assignments.lookup e =
        t.weekend_assignments.lookup e) ∧
    ((enhanced_weekend_assignment engineers w t seed).2.engineers = t.engineers) ∧
    ((enhanced_weekend_assignment ["A","B","C","D","E","F"] 0
        (EnhancedFairnessTracker.fresh ["A","B","C","D","E","F"]) 0).1 = "A" ∧
      (enhanced_weekend_assignment ["A","B","C","D","E","F"] 0
        (enhanced_weekend_assignment ["A","B","C","D","E","F"] 0
          (EnhancedFairnessTracker.fresh ["A","B","C","D","E","F"]) 0).2 0).1 = "B") := by
  obtain ⟨c, hc⟩ := Option.isSome_iff_exists.1 h
  have hhist := track_weight_history t (enhanced_weekend_assignment engineers w t seed).1
    .weekend ("week_" ++ toString w) 2 h
  refine ⟨?_, ?_, ?_, ?_, ?_, ?_, ?_, ?_⟩
  · show ((((enhanced_weekend_assignment engineers w t
        seed).2).assignment_history.lookup _).getD Counts.zero).get .weekend =
      ((t.assignment_history.lookup
        (enhanced_weekend_assignment engineers w t seed).1).getD Counts.zero).get
        .weekend + 2
    rw [ewa_snd, hhist, lookup_updAssoc_self, hc]
    rfl
  · intro e he r
    show ((((enhanced_weekend_assignment engineers w t
        seed).2).assignment_history.lookup e).getD Counts.zero).get r = _
    rw [ewa_snd, hhist, lookup_updAssoc_ne _ _ _ _ he]
    rfl
  · intro r hr
    show ((((enhanced_weekend_assignment engineers w t
        seed).2).assignment_history.lookup _).getD Counts.zero).get r =
      ((t.assignment_history.lookup
        (enhanced_weekend_assignment engineers w t seed).1).getD Counts.zero).get r
    rw [ewa_snd, hhist, lookup_updAssoc_self, hc]
    show (c.add .weekend 2).get r = c.get r
    exact Counts.get_add_ne _ _ _ _ hr
  · rw [ewa_snd, track_weight_weekend_assignments _ _ _ _ h, lookup_updAssoc_self]
  · intro e he
    rw [ewa_snd, track_weight_weekend_assignments _ _ _ _ h,
      lookup_updAssoc_ne _ _ _ _ he]
  · rw [ewa_snd, track_weight_engineers]
  · with_unfolding_all decide
  · with_unfolding_all decide

end Scheduler

namespace Scheduler

/-- Witness for C10 at the fresh A–F tracker, week 0, seed 0 (the selected
engineer is "A"). -/
theorem C10_weekend_assignment_frame_witness :
    ((enhanced_weekend_assignment ["A","B","C","D","E","F"] 0
        (EnhancedFairnessTracker.fresh ["A","B","C","D","E","F"]) 0).2.count
        (enhanced_weekend_assignment ["A","B","C","D","E","F"] 0
          (EnhancedFairnessTracker.fresh ["A","B","C","D","E","F"]) 0).1 .weekend =
      (EnhancedFairnessTracker.fresh ["A","B","C","D","E","F"]).count
        (enhanced_weekend_assignment ["A","B","C","D","E","F"] 0
          (EnhancedFairnessTracker.fresh ["A","B","C","D","E","F"]) 0).1 .weekend + 2) ∧
    (∀ e : Eng, e ≠ (enhanced_weekend_assignment ["A","B","C","D","E","F"] 0
        (EnhancedFairnessTracker.fresh ["A","B","C","D","E","F"]) 0).1 → ∀ r : Role,
      (enhanced_weekend_assignment ["A","B","C","D","E","F"] 0
        (EnhancedFairnessTracker.fresh ["A","B","C","D","E","F"]) 0).2.count e r =
        (EnhancedFairnessTracker.fresh ["A","B","C","D","E","F"]).count e r) ∧
    (∀ r : Role, r ≠ .weekend →
      (enhanced_weekend_assignment ["A","B","C","D","E","F"] 0
        (EnhancedFairnessTracker.fresh ["A","B","C","D","E","F"]) 0).2.count
          (enhanced_weekend_assignment ["A","B","C","D","E","F"] 0
            (EnhancedFairnessTracker.fresh ["A","B","C","D","E","F"]) 0).1 r =
        (EnhancedFairnessTracker.fresh ["A","B","C","D","E","F"]).count
          (enhanced_weekend_assignment ["A","B","C","D","E","F"] 0
            (EnhancedFairnessTracker.fresh ["A","B","C","D","E","F"]) 0).1 r) ∧
    ((enhanced_weekend_assignment ["A","B","C","D","E","F"] 0
        (EnhancedFairnessTracker.fresh
          ["A","B","C","D","E","F"]) 0).2.weekend_assignments.lookup
        (enhanced_weekend_assignment ["A","B","C","D","E","F"] 0
          (EnhancedFairnessTracker.fresh ["A","B","C","D","E","F"]) 0).1 =
      ((EnhancedFairnessTracker.fresh
          ["A","B","C","D","E","F"]).weekend_assignments.lookup
        (enhanced_weekend_assignment ["A","B","C","D","E","F"] 0
          (EnhancedFairnessTracker.fresh ["A","B","C","D","E","F"]) 0).1).map (· + 1)) ∧
    (∀ e : Eng, e ≠ (enhanced_weekend_assignment ["A","B","C","D","E","F"] 0
        (EnhancedFairnessTracker.fresh ["A","B","C","D","E","F"]) 0).1 →
      (enhanced_weekend_assignment ["A","B","C","D","E","F"] 0
        (EnhancedFairnessTracker.fresh
          ["A","B","C","D","E","F"]) 0).2.weekend_assignments.lookup e =
        (EnhancedFairnessTracker.fresh
          ["A","B","C","D","E","F"]).weekend_assignments.lookup e) ∧
    ((enhanced_weekend_assignment ["A","B","C","D","E","F"] 0
        (EnhancedFairnessTracker.fresh ["A","B","C","D","E","F"]) 0).2.engineers =
      (EnhancedFairnessTracker.fresh ["A","B","C","D","E","F"]).engineers) ∧
    ((enhanced_weekend_assignment ["A","B","C","D","E","F"] 0
        (EnhancedFairnessTracker.fresh ["A","B","C","D","E","F"]) 0).1 = "A" ∧
      (enhanced_weekend_assignment ["A","B","C","D","E","F"] 0
        (enhanced_weekend_assignment ["A","B","C","D","E","F"] 0
          (EnhancedFairnessTracker.fresh ["A","B","C","D","E","F"]) 0).2 0).1 = "B") :=
  C10_weekend_assignment_frame (by with_unfolding_all decide)

end Scheduler

namespace Scheduler

lemma attach_eraseTs (clock : ℕ → ℤ) (k : ℕ) (es : List EntryData) :
    (attach_timestamps clock k es).map DecisionEntry.eraseTs = es := by
  induction es generalizing k with
  | nil => rfl
  | cons e es ih =>
    simp only [attach_timestamps, List.map_cons]
    rw [ih (k + 1)]
    rfl

/-- C8 (corrected): schedule generation is deterministic only up to the
wall-clock timestamps embedded in the decision log.  With the ambient
clock made explicit, two runs of `make_schedule_with_decisions` with
identical roster, seeds, leave records and date range produce identical
schedule rows and identical weekend-compensation records for every pair
of clocks, and their decision logs agree entry-for-entry once each
entry's `datetime.now()` timestamp field is erased. -/
theorem C8_determinism_up_to_timestamps (s : Date) (weeks : ℕ) (engineers : List Eng)
    (seeds : Seeds) (leave : List (Eng × Date)) (flag : Bool) (clock1 clock2 : ℕ → ℤ) :
    (make_schedule_with_decisions s weeks engineers seeds leave flag clock1).1 =
      (make_schedule_with_decisions s weeks engineers seeds leave flag clock2).1 ∧
    (make_schedule_with_decisions s weeks engineers seeds leave flag clock1).2.2 =
      (make_schedule_with_decisions s weeks engineers seeds leave flag clock2).2.2 ∧
    ((make_schedule_with_decisions s weeks engineers seeds leave flag
        clock1).2.1).map DecisionEntry.eraseTs =
      ((make_schedule_with_decisions s weeks engineers seeds leave flag
        clock2).2.1).map DecisionEntry.eraseTs := by
  refine ⟨rfl, rfl, ?_⟩
  show (attach_timestamps clock1 0 (make_schedule_with_decisions_core s weeks engineers
      seeds leave flag).2.1).map DecisionEntry.eraseTs =
    (attach_timestamps clock2 0 (make_schedule_with_decisions_core s weeks engineers
      seeds leave flag).2.1).map DecisionEntry.eraseTs
  rw [attach_eraseTs, attach_eraseTs]

/-- Counterexample to C8 as stated: the decision log is NOT identical
across two runs that differ only in the ambient `datetime.now()` clock —
every run logs at least the weekend-rotation-setup entry, and each
`DecisionEntry` stores a creation timestamp sampled from the clock, so
the strict output-identity claimed for re-runs fails (rows and
compensation records do coincide, see the amended theorem). -/
theorem C8_timestamps_break_identity :
    ((make_schedule_with_decisions 7 0 ["A","B","C","D","E","F"] ⟨0,0,0,0,0⟩ [] false
        (fun _ => 0)).2.1.map (fun e => e.timestamp)) = [0] ∧
    ((make_schedule_with_decisions 7 0 ["A","B","C","D","E","F"] ⟨0,0,0,0,0⟩ [] false
        (fun _ => 1)).2.1.map (fun e => e.timestamp)) = [1] ∧
    (make_schedule_with_decisions 7 0 ["A","B","C","D","E","F"] ⟨0,0,0,0,0⟩ [] false
        (fun _ => 0)).2.1 ≠
      (make_schedule_with_decisions 7 0 ["A","B","C","D","E","F"] ⟨0,0,0,0,0⟩ [] false
        (fun _ => 1)).2.1 := by
  refine ⟨by with_unfolding_all decide, by with_unfolding_all decide, ?_⟩
  with_unfolding_all decide

end Scheduler
